import Mathlib

/-!
# Terraform provider for Minecraft: lifecycle handlers

A shallow embedding of the resource handlers of `internal/provider`
(Create / Read / Update / Delete / ImportState of each resource kind) and the
properties of them that the specification states.

Conventions of the embedding.

* A Go `string` is a Lean `String` (a sequence of Unicode code points; the
  framework only hands valid UTF-8 text to the handlers).
* `types.String`, `types.Bool`, `types.Int32`, ... are `TF α`: null, unknown
  or a known value.
* The RCON client (`internal/minecraft`, outside this package) is a
  `Transport`: a deterministic function from the commands issued so far and
  the command issued now to a reply. Every handler takes the history `h` of
  the commands issued before it and returns the commands it issued itself.
* A handler returns a `Resp`: the commands issued, the error and warning
  diagnostics appended, and the state it wrote with `resp.State.Set`
  (`none` when it wrote nothing).
-/

namespace Minecraft

/-! ## Framework values -/

/-- A framework attribute value (`types.String`, `types.Bool`, `types.Int32`, ...). -/
inductive TF (α : Type) where
  | null : TF α
  | unknown : TF α
  | value (a : α) : TF α
  deriving DecidableEq, Repr

namespace TF

/-- Go `IsNull()`. -/
def IsNull {α : Type} : TF α → Bool
  | null => true
  | _ => false

/-- Go `IsUnknown()`. -/
def IsUnknown {α : Type} : TF α → Bool
  | unknown => true
  | _ => false

/-- Go `ValueString()`: the known value, or the empty string. -/
def ValueString : TF String → String
  | value s => s
  | _ => ""

/-- Go `ValueBool()`: the known value, or false. -/
def ValueBool : TF Bool → Bool
  | value b => b
  | _ => false

/-- Go `ValueInt32()`: the known value, or zero. -/
def ValueInt32 : TF Int → Int
  | value i => i
  | _ => 0

/-- Go `ValueInt64()`: the known value, or zero. -/
def ValueInt64 : TF Int → Int
  | value i => i
  | _ => 0

end TF

/-! ## Go standard-library text functions -/

/-- Go `unicode.IsSpace`: the Latin-1 spaces and the runes of the Unicode
White_Space property. -/
def isSpace (c : Char) : Bool :=
  let n := c.toNat
  n == 0x09 || n == 0x0A || n == 0x0B || n == 0x0C || n == 0x0D || n == 0x20 ||
  n == 0x85 || n == 0xA0 || n == 0x1680 || (0x2000 ≤ n && n ≤ 0x200A) ||
  n == 0x2028 || n == 0x2029 || n == 0x202F || n == 0x205F || n == 0x3000

/-- Go `strings.TrimSpace` on the list of runes: leading and trailing spaces removed. -/
def trimSpaceChars (cs : List Char) : List Char :=
  ((cs.dropWhile isSpace).reverse.dropWhile isSpace).reverse

/-- Go `strings.TrimSpace`. -/
def trimSpace (s : String) : String :=
  String.mk (trimSpaceChars s.data)

/-- Go `strings.SplitN(s, sep, n)` for a one-rune separator and `n ≥ 0`, on
lists of runes: at most `n` pieces, the last one being the unsplit remainder. -/
def splitNChars (sep : Char) : Nat → List Char → List (List Char)
  | 0, _ => []
  | 1, cs => [cs]
  | (n + 2), cs =>
    if sep ∈ cs then
      cs.takeWhile (fun c => c != sep) ::
        splitNChars sep (n + 1) ((cs.dropWhile (fun c => c != sep)).drop 1)
    else [cs]

/-- Go `strings.SplitN(s, "|", n)`. -/
def splitN (s : String) (n : Nat) : List String :=
  (splitNChars '|' n s.data).map String.mk

/-- Go `fmt` verb `%d` on an integer. -/
def fmtD (i : Int) : String := toString i

/-- Go `fmt` verb `%t` on a boolean. -/
def fmtT (b : Bool) : String := if b then "true" else "false"

/-- The Go standard-library text functions that depend on Unicode tables kept
outside the repository; the handlers take them as a parameter. -/
structure GoText where
  /-- The `fmt` verb `%q` (`strconv.Quote`). -/
  quote : String → String
  /-- Go `strings.ToLower`. -/
  toLower : String → String

/-- A `GoText` that is right on ASCII letters and on text without quotes,
backslashes or control characters. -/
def asciiText : GoText where
  quote := fun s => String.singleton (Char.ofNat 34) ++ s ++ String.singleton (Char.ofNat 34)
  toLower := fun s => String.mk (s.data.map Char.toLower)

/-! ## The remote channel -/

/-- A call of a method of the RCON client, with its arguments. -/
inductive Cmd where
  | CreateBlock (material : String) (x y z : Int)
  | DeleteBlock (x y z : Int)
  | CreateStairs (material : String) (x y z : Int) (facing half shape : String)
      (waterlogged : Bool)
  | FillBlock (material : String) (x1 y1 z1 x2 y2 z2 : Int)
  | CreateEntity (type pos id : String)
  | CreateSheep (pos id color : String) (sheared : Bool)
  | CreateZombie (pos id : String)
      (isBaby canBreakDoors canPickUpLoot persistenceRequired : Bool) (health : Nat)
  | DeleteEntity (type pos id : String)
  | GetDefaultGameMode
  | SetDefaultGameMode (mode : String)
  | GetUserGameMode (player : String)
  | SetUserGameMode (mode player : String)
  | GetGameRule (name : String)
  | SetGameRuleInt (name : String) (value : Int)
  | SetGameRuleBool (name : String) (value : Bool)
  | ResetGameRuleToDefault (name : String)
  | EnableDayLock
  | DisableDayLock
  | CreateOp (player : String)
  | RemoveOp (player : String)
  | CreateTeam (name display : String)
  | DeleteTeam (name : String)
  | SetTeamDisplayName (name display : String)
  | SetTeamColor (name color : String)
  | SetTeamFriendlyFire (name : String) (enabled : Bool)
  | SetTeamSeeFriendlyInvisibles (name : String) (enabled : Bool)
  | SetTeamNametagVisibility (name mode : String)
  | SetTeamCollisionRule (name rule : String)
  | JoinTeamPlayers (team value : String)
  | JoinTeamTargets (team value : String)
  | JoinTeamEntityByName (team value : String)
  | LeaveTeamPlayers (value : String)
  | LeaveTeamTargets (value : String)
  | LeaveTeamEntityByName (value : String)
  deriving DecidableEq, Repr

/-- What the client returns: the response text, or an error with its text. -/
inductive Reply where
  | ok (text : String)
  | fail (err : String)
  deriving DecidableEq, Repr

/-- The client seen from the handlers: the reply to a command, given the
commands issued before it. -/
abbrev Transport := List Cmd → Cmd → Reply

/-- A diagnostic: summary and detail. -/
structure Diag where
  summary : String
  detail : String
  deriving DecidableEq, Repr

/-- The outcome of a handler. -/
structure Resp (σ : Type) where
  /-- The client calls made, in order. -/
  cmds : List Cmd
  /-- The diagnostics added with `AddError`. -/
  errors : List Diag
  /-- The diagnostics added with `AddWarning`. -/
  warnings : List Diag
  /-- The state written with `resp.State.Set`, if any. -/
  state : Option σ
  deriving DecidableEq, Repr

/-- The diagnostic every handler with a nil-client guard adds when the
provider is not configured. -/
def notConfigured : Diag :=
  ⟨"Client Error",
   "Provider client is not configured. Please configure the provider before using this resource."⟩

/-- A handler that returns right after the nil-client guard. -/
def unconfigured {σ : Type} : Resp σ :=
  { cmds := [], errors := [notConfigured], warnings := [], state := none }

/-- A handler that stops with one error diagnostic and writes no state. -/
def failWith {σ : Type} (cmds : List Cmd) (summary detail : String) : Resp σ :=
  { cmds := cmds, errors := [⟨summary, detail⟩], warnings := [], state := none }

/-- A handler that ends without diagnostics, having written `st`. -/
def succeed {σ : Type} (cmds : List Cmd) (st : σ) : Resp σ :=
  { cmds := cmds, errors := [], warnings := [], state := some st }

/-- A handler that ends without diagnostics and without writing state. -/
def silent {σ : Type} (cmds : List Cmd) : Resp σ :=
  { cmds := cmds, errors := [], warnings := [], state := none }

/-- A handler that ends with one warning diagnostic and writes no state. -/
def warnWith {σ : Type} (cmds : List Cmd) (summary detail : String) : Resp σ :=
  { cmds := cmds, errors := [], warnings := [⟨summary, detail⟩], state := none }

/-! ## Resource models -/

/-- The nested `position` / `start` / `end` struct of the models. -/
structure Position where
  X : TF Int
  Y : TF Int
  Z : TF Int
  deriving DecidableEq, Repr

/-- A position none of whose coordinates is set. It stands for the null object
of a stored state: an object that Create or Update wrote has its coordinates
set, as the schema requires all three. -/
def Position.null : Position := ⟨.null, .null, .null⟩

structure blockResourceModel where
  ID : TF String
  Material : TF String
  Position : Position
  deriving DecidableEq, Repr

structure stairsResourceModel where
  ID : TF String
  Material : TF String
  Position : Position
  Facing : TF String
  Half : TF String
  Shape : TF String
  Waterlogged : TF Bool
  deriving DecidableEq, Repr

structure chestResourceModel where
  ID : TF String
  Size : TF String
  Trapped : TF Bool
  Waterlogged : TF Bool
  Position : Position
  deriving DecidableEq, Repr

structure bedResourceModel where
  ID : TF String
  Material : TF String
  Position : Position
  Direction : TF String
  Occupied : TF Bool
  deriving DecidableEq, Repr

structure fillResourceModel where
  ID : TF String
  Material : TF String
  Start : Position
  End : Position
  deriving DecidableEq, Repr

/-- The entity model; the Go field `Type` is `EntityType` here. -/
structure entityResourceModel where
  ID : TF String
  EntityType : TF String
  Position : Position
  deriving DecidableEq, Repr

structure sheepResourceModel where
  ID : TF String
  Color : TF String
  Sheared : TF Bool
  Position : Position
  deriving DecidableEq, Repr

/-- The zombie model; `Health` is a `types.Float64`, kept as its bit pattern. -/
structure zombieResourceModel where
  ID : TF String
  Position : Position
  IsBaby : TF Bool
  CanBreakDoors : TF Bool
  CanPickUpLoot : TF Bool
  PersistenceRequired : TF Bool
  Health : TF Nat
  deriving DecidableEq, Repr

structure teamResourceModel where
  ID : TF String
  Name : TF String
  DisplayName : TF String
  Color : TF String
  FriendlyFire : TF Bool
  SeeFriendlyInvisibles : TF Bool
  NametagVisibility : TF String
  CollisionRule : TF String
  deriving DecidableEq, Repr

structure teamMemberResourceModel where
  ID : TF String
  Team : TF String
  Player : TF String
  Selector : TF String
  EntityID : TF String
  deriving DecidableEq, Repr

structure opResourceModel where
  ID : TF String
  Player : TF String
  deriving DecidableEq, Repr

structure gamemodeResourceModel where
  ID : TF String
  Mode : TF String
  Player : TF String
  PreviousMode : TF String
  deriving DecidableEq, Repr

structure gameruleResourceModel where
  ID : TF String
  Name : TF String
  Value : TF String
  deriving DecidableEq, Repr

structure daylockResourceModel where
  ID : TF String
  Enabled : TF Bool
  deriving DecidableEq, Repr

/-! ## team_member -/

/-- Go `validateTeamMemberCreate`: the trimmed team, the kind and the trimmed
value of the one target that is set, or the error text. -/
def validateTeamMemberCreate (d : teamMemberResourceModel) :
    Except String (String × String × String) :=
  let team := trimSpace d.Team.ValueString
  if team = "" then .error "`team` is required"
  else
    let s0 : Nat × String × String := (0, "", "")
    let s1 :=
      if !d.Player.IsNull && !d.Player.IsUnknown && trimSpace d.Player.ValueString ≠ "" then
        (s0.1 + 1, "player", trimSpace d.Player.ValueString)
      else s0
    let s2 :=
      if !d.Selector.IsNull && !d.Selector.IsUnknown && trimSpace d.Selector.ValueString ≠ "" then
        (s1.1 + 1, "selector", trimSpace d.Selector.ValueString)
      else s1
    let s3 :=
      if !d.EntityID.IsNull && !d.EntityID.IsUnknown && trimSpace d.EntityID.ValueString ≠ "" then
        (s2.1 + 1, "entity", trimSpace d.EntityID.ValueString)
      else s2
    if s3.1 = 0 then .error "exactly one of `player`, `selector`, or `entity_id` must be set"
    else if s3.1 > 1 then .error "only one of `player`, `selector`, or `entity_id` may be set"
    else .ok (team, s3.2.1, s3.2.2)

/-- Go `pickTeamMemberTarget`: the first target that is set, or two empty strings. -/
def pickTeamMemberTarget (d : teamMemberResourceModel) : String × String :=
  if !d.Player.IsNull && !d.Player.IsUnknown && trimSpace d.Player.ValueString ≠ "" then
    ("player", trimSpace d.Player.ValueString)
  else if !d.Selector.IsNull && !d.Selector.IsUnknown &&
      trimSpace d.Selector.ValueString ≠ "" then
    ("selector", trimSpace d.Selector.ValueString)
  else if !d.EntityID.IsNull && !d.EntityID.IsUnknown &&
      trimSpace d.EntityID.ValueString ≠ "" then
    ("entity", trimSpace d.EntityID.ValueString)
  else ("", "")

/-- Go `parseTeamMemberID`: the second and third piece of the id, or two empty strings. -/
def parseTeamMemberID (id : String) : String × String :=
  match splitN id 3 with
  | [_, kind, value] => (kind, value)
  | _ => ("", "")

/-- The join call of `teamMemberResource.Create` for one kind: the command,
then either the client error or the state with the composite id. -/
def teamMemberJoin (g : GoText) (t : Transport) (h : List Cmd)
    (data : teamMemberResourceModel) (c : Cmd) (what team kind value : String) :
    Resp teamMemberResourceModel :=
  match t h c with
  | .fail err =>
    failWith [c] "Client Error"
      ("Unable to add " ++ what ++ " " ++ g.quote value ++ " to team " ++ g.quote team ++
        ": " ++ err)
  | .ok _ => succeed [c] { data with ID := .value (team ++ "|" ++ kind ++ "|" ++ value) }

/-- Go `teamMemberResource.Create`. -/
def teamMemberCreate (g : GoText) (client : Option Transport) (h : List Cmd)
    (data : teamMemberResourceModel) : Resp teamMemberResourceModel :=
  match client with
  | none => unconfigured
  | some t =>
    match validateTeamMemberCreate data with
    | .error e => failWith [] "Validation Error" e
    | .ok (team, kind, value) =>
      if kind = "player" then
        teamMemberJoin g t h data (.JoinTeamPlayers team value) "player" team kind value
      else if kind = "selector" then
        teamMemberJoin g t h data (.JoinTeamTargets team value) "selector" team kind value
      else if kind = "entity" then
        teamMemberJoin g t h data (.JoinTeamEntityByName team value) "entity" team kind value
      else failWith [] "Validation Error" "Unknown membership kind."

/-- Go `teamMemberResource.Read`. -/
def teamMemberRead (client : Option Transport) (data : teamMemberResourceModel) :
    Resp teamMemberResourceModel :=
  match client with
  | none => unconfigured
  | some _ => succeed [] data

/-- The leave call of `teamMemberResource.Delete` for one kind. -/
def teamMemberLeave (g : GoText) (t : Transport) (h : List Cmd) (c : Cmd)
    (what value : String) : Resp teamMemberResourceModel :=
  match t h c with
  | .fail err =>
    failWith [c] "Client Error"
      ("Unable to remove " ++ what ++ " " ++ g.quote value ++ " from team: " ++ err)
  | .ok _ => silent [c]

/-- Go `teamMemberResource.Delete`. -/
def teamMemberDelete (g : GoText) (client : Option Transport) (h : List Cmd)
    (data : teamMemberResourceModel) : Resp teamMemberResourceModel :=
  match client with
  | none => unconfigured
  | some t =>
    let kv := pickTeamMemberTarget data
    let kv := if kv.1 = "" ∨ kv.2 = "" then parseTeamMemberID data.ID.ValueString else kv
    if kv.2 = "" then silent []
    else if kv.1 = "player" then teamMemberLeave g t h (.LeaveTeamPlayers kv.2) "player" kv.2
    else if kv.1 = "selector" then teamMemberLeave g t h (.LeaveTeamTargets kv.2) "selector" kv.2
    else if kv.1 = "entity" then teamMemberLeave g t h (.LeaveTeamEntityByName kv.2) "entity" kv.2
    else silent []

/-- Go `teamMemberResource.ImportState`. -/
def teamMemberImportState (id : String) : Resp teamMemberResourceModel :=
  match splitN id 3 with
  | [team, kind, value] =>
    let st : teamMemberResourceModel :=
      { ID := .value id, Team := .value team, Player := .null, Selector := .null,
        EntityID := .null }
    if kind = "player" then succeed [] { st with Player := .value value }
    else if kind = "selector" then succeed [] { st with Selector := .value value }
    else if kind = "entity" then succeed [] { st with EntityID := .value value }
    else failWith [] "Import Error" "kind must be one of `player`, `selector`, or `entity`."
  | _ =>
    failWith [] "Import Error"
      "Expected ID in format `team|kind|value` (e.g., `blue|player|Steve`)."

/-! ## Import by id -/

/-! `resource.ImportStatePassthroughID(ctx, path.Root("id"), req, resp)` of the
framework writes the import id to the attribute `id` and nothing else: every
other attribute of the imported state stays null. -/

/-! ## block -/

/-- Go `blockResource.Create` (this handler has no nil-client guard). -/
def blockCreate (t : Transport) (h : List Cmd) (data : blockResourceModel) :
    Resp blockResourceModel :=
  let x := data.Position.X.ValueInt32
  let y := data.Position.Y.ValueInt32
  let z := data.Position.Z.ValueInt32
  let c := Cmd.CreateBlock data.Material.ValueString x y z
  match t h c with
  | .fail err => failWith [c] "Client Error" ("Unable to create block, got error: " ++ err)
  | .ok _ =>
    succeed [c]
      { data with ID := .value ("block-" ++ fmtD x ++ "-" ++ fmtD y ++ "-" ++ fmtD z) }

/-- Go `blockResource.Read`. `req.State.Get` cannot decode a null `position`
object into the plain struct of the model: on the state an import leaves it
reports the framework's `Value Conversion Error`, whose text is `detail`, and
Read returns before `State.Set`. -/
def blockRead (detail : String) (data : blockResourceModel) : Resp blockResourceModel :=
  if data.Position = Position.null then failWith [] "Value Conversion Error" detail
  else succeed [] data

/-- Go `blockResource.Delete`. -/
def blockDelete (t : Transport) (h : List Cmd) (data : blockResourceModel) :
    Resp blockResourceModel :=
  let c := Cmd.DeleteBlock data.Position.X.ValueInt32 data.Position.Y.ValueInt32
    data.Position.Z.ValueInt32
  match t h c with
  | .fail err => failWith [c] "Client Error" ("Unable to delete block, got error: " ++ err)
  | .ok _ => silent [c]

/-- Go `blockResource.ImportState`: the id is passed through. -/
def blockImportState (id : String) : Resp blockResourceModel :=
  succeed [] { ID := .value id, Material := .null, Position := Position.null }

/-! ## stairs -/

/-- Go `stairsResource.Create`. -/
def stairsCreate (client : Option Transport) (h : List Cmd) (data : stairsResourceModel) :
    Resp stairsResourceModel :=
  match client with
  | none => unconfigured
  | some t =>
    let x := data.Position.X.ValueInt32
    let y := data.Position.Y.ValueInt32
    let z := data.Position.Z.ValueInt32
    let c := Cmd.CreateStairs data.Material.ValueString x y z data.Facing.ValueString
      data.Half.ValueString data.Shape.ValueString data.Waterlogged.ValueBool
    match t h c with
    | .fail err => failWith [c] "Client Error" ("Unable to create stairs, got error: " ++ err)
    | .ok _ =>
      succeed [c]
        { data with ID := .value ("stairs-" ++ fmtD x ++ "-" ++ fmtD y ++ "-" ++ fmtD z) }

/-- Go `stairsResource.Read`; a null `position` object fails `req.State.Get` as in `blockRead`. -/
def stairsRead (client : Option Transport) (detail : String) (data : stairsResourceModel) :
    Resp stairsResourceModel :=
  match client with
  | none => unconfigured
  | some _ =>
    if data.Position = Position.null then failWith [] "Value Conversion Error" detail
    else succeed [] data

/-- Go `stairsResource.Delete`. -/
def stairsDelete (client : Option Transport) (h : List Cmd) (data : stairsResourceModel) :
    Resp stairsResourceModel :=
  match client with
  | none => unconfigured
  | some t =>
    let c := Cmd.DeleteBlock data.Position.X.ValueInt32 data.Position.Y.ValueInt32
      data.Position.Z.ValueInt32
    match t h c with
    | .fail err => failWith [c] "Client Error" ("Unable to delete stairs, got error: " ++ err)
    | .ok _ => silent [c]

/-- Go `stairsResource.ImportState`: the id is passed through. -/
def stairsImportState (id : String) : Resp stairsResourceModel :=
  succeed []
    { ID := .value id, Material := .null, Position := Position.null, Facing := .null,
      Half := .null, Shape := .null, Waterlogged := .null }

/-! ## chest -/

/-- The block string of one chest part: `<material>[type=<part>,waterlogged=<bool>]`. -/
def chestBlock (data : chestResourceModel) (part : String) : String :=
  (if data.Trapped.ValueBool then "minecraft:trapped_chest" else "minecraft:chest") ++
    "[type=" ++ part ++ ",waterlogged=" ++ fmtT data.Waterlogged.ValueBool ++ "]"

/-- Go `chestResource.Create`. -/
def chestCreate (client : Option Transport) (h : List Cmd) (data : chestResourceModel) :
    Resp chestResourceModel :=
  match client with
  | none => unconfigured
  | some t =>
    let x := data.Position.X.ValueInt32
    let y := data.Position.Y.ValueInt32
    let z := data.Position.Z.ValueInt32
    let st : chestResourceModel :=
      { data with ID := .value ("chest-" ++ fmtD x ++ "-" ++ fmtD y ++ "-" ++ fmtD z) }
    if data.Size.ValueString = "single" then
      let c := Cmd.CreateBlock (chestBlock data "single") x y z
      match t h c with
      | .fail err => failWith [c] "Client Error" ("Unable to place single chest: " ++ err)
      | .ok _ => succeed [c] st
    else if data.Size.ValueString = "double" then
      let cl := Cmd.CreateBlock (chestBlock data "left") x y z
      let cr := Cmd.CreateBlock (chestBlock data "right") (x + 1) y z
      match t h cl with
      | .fail err =>
        failWith [cl] "Client Error" ("Unable to place left half of double chest: " ++ err)
      | .ok _ =>
        match t (h ++ [cl]) cr with
        | .fail err =>
          failWith [cl, cr, .DeleteBlock x y z] "Client Error"
            ("Unable to place right half of double chest: " ++ err)
        | .ok _ => succeed [cl, cr] st
    else failWith [] "Validation Error" "size must be 'single' or 'double'"

/-- Go `chestResource.Read`; a null `position` object fails `req.State.Get` as in `blockRead`. -/
def chestRead (client : Option Transport) (detail : String) (data : chestResourceModel) :
    Resp chestResourceModel :=
  match client with
  | none => unconfigured
  | some _ =>
    if data.Position = Position.null then failWith [] "Value Conversion Error" detail
    else succeed [] data

/-- Go `chestResource.Delete`: the replies of the client are dropped. -/
def chestDelete (client : Option Transport) (data : chestResourceModel) :
    Resp chestResourceModel :=
  match client with
  | none => unconfigured
  | some _ =>
    let x := data.Position.X.ValueInt32
    let y := data.Position.Y.ValueInt32
    let z := data.Position.Z.ValueInt32
    if data.Size.ValueString = "double" then
      silent [.DeleteBlock x y z, .DeleteBlock (x + 1) y z]
    else silent [.DeleteBlock x y z]

/-- Go `chestResource.ImportState`: the id is passed through. -/
def chestImportState (id : String) : Resp chestResourceModel :=
  succeed []
    { ID := .value id, Size := .null, Trapped := .null, Waterlogged := .null,
      Position := Position.null }

/-! ## bed -/

/-- Go `bedOffset`: the step from the foot to the head, and whether the facing is valid. -/
def bedOffset (facing : String) : Int × Int × Bool :=
  if facing = "north" then (0, -1, true)
  else if facing = "south" then (0, 1, true)
  else if facing = "east" then (1, 0, true)
  else if facing = "west" then (-1, 0, true)
  else (0, 0, false)

/-- The block string of one bed part: `<material>[facing=<dir>,part=<part>,occupied=<bool>]`. -/
def bedBlock (data : bedResourceModel) (part : String) : String :=
  data.Material.ValueString ++ "[facing=" ++ data.Direction.ValueString ++ ",part=" ++ part ++
    ",occupied=" ++ fmtT data.Occupied.ValueBool ++ "]"

/-- Go `bedResource.Create` (this handler has no nil-client guard). -/
def bedCreate (t : Transport) (h : List Cmd) (data : bedResourceModel) :
    Resp bedResourceModel :=
  let off := bedOffset data.Direction.ValueString
  if off.2.2 = false then
    failWith [] "Validation Error" "direction must be one of north|south|east|west"
  else
    let x := data.Position.X.ValueInt32
    let y := data.Position.Y.ValueInt32
    let z := data.Position.Z.ValueInt32
    let cf := Cmd.CreateBlock (bedBlock data "foot") x y z
    match t h cf with
    | .fail err => failWith [cf] "Client Error" ("Unable to place bed foot: " ++ err)
    | .ok _ =>
      let ch := Cmd.CreateBlock (bedBlock data "head") (x + off.1) y (z + off.2.1)
      match t (h ++ [cf]) ch with
      | .fail err =>
        failWith [cf, ch, .DeleteBlock x y z] "Client Error"
          ("Unable to place bed head: " ++ err)
      | .ok _ =>
        succeed [cf, ch]
          { data with
            ID := .value ("bed-" ++ fmtD x ++ "-" ++ fmtD y ++ "-" ++ fmtD z ++ "-" ++
              data.Direction.ValueString) }

/-- Go `bedResource.Read`; a null `position` object fails `req.State.Get` as in `blockRead`. -/
def bedRead (detail : String) (data : bedResourceModel) : Resp bedResourceModel :=
  if data.Position = Position.null then failWith [] "Value Conversion Error" detail
  else succeed [] data

/-- Go `bedResource.Delete`: the replies of the client are dropped. -/
def bedDelete (data : bedResourceModel) : Resp bedResourceModel :=
  let off := bedOffset data.Direction.ValueString
  let x := data.Position.X.ValueInt32
  let y := data.Position.Y.ValueInt32
  let z := data.Position.Z.ValueInt32
  if off.2.2 then silent [.DeleteBlock x y z, .DeleteBlock (x + off.1) y (z + off.2.1)]
  else silent [.DeleteBlock x y z]

/-- Go `bedResource.ImportState`: the id is passed through. -/
def bedImportState (id : String) : Resp bedResourceModel :=
  succeed []
    { ID := .value id, Material := .null, Position := Position.null, Direction := .null,
      Occupied := .null }

/-! ## fill -/

/-- The id of a filled region: `<material>|<x1>,<y1>,<z1>-><x2>,<y2>,<z2>`. -/
def fillID (data : fillResourceModel) : String :=
  data.Material.ValueString ++ "|" ++ fmtD data.Start.X.ValueInt32 ++ "," ++
    fmtD data.Start.Y.ValueInt32 ++ "," ++ fmtD data.Start.Z.ValueInt32 ++ "->" ++
    fmtD data.End.X.ValueInt32 ++ "," ++ fmtD data.End.Y.ValueInt32 ++ "," ++
    fmtD data.End.Z.ValueInt32

/-- The `FillBlock` call over the region of the model with the given material. -/
def fillCmd (material : String) (data : fillResourceModel) : Cmd :=
  .FillBlock material data.Start.X.ValueInt32 data.Start.Y.ValueInt32 data.Start.Z.ValueInt32
    data.End.X.ValueInt32 data.End.Y.ValueInt32 data.End.Z.ValueInt32

/-- Go `fillResource.Create`. -/
def fillCreate (client : Option Transport) (h : List Cmd) (data : fillResourceModel) :
    Resp fillResourceModel :=
  match client with
  | none => unconfigured
  | some t =>
    let c := fillCmd data.Material.ValueString data
    match t h c with
    | .fail err => failWith [c] "Client Error" ("Unable to fill region: " ++ err)
    | .ok _ => succeed [c] { data with ID := .value (fillID data) }

/-- Go `fillResource.Read`; a null `start` or `end` object fails `req.State.Get` as
in `blockRead`. -/
def fillRead (client : Option Transport) (detail : String) (data : fillResourceModel) :
    Resp fillResourceModel :=
  match client with
  | none => unconfigured
  | some _ =>
    if data.Start = Position.null ∨ data.End = Position.null then
      failWith [] "Value Conversion Error" detail
    else succeed [] data

/-- Go `fillResource.Delete`. -/
def fillDelete (client : Option Transport) (h : List Cmd) (data : fillResourceModel) :
    Resp fillResourceModel :=
  match client with
  | none => unconfigured
  | some t =>
    let c := fillCmd "minecraft:air" data
    match t h c with
    | .fail err => failWith [c] "Client Error" ("Unable to clear region: " ++ err)
    | .ok _ => silent [c]

/-- Go `fillResource.ImportState`: the id is passed through. -/
def fillImportState (id : String) : Resp fillResourceModel :=
  succeed []
    { ID := .value id, Material := .null, Start := Position.null, End := Position.null }

/-! ## entity, sheep, zombie -/

/-- The position string of the entity commands: `<x> <y> <z>`. -/
def entityPos (x y z : Int) : String :=
  fmtD x ++ " " ++ fmtD y ++ " " ++ fmtD z

/-- Go `entityResource.Read`; a null `position` object fails `req.State.Get` as in `blockRead`. -/
def entityRead (client : Option Transport) (detail : String) (data : entityResourceModel) :
    Resp entityResourceModel :=
  match client with
  | none => unconfigured
  | some _ =>
    if data.Position = Position.null then failWith [] "Value Conversion Error" detail
    else succeed [] data

/-- Go `entityResource.Delete`. -/
def entityDelete (client : Option Transport) (h : List Cmd) (data : entityResourceModel) :
    Resp entityResourceModel :=
  match client with
  | none => unconfigured
  | some t =>
    let c := Cmd.DeleteEntity data.EntityType.ValueString
      (entityPos data.Position.X.ValueInt32 data.Position.Y.ValueInt32
        data.Position.Z.ValueInt32)
      data.ID.ValueString
    match t h c with
    | .fail err => failWith [c] "Client Error" ("Unable to delete entity: " ++ err)
    | .ok _ => silent [c]

/-- Go `sheepResource.Read`; a null `position` object fails `req.State.Get` as in `blockRead`. -/
def sheepRead (client : Option Transport) (detail : String) (data : sheepResourceModel) :
    Resp sheepResourceModel :=
  match client with
  | none => unconfigured
  | some _ =>
    if data.Position = Position.null then failWith [] "Value Conversion Error" detail
    else succeed [] data

/-- Go `sheepResource.Delete`. -/
def sheepDelete (client : Option Transport) (h : List Cmd) (data : sheepResourceModel) :
    Resp sheepResourceModel :=
  match client with
  | none => unconfigured
  | some t =>
    let c := Cmd.DeleteEntity "minecraft:sheep"
      (entityPos data.Position.X.ValueInt32 data.Position.Y.ValueInt32
        data.Position.Z.ValueInt32)
      data.ID.ValueString
    match t h c with
    | .fail err => failWith [c] "Client Error" ("Unable to delete sheep: " ++ err)
    | .ok _ => silent [c]

/-- Go `zombieResource.Read`; a null `position` object fails `req.State.Get` as in `blockRead`. -/
def zombieRead (client : Option Transport) (detail : String) (data : zombieResourceModel) :
    Resp zombieResourceModel :=
  match client with
  | none => unconfigured
  | some _ =>
    if data.Position = Position.null then failWith [] "Value Conversion Error" detail
    else succeed [] data

/-- Go `zombieResource.Delete`. -/
def zombieDelete (client : Option Transport) (h : List Cmd) (data : zombieResourceModel) :
    Resp zombieResourceModel :=
  match client with
  | none => unconfigured
  | some t =>
    let c := Cmd.DeleteEntity "minecraft:zombie"
      (entityPos data.Position.X.ValueInt64 data.Position.Y.ValueInt64
        data.Position.Z.ValueInt64)
      data.ID.ValueString
    match t h c with
    | .fail err => failWith [c] "Client Error" ("Unable to delete zombie: " ++ err)
    | .ok _ => silent [c]

/-! ## team -/

/-- Go `teamResource.Read`. -/
def teamRead (client : Option Transport) (data : teamResourceModel) :
    Resp teamResourceModel :=
  match client with
  | none => unconfigured
  | some _ => succeed [] data

/-- Go `teamResource.Delete`. -/
def teamDelete (client : Option Transport) (h : List Cmd) (state : teamResourceModel) :
    Resp teamResourceModel :=
  match client with
  | none => unconfigured
  | some t =>
    let name := trimSpace state.Name.ValueString
    let name := if name = "" then trimSpace state.ID.ValueString else name
    if name = "" then failWith [] "Validation Error" "Missing team name for delete."
    else
      let c := Cmd.DeleteTeam name
      match t h c with
      | .fail err => failWith [c] "Client Error" ("Unable to delete team: " ++ err)
      | .ok _ => silent [c]

/-! ## op -/

/-- Go `opResource.Read`. -/
def opRead (client : Option Transport) (data : opResourceModel) : Resp opResourceModel :=
  match client with
  | none => unconfigured
  | some _ => succeed [] data

/-- Go `opResource.Delete`. -/
def opDelete (g : GoText) (client : Option Transport) (h : List Cmd)
    (data : opResourceModel) : Resp opResourceModel :=
  match client with
  | none => unconfigured
  | some t =>
    let player := trimSpace data.Player.ValueString
    if player = "" then silent []
    else
      let c := Cmd.RemoveOp player
      match t h c with
      | .fail err =>
        failWith [c] "Client Error"
          ("Unable to revoke operator from " ++ g.quote player ++ ": " ++ err)
      | .ok _ => silent [c]

/-! ## gamemode -/

/-- Go `gamemodeResource.Read`. -/
def gamemodeRead (client : Option Transport) (data : gamemodeResourceModel) :
    Resp gamemodeResourceModel :=
  match client with
  | none => unconfigured
  | some _ => succeed [] data

/-- Go `gamemodeResource.Delete`. -/
def gamemodeDelete (g : GoText) (client : Option Transport) (h : List Cmd)
    (state : gamemodeResourceModel) : Resp gamemodeResourceModel :=
  match client with
  | none => unconfigured
  | some t =>
    let prev := trimSpace state.PreviousMode.ValueString
    if prev = "" then silent []
    else
      let player := trimSpace state.Player.ValueString
      if player = "" then
        let c := Cmd.SetDefaultGameMode prev
        match t h c with
        | .fail err =>
          warnWith [c] "Restore Warning"
            ("Failed to restore default gamemode to " ++ g.quote prev ++ ": " ++ err)
        | .ok _ => silent [c]
      else
        let c := Cmd.SetUserGameMode prev player
        match t h c with
        | .fail err =>
          warnWith [c] "Restore Warning"
            ("Failed to restore " ++ g.quote player ++ " gamemode to " ++ g.quote prev ++
              ": " ++ err)
        | .ok _ => silent [c]

/-! ## gamerule -/

/-- Go `strconv.Atoi`: an optional sign and one or more decimal digits, the
value within the 64-bit `int`; `none` is the conversion error. -/
def atoi (s : String) : Option Int :=
  let body : Bool × List Char :=
    match s.data with
    | '-' :: r => (true, r)
    | '+' :: r => (false, r)
    | cs => (false, cs)
  if body.2 = [] ∨ body.2.all Char.isDigit = false then none
  else
    let n : Nat := body.2.foldl (fun a c => 10 * a + (c.toNat - 48)) 0
    let v : Int := if body.1 then -(n : Int) else (n : Int)
    if -(2 : Int) ^ 63 ≤ v ∧ v < (2 : Int) ^ 63 then some v else none

/-- The write of `gameruleResource.Create` and `Update`: the command, then
either the client error or the state `st`. -/
def gameruleSet (g : GoText) (t : Transport) (h : List Cmd) (c : Cmd) (name : String)
    (st : gameruleResourceModel) : Resp gameruleResourceModel :=
  match t h c with
  | .fail err =>
    failWith [c] "Client Error" ("Unable to set gamerule " ++ g.quote name ++ ": " ++ err)
  | .ok _ => succeed [c] st

/-- Go `gameruleResource.Create`. -/
def gameruleCreate (g : GoText) (client : Option Transport) (h : List Cmd)
    (data : gameruleResourceModel) : Resp gameruleResourceModel :=
  match client with
  | none => unconfigured
  | some t =>
    let name := trimSpace data.Name.ValueString
    let val := trimSpace data.Value.ValueString
    match atoi val with
    | some i => gameruleSet g t h (.SetGameRuleInt name i) name { data with ID := .value name }
    | none =>
      let lv := g.toLower val
      if lv = "true" ∨ lv = "false" then
        gameruleSet g t h (.SetGameRuleBool name (lv == "true")) name
          { data with ID := .value name }
      else
        failWith [] "Invalid Gamerule Value"
          ("Value " ++ g.quote val ++ " is neither an integer nor true/false.")

/-- Go `gameruleResource.Read`: the value is read back from the server. -/
def gameruleRead (g : GoText) (client : Option Transport) (h : List Cmd)
    (data : gameruleResourceModel) : Resp gameruleResourceModel :=
  match client with
  | none => unconfigured
  | some t =>
    let name := trimSpace data.Name.ValueString
    let c := Cmd.GetGameRule name
    match t h c with
    | .fail err =>
      failWith [c] "Client Error" ("Unable to read gamerule " ++ g.quote name ++ ": " ++ err)
    | .ok raw => succeed [c] { data with Value := .value (trimSpace raw) }

/-- Go `gameruleResource.Delete`. -/
def gameruleDelete (g : GoText) (client : Option Transport) (h : List Cmd)
    (data : gameruleResourceModel) : Resp gameruleResourceModel :=
  match client with
  | none => unconfigured
  | some t =>
    let name := trimSpace data.Name.ValueString
    let c := Cmd.ResetGameRuleToDefault name
    match t h c with
    | .fail err =>
      warnWith [c] "Reset Warning"
        ("Could not reset gamerule " ++ g.quote name ++ " to default: " ++ err)
    | .ok _ => silent [c]

/-! ## daylock -/

/-- Go `daylockResource.Create`. -/
def daylockCreate (client : Option Transport) (h : List Cmd) (data : daylockResourceModel) :
    Resp daylockResourceModel :=
  match client with
  | none => unconfigured
  | some t =>
    if data.Enabled.ValueBool then
      match t h .EnableDayLock with
      | .fail err =>
        failWith [.EnableDayLock] "Client Error" ("Failed to enable daylock: " ++ err)
      | .ok _ => succeed [.EnableDayLock] { data with ID := .value "default" }
    else
      match t h .DisableDayLock with
      | .fail err =>
        failWith [.DisableDayLock] "Client Error" ("Failed to disable daylock: " ++ err)
      | .ok _ => succeed [.DisableDayLock] { data with ID := .value "default" }

/-- Go `daylockResource.Read`. -/
def daylockRead (client : Option Transport) (data : daylockResourceModel) :
    Resp daylockResourceModel :=
  match client with
  | none => unconfigured
  | some _ => succeed [] data

/-- Go `daylockResource.Delete`: the state is not read. -/
def daylockDelete (client : Option Transport) (h : List Cmd) : Resp daylockResourceModel :=
  match client with
  | none => unconfigured
  | some t =>
    match t h .DisableDayLock with
    | .fail err =>
      warnWith [.DisableDayLock] "Delete Warning"
        ("Failed to disable daylock during destroy: " ++ err)
    | .ok _ => silent [.DisableDayLock]

/-! ## Update, and the remaining Create and ImportState handlers -/

/-- Go `blockResource.Update`. -/
def blockUpdate (t : Transport) (h : List Cmd) (data : blockResourceModel) :
    Resp blockResourceModel :=
  let c := Cmd.CreateBlock data.Material.ValueString data.Position.X.ValueInt32
    data.Position.Y.ValueInt32 data.Position.Z.ValueInt32
  match t h c with
  | .fail err => failWith [c] "Client Error" ("Unable to update block, got error: " ++ err)
  | .ok _ => succeed [c] data

/-- Go `stairsResource.Update`. -/
def stairsUpdate (client : Option Transport) (h : List Cmd) (data : stairsResourceModel) :
    Resp stairsResourceModel :=
  match client with
  | none => unconfigured
  | some t =>
    let c := Cmd.CreateStairs data.Material.ValueString data.Position.X.ValueInt32
      data.Position.Y.ValueInt32 data.Position.Z.ValueInt32 data.Facing.ValueString
      data.Half.ValueString data.Shape.ValueString data.Waterlogged.ValueBool
    match t h c with
    | .fail err => failWith [c] "Client Error" ("Unable to update stairs, got error: " ++ err)
    | .ok _ => succeed [c] data

/-- Go `chestResource.Update`: no DeleteBlock when the right half fails. -/
def chestUpdate (client : Option Transport) (h : List Cmd) (data : chestResourceModel) :
    Resp chestResourceModel :=
  match client with
  | none => unconfigured
  | some t =>
    let x := data.Position.X.ValueInt32
    let y := data.Position.Y.ValueInt32
    let z := data.Position.Z.ValueInt32
    if data.Size.ValueString = "single" then
      let c := Cmd.CreateBlock (chestBlock data "single") x y z
      match t h c with
      | .fail err => failWith [c] "Client Error" ("Unable to update single chest: " ++ err)
      | .ok _ => succeed [c] data
    else if data.Size.ValueString = "double" then
      let cl := Cmd.CreateBlock (chestBlock data "left") x y z
      let cr := Cmd.CreateBlock (chestBlock data "right") (x + 1) y z
      match t h cl with
      | .fail err =>
        failWith [cl] "Client Error" ("Unable to update left half of double chest: " ++ err)
      | .ok _ =>
        match t (h ++ [cl]) cr with
        | .fail err =>
          failWith [cl, cr] "Client Error"
            ("Unable to update right half of double chest: " ++ err)
        | .ok _ => succeed [cl, cr] data
    else failWith [] "Validation Error" "size must be 'single' or 'double'"

/-- Go `bedResource.Update`: no DeleteBlock when the head fails, and the id is left as planned. -/
def bedUpdate (t : Transport) (h : List Cmd) (data : bedResourceModel) :
    Resp bedResourceModel :=
  let off := bedOffset data.Direction.ValueString
  if off.2.2 = false then
    failWith [] "Validation Error" "direction must be one of north|south|east|west"
  else
    let x := data.Position.X.ValueInt32
    let y := data.Position.Y.ValueInt32
    let z := data.Position.Z.ValueInt32
    let cf := Cmd.CreateBlock (bedBlock data "foot") x y z
    match t h cf with
    | .fail err => failWith [cf] "Client Error" ("Unable to update bed foot: " ++ err)
    | .ok _ =>
      let ch := Cmd.CreateBlock (bedBlock data "head") (x + off.1) y (z + off.2.1)
      match t (h ++ [cf]) ch with
      | .fail err => failWith [cf, ch] "Client Error" ("Unable to update bed head: " ++ err)
      | .ok _ => succeed [cf, ch] data

/-- Go `fillResource.Update`: the id is built anew from the plan. -/
def fillUpdate (client : Option Transport) (h : List Cmd) (data : fillResourceModel) :
    Resp fillResourceModel :=
  match client with
  | none => unconfigured
  | some t =>
    let c := fillCmd data.Material.ValueString data
    match t h c with
    | .fail err => failWith [c] "Client Error" ("Unable to update filled region: " ++ err)
    | .ok _ => succeed [c] { data with ID := .value (fillID data) }

/-- Go `entityResource.Create`; `id` is the token `uuid.NewString()` returned. -/
def entityCreate (client : Option Transport) (h : List Cmd) (id : String)
    (data : entityResourceModel) : Resp entityResourceModel :=
  match client with
  | none => unconfigured
  | some t =>
    let c := Cmd.CreateEntity data.EntityType.ValueString
      (entityPos data.Position.X.ValueInt32 data.Position.Y.ValueInt32
        data.Position.Z.ValueInt32) id
    match t h c with
    | .fail err => failWith [c] "Client Error" ("Unable to summon entity: " ++ err)
    | .ok _ => succeed [c] { data with ID := .value id }

/-- Go `entityResource.Update`. -/
def entityUpdate (client : Option Transport) (data : entityResourceModel) :
    Resp entityResourceModel :=
  match client with
  | none => unconfigured
  | some _ => succeed [] data

/-- Go `sheepResource.Create`; `id` is the token `uuid.NewString()` returned. -/
def sheepCreate (g : GoText) (client : Option Transport) (h : List Cmd) (id : String)
    (data : sheepResourceModel) : Resp sheepResourceModel :=
  match client with
  | none => unconfigured
  | some t =>
    let c := Cmd.CreateSheep
      (entityPos data.Position.X.ValueInt32 data.Position.Y.ValueInt32
        data.Position.Z.ValueInt32) id (g.toLower data.Color.ValueString)
      data.Sheared.ValueBool
    match t h c with
    | .fail err => failWith [c] "Client Error" ("Unable to summon sheep: " ++ err)
    | .ok _ => succeed [c] { data with ID := .value id }

/-- Go `sheepResource.Update`. -/
def sheepUpdate (client : Option Transport) (data : sheepResourceModel) :
    Resp sheepResourceModel :=
  match client with
  | none => unconfigured
  | some _ => succeed [] data

/-- Go `ValueFloat64()` on the bit pattern: the known value, or zero. -/
def TF.ValueFloat64 : TF Nat → Nat
  | .value b => b
  | _ => 0

/-- Go `zombieResource.Create`; `id` is the token `uuid.NewString()` returned and
`toFloat32` the conversion `float32(x)` on bit patterns. -/
def zombieCreate (toFloat32 : Nat → Nat) (client : Option Transport) (h : List Cmd)
    (id : String) (data : zombieResourceModel) : Resp zombieResourceModel :=
  match client with
  | none => unconfigured
  | some t =>
    let c := Cmd.CreateZombie
      (entityPos data.Position.X.ValueInt64 data.Position.Y.ValueInt64
        data.Position.Z.ValueInt64) id data.IsBaby.ValueBool data.CanBreakDoors.ValueBool
      data.CanPickUpLoot.ValueBool data.PersistenceRequired.ValueBool
      (toFloat32 data.Health.ValueFloat64)
    match t h c with
    | .fail err => failWith [c] "Client Error" ("Unable to summon zombie: " ++ err)
    | .ok _ => succeed [c] { data with ID := .value id }

/-- Go `zombieResource.Update`. -/
def zombieUpdate (client : Option Transport) (data : zombieResourceModel) :
    Resp zombieResourceModel :=
  match client with
  | none => unconfigured
  | some _ => succeed [] data

/-- Go `teamMemberResource.Update`. -/
def teamMemberUpdate (client : Option Transport) (data : teamMemberResourceModel) :
    Resp teamMemberResourceModel :=
  match client with
  | none => unconfigured
  | some _ => succeed [] data

/-- Go `opResource.Create`. -/
def opCreate (g : GoText) (client : Option Transport) (h : List Cmd)
    (data : opResourceModel) : Resp opResourceModel :=
  match client with
  | none => unconfigured
  | some t =>
    let player := trimSpace data.Player.ValueString
    if player = "" then
      failWith [] "Validation Error" "Attribute `player` cannot be empty or whitespace."
    else
      let c := Cmd.CreateOp player
      match t h c with
      | .fail err =>
        failWith [c] "Client Error"
          ("Unable to grant operator to " ++ g.quote player ++ ": " ++ err)
      | .ok _ => succeed [c] { data with ID := .value player }

/-- Go `opResource.Update`. -/
def opUpdate (client : Option Transport) (data : opResourceModel) : Resp opResourceModel :=
  match client with
  | none => unconfigured
  | some _ => succeed [] data

/-- Go `stringValuesEqual`. -/
def stringValuesEqual (a b : TF String) : Bool :=
  if a.IsNull && b.IsNull then true
  else if a.IsUnknown || b.IsUnknown then false
  else a.ValueString == b.ValueString

/-- Issue the commands in order and stop at the first one that fails: the
commands issued, and the error text (the prefix of the command followed by the
client error) if one failed. -/
def runInOrder (t : Transport) (h : List Cmd) : List (Cmd × String) → List Cmd × Option String
  | [] => ([], none)
  | (c, what) :: rest =>
    match t h c with
    | .fail err => ([c], some (what ++ err))
    | .ok _ => (c :: (runInOrder t (h ++ [c]) rest).1, (runInOrder t (h ++ [c]) rest).2)

/-- The option commands of `applyTeamOptions`, in the order of the source,
each with the prefix of its error. -/
def teamOptions (g : GoText) (name : String) (d : teamResourceModel) : List (Cmd × String) :=
  (if !d.Color.IsNull && !d.Color.IsUnknown && trimSpace d.Color.ValueString ≠ "" then
    [(Cmd.SetTeamColor name (g.toLower d.Color.ValueString), "unable to set color: ")]
   else []) ++
  (if !d.FriendlyFire.IsNull && !d.FriendlyFire.IsUnknown then
    [(Cmd.SetTeamFriendlyFire name d.FriendlyFire.ValueBool, "unable to set friendlyFire: ")]
   else []) ++
  (if !d.SeeFriendlyInvisibles.IsNull && !d.SeeFriendlyInvisibles.IsUnknown then
    [(Cmd.SetTeamSeeFriendlyInvisibles name d.SeeFriendlyInvisibles.ValueBool,
      "unable to set seeFriendlyInvisibles: ")]
   else []) ++
  (if !d.NametagVisibility.IsNull && !d.NametagVisibility.IsUnknown &&
      trimSpace d.NametagVisibility.ValueString ≠ "" then
    [(Cmd.SetTeamNametagVisibility name d.NametagVisibility.ValueString,
      "unable to set nametagVisibility: ")]
   else []) ++
  (if !d.CollisionRule.IsNull && !d.CollisionRule.IsUnknown &&
      trimSpace d.CollisionRule.ValueString ≠ "" then
    [(Cmd.SetTeamCollisionRule name d.CollisionRule.ValueString,
      "unable to set collisionRule: ")]
   else [])

/-- Go `applyTeamOptions`: the commands issued and the error, if any. -/
def applyTeamOptions (g : GoText) (t : Transport) (h : List Cmd) (name : String)
    (d : teamResourceModel) : List Cmd × Option String :=
  runInOrder t h (teamOptions g name d)

/-- The display name of `teamResource.Create` and `Update`: the trimmed
`display_name` when it is set and not blank, the team name otherwise. -/
def teamDisplay (name : String) (d : teamResourceModel) : String :=
  if !d.DisplayName.IsNull && !d.DisplayName.IsUnknown &&
      trimSpace d.DisplayName.ValueString ≠ "" then
    trimSpace d.DisplayName.ValueString
  else name

/-- Go `teamResource.Create`: no DeleteTeam when an option fails. -/
def teamCreate (g : GoText) (client : Option Transport) (h : List Cmd)
    (data : teamResourceModel) : Resp teamResourceModel :=
  match client with
  | none => unconfigured
  | some t =>
    let name := trimSpace data.Name.ValueString
    if name = "" then
      failWith [] "Validation Error" "Attribute `name` cannot be empty or whitespace."
    else
      let c := Cmd.CreateTeam name (teamDisplay name data)
      match t h c with
      | .fail err => failWith [c] "Client Error" ("Unable to create team: " ++ err)
      | .ok _ =>
        match applyTeamOptions g t (h ++ [c]) name data with
        | (cs, some e) => failWith (c :: cs) "Client Error" e
        | (cs, none) => succeed (c :: cs) { data with ID := .value name }

/-- The tail of `teamResource.Update`: the options, then the id and the state. -/
def teamUpdateOptions (g : GoText) (t : Transport) (h : List Cmd) (issued : List Cmd)
    (name : String) (plan : teamResourceModel) : Resp teamResourceModel :=
  match applyTeamOptions g t (h ++ issued) name plan with
  | (cs, some e) => failWith (issued ++ cs) "Client Error" e
  | (cs, none) =>
    succeed (issued ++ cs)
      (if plan.ID.IsNull || plan.ID.IsUnknown then { plan with ID := .value name } else plan)

/-- Go `teamResource.Update`. -/
def teamUpdate (g : GoText) (client : Option Transport) (h : List Cmd)
    (plan state : teamResourceModel) : Resp teamResourceModel :=
  match client with
  | none => unconfigured
  | some t =>
    let name := trimSpace plan.Name.ValueString
    if name = "" then
      failWith [] "Validation Error" "Attribute `name` cannot be empty or whitespace."
    else if !stringValuesEqual plan.DisplayName state.DisplayName then
      let c := Cmd.SetTeamDisplayName name (teamDisplay name plan)
      match t h c with
      | .fail err => failWith [c] "Client Error" ("Unable to set displayName: " ++ err)
      | .ok _ => teamUpdateOptions g t h [c] name plan
    else teamUpdateOptions g t h [] name plan

/-- Go `validateGamemode`: `none` when the mode is one of the four, the error text otherwise. -/
def validateGamemode (g : GoText) (m : String) : Option String :=
  if m = "survival" ∨ m = "creative" ∨ m = "adventure" ∨ m = "spectator" then none
  else
    some ("mode must be one of: survival, creative, adventure, spectator (got " ++
      g.quote m ++ ")")

/-- The snapshot of `gamemodeResource.Create` and `Update`: the text read when
the read succeeded with a non-empty text, `prev` otherwise. -/
def snapshot (prev : String) : Reply → String
  | .ok got => if got ≠ "" then got else prev
  | .fail _ => prev

/-- Go `gamemodeResource.Create`. -/
def gamemodeCreate (g : GoText) (client : Option Transport) (h : List Cmd)
    (data : gamemodeResourceModel) : Resp gamemodeResourceModel :=
  match client with
  | none => unconfigured
  | some t =>
    let mode := g.toLower (trimSpace data.Mode.ValueString)
    match validateGamemode g mode with
    | some e => failWith [] "Validation Error" e
    | none =>
      let player := if !data.Player.IsNull then trimSpace data.Player.ValueString else ""
      if player = "" then
        let prev := snapshot "" (t h .GetDefaultGameMode)
        let c := Cmd.SetDefaultGameMode mode
        match t (h ++ [.GetDefaultGameMode]) c with
        | .fail err =>
          failWith [.GetDefaultGameMode, c] "Client Error"
            ("Unable to set default gamemode to " ++ g.quote mode ++ ": " ++ err)
        | .ok _ =>
          succeed [.GetDefaultGameMode, c]
            { data with ID := .value "default", PreviousMode := .value prev }
      else
        let prev := snapshot "" (t h (.GetUserGameMode player))
        let c := Cmd.SetUserGameMode mode player
        match t (h ++ [.GetUserGameMode player]) c with
        | .fail err =>
          failWith [.GetUserGameMode player, c] "Client Error"
            ("Unable to set " ++ g.quote player ++ " gamemode to " ++ g.quote mode ++
              ": " ++ err)
        | .ok _ =>
          succeed [.GetUserGameMode player, c]
            { data with ID := .value ("player:" ++ player), PreviousMode := .value prev }

/-- Go `gamemodeResource.Update`. -/
def gamemodeUpdate (g : GoText) (client : Option Transport) (h : List Cmd)
    (plan state : gamemodeResourceModel) : Resp gamemodeResourceModel :=
  match client with
  | none => unconfigured
  | some t =>
    let mode := g.toLower (trimSpace plan.Mode.ValueString)
    match validateGamemode g mode with
    | some e => failWith [] "Validation Error" e
    | none =>
      let player := if !plan.Player.IsNull then trimSpace plan.Player.ValueString else ""
      if player = "" then
        let prev := snapshot state.PreviousMode.ValueString (t h .GetDefaultGameMode)
        let c := Cmd.SetDefaultGameMode mode
        match t (h ++ [.GetDefaultGameMode]) c with
        | .fail err =>
          failWith [.GetDefaultGameMode, c] "Client Error"
            ("Unable to set default gamemode to " ++ g.quote mode ++ ": " ++ err)
        | .ok _ => succeed [.GetDefaultGameMode, c] { plan with PreviousMode := .value prev }
      else
        let prev := snapshot state.PreviousMode.ValueString (t h (.GetUserGameMode player))
        let c := Cmd.SetUserGameMode mode player
        match t (h ++ [.GetUserGameMode player]) c with
        | .fail err =>
          failWith [.GetUserGameMode player, c] "Client Error"
            ("Unable to set " ++ g.quote player ++ " gamemode to " ++ g.quote mode ++
              ": " ++ err)
        | .ok _ =>
          succeed [.GetUserGameMode player, c] { plan with PreviousMode := .value prev }

/-- Go `strings.HasPrefix` and `strings.TrimPrefix` in one: the rest of `s`
after `pre`, or `none` when `s` does not start with `pre`. -/
def stripPrefixChars : List Char → List Char → Option (List Char)
  | [], s => some s
  | _ :: _, [] => none
  | p :: ps, c :: cs => if p = c then stripPrefixChars ps cs else none

/-- Go `gamemodeResource.ImportState`: the id is written before the id is
recognised, so an unrecognised id leaves it in the state next to the error. -/
def gamemodeImportState (reqID : String) : Resp gamemodeResourceModel :=
  let id := trimSpace reqID
  if id = "" then
    failWith [] "Import Error" "Expected `default` or `player:<name>` as import ID."
  else
    let st : gamemodeResourceModel :=
      { ID := .value id, Mode := .null, Player := .null, PreviousMode := .null }
    if id = "default" then succeed [] st
    else
      match stripPrefixChars "player:".data id.data with
      | some player => succeed [] { st with Player := .value (String.mk player) }
      | none =>
        { cmds := [],
          errors :=
            [⟨"Import Error", "Unrecognized import ID. Use `default` or `player:<name>`."⟩],
          warnings := [],
          state := some st }

/-- Go `gameruleResource.Update`. -/
def gameruleUpdate (g : GoText) (client : Option Transport) (h : List Cmd)
    (data : gameruleResourceModel) : Resp gameruleResourceModel :=
  match client with
  | none => unconfigured
  | some t =>
    let name := trimSpace data.Name.ValueString
    let val := trimSpace data.Value.ValueString
    match atoi val with
    | some i => gameruleSet g t h (.SetGameRuleInt name i) name data
    | none =>
      let lv := g.toLower val
      if lv = "true" ∨ lv = "false" then
        gameruleSet g t h (.SetGameRuleBool name (lv == "true")) name data
      else
        failWith [] "Invalid Gamerule Value"
          ("Value " ++ g.quote val ++ " is neither an integer nor true/false.")

/-- Go `daylockResource.Update`. -/
def daylockUpdate (client : Option Transport) (h : List Cmd) (data : daylockResourceModel) :
    Resp daylockResourceModel :=
  match client with
  | none => unconfigured
  | some t =>
    let st : daylockResourceModel :=
      if data.ID.IsNull || data.ID.IsUnknown then { data with ID := .value "default" }
      else data
    if data.Enabled.ValueBool then
      match t h .EnableDayLock with
      | .fail err =>
        failWith [.EnableDayLock] "Client Error" ("Failed to enable daylock: " ++ err)
      | .ok _ => succeed [.EnableDayLock] st
    else
      match t h .DisableDayLock with
      | .fail err =>
        failWith [.DisableDayLock] "Client Error" ("Failed to disable daylock: " ++ err)
      | .ok _ => succeed [.DisableDayLock] st

/-! ## Notions of the specification -/

/-- An optional target attribute is set: neither null nor unknown, and not
empty once trimmed. -/
def isSet (v : TF String) : Bool :=
  !v.IsNull && !v.IsUnknown && decide (trimSpace v.ValueString ≠ "")

/-- The targets of a team-member model that are set, each with its kind and
its trimmed value, in the order player, selector, entity. -/
def setTargets (d : teamMemberResourceModel) : List (String × String) :=
  (if isSet d.Player then [("player", trimSpace d.Player.ValueString)] else []) ++
  (if isSet d.Selector then [("selector", trimSpace d.Selector.ValueString)] else []) ++
  (if isSet d.EntityID then [("entity", trimSpace d.EntityID.ValueString)] else [])

/-- The join command of a membership kind. -/
def joinCmd (kind team value : String) : Cmd :=
  if kind = "player" then .JoinTeamPlayers team value
  else if kind = "selector" then .JoinTeamTargets team value
  else .JoinTeamEntityByName team value

/-- The leave command of a membership kind. -/
def leaveCmd (kind value : String) : Cmd :=
  if kind = "player" then .LeaveTeamPlayers value
  else if kind = "selector" then .LeaveTeamTargets value
  else .LeaveTeamEntityByName value

/-- The three membership kinds. -/
def memberKinds : List String := ["player", "selector", "entity"]

/-- Some command of the list `cmds`, issued in order after the history `h`,
got an error reply from the transport. -/
def anyFailed (t : Transport) (h : List Cmd) : List Cmd → Bool
  | [] => false
  | c :: cs =>
    (match t h c with
      | .fail _ => true
      | .ok _ => false) || anyFailed t (h ++ [c]) cs

/-- The handler reported one warning and no error. -/
def warnsOnly {σ : Type} (r : Resp σ) : Prop :=
  r.errors = [] ∧ r.warnings.length = 1

/-- The handler reported one error, a `Client Error`, and no warning. -/
def errorsOnly {σ : Type} (r : Resp σ) : Prop :=
  r.warnings = [] ∧ r.errors.map (fun d => d.summary) = ["Client Error"]

/-- The handler reported neither an error nor a warning. -/
def quiet {σ : Type} (r : Resp σ) : Prop :=
  r.errors = [] ∧ r.warnings = []

/-- The write that sets the daylock to `p`. -/
def daylockWrite (p : Bool) : Cmd :=
  if p then .EnableDayLock else .DisableDayLock

/-- A command that writes a gamerule value. -/
def isGameruleWrite : Cmd → Bool
  | .SetGameRuleInt _ _ => true
  | .SetGameRuleBool _ _ => true
  | _ => false

/-- The state that an import of `team|kind|value` is to reconstruct: the id,
the team, the attribute of the kind set to the value, the other two null. -/
def importedMember (id team kind value : String) : teamMemberResourceModel :=
  { ID := .value id,
    Team := .value team,
    Player := if kind = "player" then .value value else .null,
    Selector := if kind = "selector" then .value value else .null,
    EntityID := if kind = "entity" then .value value else .null }

/-- The number of `|`-separated segments of an id. -/
def segments (id : String) : Nat :=
  id.data.count '|' + 1

/-- The player a gamemode model addresses, trimmed; empty for the server default. -/
def modePlayer (d : gamemodeResourceModel) : String :=
  if !d.Player.IsNull then trimSpace d.Player.ValueString else ""

/-- The mode a gamemode plan asks for: trimmed, then lowercased. -/
def planMode (g : GoText) (d : gamemodeResourceModel) : String :=
  g.toLower (trimSpace d.Mode.ValueString)

/-- The command that reads the gamemode of a player, or the default one. -/
def modeReadCmd (player : String) : Cmd :=
  if player = "" then .GetDefaultGameMode else .GetUserGameMode player

/-- The command that writes the gamemode of a player, or the default one. -/
def modeWriteCmd (mode player : String) : Cmd :=
  if player = "" then .SetDefaultGameMode mode else .SetUserGameMode mode player

/-- The id of a gamemode resource: `default`, or `player:<name>`. -/
def modeID (player : String) : String :=
  if player = "" then "default" else "player:" ++ player

/-- The four gamemodes. -/
def gamemodes : List String := ["survival", "creative", "adventure", "spectator"]

/-- The gamemode of `player` (the server default when `player` is empty) on a
remote that started at `v0` and executed the commands `h`: the mode of the
last write addressed to that player, or `v0`. -/
def remoteMode (v0 player : String) (h : List Cmd) : String :=
  h.foldl
    (fun cur c =>
      match c with
      | .SetDefaultGameMode m => if player = "" then m else cur
      | .SetUserGameMode m p => if p = player then m else cur
      | _ => cur)
    v0

/-- The faithful remote: every command succeeds, and a read of a gamemode
returns the last value written, `v0` before any write. -/
def faithful (v0 : String) : Transport := fun h c =>
  match c with
  | .GetDefaultGameMode => .ok (remoteMode v0 "" h)
  | .GetUserGameMode p => .ok (remoteMode v0 p h)
  | _ => .ok ""

/-- The host applying the plans `ps` one after the other as Updates, each plan
carrying the id of the prior state; it stops at the first Update that fails.
The result is the history and the state persisted last. -/
def gamemodeUpdates (g : GoText) (t : Transport) :
    List Cmd → gamemodeResourceModel → List gamemodeResourceModel →
      List Cmd × gamemodeResourceModel
  | h, st, [] => (h, st)
  | h, st, p :: ps =>
    match (gamemodeUpdate g (some t) h { p with ID := st.ID } st).state with
    | some st' =>
      gamemodeUpdates g t (h ++ (gamemodeUpdate g (some t) h { p with ID := st.ID } st).cmds)
        st' ps
    | none => (h ++ (gamemodeUpdate g (some t) h { p with ID := st.ID } st).cmds, st)

/-- The commands of a whole lifecycle on a fresh remote: Create with the plan
`create`, the Updates `updates`, then Delete of the state persisted last. -/
def gamemodeLifecycle (g : GoText) (t : Transport) (create : gamemodeResourceModel)
    (updates : List gamemodeResourceModel) : List Cmd :=
  match (gamemodeCreate g (some t) [] create).state with
  | none => (gamemodeCreate g (some t) [] create).cmds
  | some st =>
    let r := gamemodeUpdates g t (gamemodeCreate g (some t) [] create).cmds st updates
    r.1 ++ (gamemodeDelete g (some t) r.1 r.2).cmds

/-- The snapshot and the remote mode after a run of Updates, given the pair
before it: each Update moves the current mode into the snapshot. -/
def ratchet (g : GoText) : String × String → List gamemodeResourceModel → String × String
  | pc, [] => pc
  | pc, p :: ps => ratchet g (pc.2, planMode g p) ps

/-- The placements of a chest model: one block for a single chest, the left
and the right half for a double one. -/
def chestPlacements (d : chestResourceModel) : List Cmd :=
  if d.Size.ValueString = "single" then
    [.CreateBlock (chestBlock d "single") d.Position.X.ValueInt32 d.Position.Y.ValueInt32
      d.Position.Z.ValueInt32]
  else
    [.CreateBlock (chestBlock d "left") d.Position.X.ValueInt32 d.Position.Y.ValueInt32
      d.Position.Z.ValueInt32,
     .CreateBlock (chestBlock d "right") (d.Position.X.ValueInt32 + 1) d.Position.Y.ValueInt32
      d.Position.Z.ValueInt32]

/-- The placements of a bed model: the foot, then the head one step further. -/
def bedPlacements (d : bedResourceModel) : List Cmd :=
  [.CreateBlock (bedBlock d "foot") d.Position.X.ValueInt32 d.Position.Y.ValueInt32
    d.Position.Z.ValueInt32,
   .CreateBlock (bedBlock d "head")
    (d.Position.X.ValueInt32 + (bedOffset d.Direction.ValueString).1) d.Position.Y.ValueInt32
    (d.Position.Z.ValueInt32 + (bedOffset d.Direction.ValueString).2.1)]

/-- The id of a positional object: `<kind>-<x>-<y>-<z>`. -/
def positionalID (kind : String) (x y z : Int) : String :=
  kind ++ "-" ++ fmtD x ++ "-" ++ fmtD y ++ "-" ++ fmtD z

/-- The id of a bed: `bed-<x>-<y>-<z>-<direction>`. -/
def bedID (x y z : Int) (direction : String) : String :=
  "bed-" ++ fmtD x ++ "-" ++ fmtD y ++ "-" ++ fmtD z ++ "-" ++ direction

/-- The write a gamerule plan asks for: an integer write when the trimmed value
parses as an integer, a boolean write when it is `true` or `false` in any
case, none otherwise. -/
def gameruleWrite (g : GoText) (d : gameruleResourceModel) : Option Cmd :=
  match atoi (trimSpace d.Value.ValueString) with
  | some i => some (.SetGameRuleInt (trimSpace d.Name.ValueString) i)
  | none =>
    if g.toLower (trimSpace d.Value.ValueString) = "true" ∨
        g.toLower (trimSpace d.Value.ValueString) = "false" then
      some (.SetGameRuleBool (trimSpace d.Name.ValueString)
        (g.toLower (trimSpace d.Value.ValueString) == "true"))
    else none

/-- The positions of the CreateBlock commands of a list. -/
def placedAt : List Cmd → List (Int × Int × Int)
  | [] => []
  | .CreateBlock _ x y z :: cs => (x, y, z) :: placedAt cs
  | _ :: cs => placedAt cs

/-- The positions of the DeleteBlock commands of a list. -/
def deletedAt : List Cmd → List (Int × Int × Int)
  | [] => []
  | .DeleteBlock x y z :: cs => (x, y, z) :: deletedAt cs
  | _ :: cs => deletedAt cs

/-- Two consecutive successful runs of the Update `U` with the same plan, the
second one carrying the id persisted by the first, issue the same commands and
persist the same state. -/
def sameTwice {σ : Type} (U : List Cmd → σ → Resp σ) (carryID : σ → σ → σ)
    (h : List Cmd) (plan : σ) : Prop :=
  ∀ s1 s2, (U h plan).state = some s1 →
    (U (h ++ (U h plan).cmds) (carryID plan s1)).state = some s2 →
    (U (h ++ (U h plan).cmds) (carryID plan s1)).cmds = (U h plan).cmds ∧ s2 = s1

/-- A diagnostic that reports a validation failure: its summary is
`Validation Error` or `Invalid Gamerule Value`. -/
def isValidationFailure (d : Diag) : Bool :=
  d.summary == "Validation Error" || d.summary == "Invalid Gamerule Value"

/-- A handler that reported a validation failure issued no command and wrote no state. -/
def abortsClean {σ : Type} (r : Resp σ) : Prop :=
  (∃ d ∈ r.errors, isValidationFailure d = true) → r.cmds = [] ∧ r.state = none

/-- The part of a fill id after the material: `|<x1>,<y1>,<z1>-><x2>,<y2>,<z2>`. -/
def fillRegion (s e : Position) : String :=
  "|" ++ fmtD s.X.ValueInt32 ++ "," ++ fmtD s.Y.ValueInt32 ++ "," ++ fmtD s.Z.ValueInt32 ++
    "->" ++ fmtD e.X.ValueInt32 ++ "," ++ fmtD e.Y.ValueInt32 ++ "," ++ fmtD e.Z.ValueInt32

/-- The id that a bed state determines by its own position and direction. -/
def bedIDOf (s : bedResourceModel) : String :=
  bedID s.Position.X.ValueInt32 s.Position.Y.ValueInt32 s.Position.Z.ValueInt32
    s.Direction.ValueString

/-- The runes of the decimal numeral of an integer: a minus sign for a negative
one, then the digits of its absolute value. -/
def numeral : Int → List Char
  | .ofNat m => Nat.toDigits 10 m
  | .negSucc m => '-' :: Nat.toDigits 10 (m + 1)

/-- The value of a list of decimal digits. -/
def digitsValue (cs : List Char) : Nat :=
  cs.foldl (fun a c => 10 * a + (c.toNat - 48)) 0

/-- A list of runes is a decimal numeral: digits, at least one, after an optional minus sign. -/
def IsNumeral (u : List Char) : Prop :=
  ∃ d, d ≠ [] ∧ (∀ c ∈ d, c.isDigit = true) ∧ (u = d ∨ u = '-' :: d)

/-! ## Sample inputs -/

/-- A transport on which every command succeeds with an empty response. -/
def okTransport : Transport := fun _ _ => .ok ""

/-- A transport on which every command fails. -/
def downTransport : Transport := fun _ _ => .fail "connection lost"

/-- A transport on which the first command of a handler succeeds and every later one fails. -/
def secondFails : Transport := fun h _ =>
  if h.length = 0 then .ok "" else .fail "connection lost"

/-- A transport on which only the second command fails. -/
def onlySecondFails : Transport := fun h _ =>
  if h.length = 1 then .fail "connection lost" else .ok ""

/-- A plan adding the player Steve to the team blue, with stray spaces. -/
def stevePlan : teamMemberResourceModel :=
  { ID := .unknown, Team := .value " blue ", Player := .value "Steve ", Selector := .null,
    EntityID := .null }

/-- A plan that sets both a player and a selector. -/
def twoTargetsPlan : teamMemberResourceModel :=
  { ID := .unknown, Team := .value "blue", Player := .value "Steve",
    Selector := .value "@a", EntityID := .null }

/-- The double chest of the test suite, at (11, 64, 11). -/
def doubleChestPlan : chestResourceModel :=
  { ID := .unknown, Size := .value "double", Trapped := .value false,
    Waterlogged := .value true, Position := ⟨.value 11, .value 64, .value 11⟩ }

/-- A red bed with its foot at (5, 64, 5), facing north. -/
def northBedPlan : bedResourceModel :=
  { ID := .unknown, Material := .value "minecraft:red_bed",
    Position := ⟨.value 5, .value 64, .value 5⟩, Direction := .value "north",
    Occupied := .value false }

/-- A stone block at (1, 2, 3), as Create persists it. -/
def stoneBlock : blockResourceModel :=
  { ID := .value "block-1-2-3", Material := .value "minecraft:stone",
    Position := ⟨.value 1, .value 2, .value 3⟩ }

/-- A transport that answers every command with the text `false`. -/
def saysFalse : Transport := fun _ _ => .ok " false\n"

/-- The gamerule keepInventory managed with the value `true`. -/
def keepInventory : gameruleResourceModel :=
  { ID := .value "keepInventory", Name := .value "keepInventory", Value := .value "true" }

/-- A default-gamemode state whose snapshot is blank. -/
def blankSnapshot : gamemodeResourceModel :=
  { ID := .value "default", Mode := .value "creative", Player := .null,
    PreviousMode := .value "  " }

/-- A default-gamemode state with the snapshot `survival`. -/
def survivalSnapshot : gamemodeResourceModel :=
  { ID := .value "default", Mode := .value "creative", Player := .null,
    PreviousMode := .value "survival" }

/-- A daylock plan with the given value. -/
def daylockPlan (v : Bool) : daylockResourceModel :=
  { ID := .unknown, Enabled := .value v }

/-- A plan whose team name contains the separator of the composite id. -/
def barTeamPlan : teamMemberResourceModel :=
  { ID := .unknown, Team := .value "a|b", Player := .value "Steve", Selector := .null,
    EntityID := .null }

/-- A plan for a stone block at (1, 2, 3). -/
def stoneBlockPlan : blockResourceModel :=
  { ID := .unknown, Material := .value "minecraft:stone",
    Position := ⟨.value 1, .value 2, .value 3⟩ }



/-- A plan for the default gamemode. -/
def defaultModePlan (mode : String) : gamemodeResourceModel :=
  { ID := .unknown, Mode := .value mode, Player := .null, PreviousMode := .unknown }

/-- A plan for the gamemode of the player Steve. -/
def steveModePlan (mode : String) : gamemodeResourceModel :=
  { ID := .unknown, Mode := .value mode, Player := .value " Steve ", PreviousMode := .unknown }

/-- A transport on which every read fails and every other command succeeds. -/
def readsFail : Transport := fun _ c =>
  match c with
  | .GetDefaultGameMode => .fail "connection lost"
  | .GetUserGameMode _ => .fail "connection lost"
  | .GetGameRule _ => .fail "connection lost"
  | _ => .ok ""

/-- A plan that updates the default gamemode, carrying the id of the prior state. -/
def defaultModeUpdate (mode : String) : gamemodeResourceModel :=
  { ID := .value "default", Mode := .value mode, Player := .null, PreviousMode := .unknown }

/-- The state of the default gamemode with the given mode and snapshot. -/
def defaultModeState (mode prev : String) : gamemodeResourceModel :=
  { ID := .value "default", Mode := .value mode, Player := .null, PreviousMode := .value prev }

/-- A bed plan whose direction is not one of the four. -/
def upBedPlan : bedResourceModel :=
  { ID := .unknown, Material := .value "minecraft:red_bed",
    Position := ⟨.value 5, .value 64, .value 5⟩, Direction := .value "up",
    Occupied := .value false }

/-- A stone fill of the region (0,0,0)-(1,1,1), as Create persists it. -/
def stoneFill : fillResourceModel :=
  { ID := .value "minecraft:stone|0,0,0->1,1,1", Material := .value "minecraft:stone",
    Start := ⟨.value 0, .value 0, .value 0⟩, End := ⟨.value 1, .value 1, .value 1⟩ }

/-- The plan that changes the material of `stoneFill` to dirt, carrying its id. -/
def dirtFillPlan : fillResourceModel :=
  { stoneFill with Material := .value "minecraft:dirt" }

/-- The bed facing north with its foot at (5, 64, 5), as Create persists it. -/
def northBed : bedResourceModel :=
  { northBedPlan with ID := .value "bed-5-64-5-north" }

/-- The plan that turns `northBed` to the south, carrying its id. -/
def southBedPlan : bedResourceModel :=
  { northBed with Direction := .value "south" }

/-- The double chest at (11, 64, 11), as Create persists it. -/
def doubleChest : chestResourceModel :=
  { doubleChestPlan with ID := .value "chest-11-64-11" }

/-- The plan that shrinks `doubleChest` to a single chest, carrying its id. -/
def singleChestPlan : chestResourceModel :=
  { doubleChest with Size := .value "single" }

/-- The four directions of a bed. -/
def directions : List String := ["north", "south", "east", "west"]

/-- A gamerule plan with the given name and value. -/
def rulePlan (name value : String) : gameruleResourceModel :=
  { ID := .unknown, Name := .value name, Value := .value value }

/-- A plan for a pig at (1, 64, -3). -/
def pigPlan : entityResourceModel :=
  { ID := .unknown, EntityType := .value "minecraft:pig",
    Position := ⟨.value 1, .value 64, .value (-3)⟩ }

/-- A plan for a red sheep at (1, 64, -3). -/
def redSheepPlan : sheepResourceModel :=
  { ID := .unknown, Color := .value "Red", Sheared := .value false,
    Position := ⟨.value 1, .value 64, .value (-3)⟩ }

/-- A plan for a baby zombie at (1, 64, -3); the health is left unset. -/
def babyZombiePlan : zombieResourceModel :=
  { ID := .unknown, Position := ⟨.value 1, .value 64, .value (-3)⟩, IsBaby := .value true,
    CanBreakDoors := .value false, CanPickUpLoot := .value false,
    PersistenceRequired := .value true, Health := .null }

/-- A team plan whose name has a leading and a trailing space. -/
def paddedTeamPlan : teamResourceModel :=
  { ID := .unknown, Name := .value " red ", DisplayName := .null, Color := .null,
    FriendlyFire := .null, SeeFriendlyInvisibles := .null, NametagVisibility := .null,
    CollisionRule := .null }

/-- A gamerule plan whose name has a leading and a trailing space. -/
def paddedRulePlan : gameruleResourceModel :=
  { ID := .unknown, Name := .value " keepInventory ", Value := .value "true" }

/-- An op plan whose player has a leading and a trailing space. -/
def paddedOpPlan : opResourceModel :=
  { ID := .unknown, Player := .value " Steve " }

/-- A plan for the team red with the color blue. -/
def blueTeamPlan : teamResourceModel :=
  { ID := .unknown, Name := .value "red", DisplayName := .null, Color := .value "blue",
    FriendlyFire := .null, SeeFriendlyInvisibles := .null, NametagVisibility := .null,
    CollisionRule := .null }

/-- A transport on which setting the color of a team fails and every other command succeeds. -/
def colorFails : Transport := fun _ c =>
  match c with
  | .SetTeamColor _ _ => .fail "unknown color"
  | _ => .ok ""

/-- A plan for oak stairs at (2, 64, 2). -/
def oakStairsPlan : stairsResourceModel :=
  { ID := .unknown, Material := .value "minecraft:oak_stairs",
    Position := ⟨.value 2, .value 64, .value 2⟩, Facing := .value "north",
    Half := .value "bottom", Shape := .value "straight", Waterlogged := .value false }

/-- The oak stairs at (2, 64, 2), as Create persists them. -/
def oakStairs : stairsResourceModel :=
  { oakStairsPlan with ID := .value "stairs-2-64-2" }

/-- A plan for the stone fill of the region (0,0,0)-(1,1,1). -/
def stoneFillPlan : fillResourceModel :=
  { stoneFill with ID := .unknown }

/-- The state that an import of the id `block-1-2-3` leaves: the id alone. -/
def importedBlock : blockResourceModel :=
  { ID := .value "block-1-2-3", Material := .null, Position := Position.null }

/-- The pig at (1, 64, -3), as Create persists it with the token `tok-1`. -/
def pig : entityResourceModel :=
  { pigPlan with ID := .value "tok-1" }

/-- The red sheep at (1, 64, -3), as Create persists it with the token `tok-2`. -/
def redSheep : sheepResourceModel :=
  { redSheepPlan with ID := .value "tok-2" }

/-- The baby zombie at (1, 64, -3), as Create persists it with the token `tok-3`. -/
def babyZombie : zombieResourceModel :=
  { babyZombiePlan with ID := .value "tok-3" }

/-! ## team_member: validation and creation -/

/-- The validation result in terms of the targets that are set. -/
theorem validateTeamMemberCreate_eq (d : teamMemberResourceModel)
    (hteam : trimSpace d.Team.ValueString ≠ "") :
    validateTeamMemberCreate d =
      match setTargets d with
      | [] => .error "exactly one of `player`, `selector`, or `entity_id` must be set"
      | [(kind, value)] => .ok (trimSpace d.Team.ValueString, kind, value)
      | _ => .error "only one of `player`, `selector`, or `entity_id` may be set" := by
  have e1 : (!d.Player.IsNull && !d.Player.IsUnknown &&
      decide (trimSpace d.Player.ValueString ≠ "")) = isSet d.Player := rfl
  have e2 : (!d.Selector.IsNull && !d.Selector.IsUnknown &&
      decide (trimSpace d.Selector.ValueString ≠ "")) = isSet d.Selector := rfl
  have e3 : (!d.EntityID.IsNull && !d.EntityID.IsUnknown &&
      decide (trimSpace d.EntityID.ValueString ≠ "")) = isSet d.EntityID := rfl
  simp only [validateTeamMemberCreate, setTargets, e1, e2, e3]
  cases isSet d.Player <;> cases isSet d.Selector <;> cases isSet d.EntityID <;>
    simp [hteam]

/-- Every target listed by `setTargets` carries one of the three kinds. -/
theorem setTargets_kind (d : teamMemberResourceModel) (kind value : String)
    (hmem : (kind, value) ∈ setTargets d) : kind ∈ memberKinds := by
  unfold setTargets at hmem
  simp only [List.mem_append] at hmem
  rcases hmem with (hm | hm) | hm <;> split at hm <;> simp [memberKinds] at hm ⊢ <;>
    simp [hm.1]

/-- C1: for a plan with a non-blank team, when exactly one of player, selector
and entity_id is set and its join command succeeds, Create issues exactly that
one join command and writes the plan with id `trim(team)|kind|trim(value)`,
the kind being one of player, selector, entity; when none or several are set,
Create reports one Validation Error, issues no command and writes no state. -/
theorem teamMemberCreate_exactly_one (g : GoText) (t : Transport) (h : List Cmd)
    (d : teamMemberResourceModel) (hteam : trimSpace d.Team.ValueString ≠ "") :
    (∀ kind value, setTargets d = [(kind, value)] →
      (∀ err, t h (joinCmd kind (trimSpace d.Team.ValueString) value) ≠ .fail err) →
      kind ∈ memberKinds ∧
      teamMemberCreate g (some t) h d =
        succeed [joinCmd kind (trimSpace d.Team.ValueString) value]
          { d with
            ID := .value (trimSpace d.Team.ValueString ++ "|" ++ kind ++ "|" ++ value) }) ∧
    ((setTargets d).length ≠ 1 →
      ∃ msg, teamMemberCreate g (some t) h d = failWith [] "Validation Error" msg) := by
  refine ⟨?_, ?_⟩
  · intro kind value hset hok
    have hk : kind ∈ memberKinds :=
      setTargets_kind d kind value (by rw [hset]; exact List.mem_singleton_self _)
    refine ⟨hk, ?_⟩
    simp only [teamMemberCreate, validateTeamMemberCreate_eq d hteam, hset]
    simp only [memberKinds, List.mem_cons, List.mem_singleton, List.not_mem_nil,
      or_false] at hk
    rcases hk with rfl | rfl | rfl
    · have hj : joinCmd "player" (trimSpace d.Team.ValueString) value =
          Cmd.JoinTeamPlayers (trimSpace d.Team.ValueString) value := by simp [joinCmd]
      rw [hj] at hok ⊢
      simp only [teamMemberJoin, if_true]
      cases hr : t h (Cmd.JoinTeamPlayers (trimSpace d.Team.ValueString) value) with
      | fail err => exact absurd hr (hok err)
      | ok text => rfl
    · have hj : joinCmd "selector" (trimSpace d.Team.ValueString) value =
          Cmd.JoinTeamTargets (trimSpace d.Team.ValueString) value := by simp [joinCmd]
      rw [hj] at hok ⊢
      rw [if_neg (by decide), if_pos rfl]
      simp only [teamMemberJoin]
      cases hr : t h (Cmd.JoinTeamTargets (trimSpace d.Team.ValueString) value) with
      | fail err => exact absurd hr (hok err)
      | ok text => rfl
    · have hj : joinCmd "entity" (trimSpace d.Team.ValueString) value =
          Cmd.JoinTeamEntityByName (trimSpace d.Team.ValueString) value := by simp [joinCmd]
      rw [hj] at hok ⊢
      rw [if_neg (by decide), if_neg (by decide), if_pos rfl]
      simp only [teamMemberJoin]
      cases hr : t h (Cmd.JoinTeamEntityByName (trimSpace d.Team.ValueString) value) with
      | fail err => exact absurd hr (hok err)
      | ok text => rfl
  · intro hlen
    simp only [teamMemberCreate, validateTeamMemberCreate_eq d hteam]
    match hs : setTargets d with
    | [] => exact ⟨_, rfl⟩
    | [(kind, value)] => rw [hs] at hlen; exact absurd rfl hlen
    | _ :: _ :: _ => exact ⟨_, rfl⟩

/-- Witness of C1: the plan for Steve joins the team blue with one command and
gets the id `blue|player|Steve`; the plan with two targets is rejected. -/
theorem teamMemberCreate_exactly_one_witness :
    trimSpace stevePlan.Team.ValueString ≠ "" ∧
    teamMemberCreate asciiText (some okTransport) [] stevePlan =
      succeed [.JoinTeamPlayers "blue" "Steve"]
        { stevePlan with ID := .value "blue|player|Steve" } ∧
    ∃ msg, teamMemberCreate asciiText (some okTransport) [] twoTargetsPlan =
      failWith [] "Validation Error" msg :=
  ⟨by decide,
   ((teamMemberCreate_exactly_one asciiText okTransport [] stevePlan (by decide)).1
      "player" "Steve" (by decide) (by intro err; simp [okTransport])).2,
   (teamMemberCreate_exactly_one asciiText okTransport [] twoTargetsPlan (by decide)).2
      (by decide)⟩

/-! ## Composite creation: failure of the second part -/

/-- C2: when the first part of a double chest or of a bed is placed and the
second placement fails with error text `e`, Create has issued exactly the two
placements followed by one DeleteBlock at the position of the first part,
writes no state, and reports exactly one error, the one of the second part
(right half, head) ending in `e`; the reply to the DeleteBlock plays no role. -/
theorem composite_create_second_part_fails (t : Transport) (h : List Cmd) (e : String) :
    (∀ d : chestResourceModel,
      d.Size.ValueString = "double" →
      (∃ r, t h (.CreateBlock (chestBlock d "left") d.Position.X.ValueInt32
        d.Position.Y.ValueInt32 d.Position.Z.ValueInt32) = .ok r) →
      t (h ++ [.CreateBlock (chestBlock d "left") d.Position.X.ValueInt32
          d.Position.Y.ValueInt32 d.Position.Z.ValueInt32])
        (.CreateBlock (chestBlock d "right") (d.Position.X.ValueInt32 + 1)
          d.Position.Y.ValueInt32 d.Position.Z.ValueInt32) = .fail e →
      chestCreate (some t) h d =
        { cmds :=
            [.CreateBlock (chestBlock d "left") d.Position.X.ValueInt32
               d.Position.Y.ValueInt32 d.Position.Z.ValueInt32,
             .CreateBlock (chestBlock d "right") (d.Position.X.ValueInt32 + 1)
               d.Position.Y.ValueInt32 d.Position.Z.ValueInt32,
             .DeleteBlock d.Position.X.ValueInt32 d.Position.Y.ValueInt32
               d.Position.Z.ValueInt32],
          errors := [⟨"Client Error", "Unable to place right half of double chest: " ++ e⟩],
          warnings := [],
          state := none }) ∧
    (∀ d : bedResourceModel,
      (bedOffset d.Direction.ValueString).2.2 = true →
      (∃ r, t h (.CreateBlock (bedBlock d "foot") d.Position.X.ValueInt32
        d.Position.Y.ValueInt32 d.Position.Z.ValueInt32) = .ok r) →
      t (h ++ [.CreateBlock (bedBlock d "foot") d.Position.X.ValueInt32
          d.Position.Y.ValueInt32 d.Position.Z.ValueInt32])
        (.CreateBlock (bedBlock d "head")
          (d.Position.X.ValueInt32 + (bedOffset d.Direction.ValueString).1)
          d.Position.Y.ValueInt32
          (d.Position.Z.ValueInt32 + (bedOffset d.Direction.ValueString).2.1)) = .fail e →
      bedCreate t h d =
        { cmds :=
            [.CreateBlock (bedBlock d "foot") d.Position.X.ValueInt32
               d.Position.Y.ValueInt32 d.Position.Z.ValueInt32,
             .CreateBlock (bedBlock d "head")
               (d.Position.X.ValueInt32 + (bedOffset d.Direction.ValueString).1)
               d.Position.Y.ValueInt32
               (d.Position.Z.ValueInt32 + (bedOffset d.Direction.ValueString).2.1),
             .DeleteBlock d.Position.X.ValueInt32 d.Position.Y.ValueInt32
               d.Position.Z.ValueInt32],
          errors := [⟨"Client Error", "Unable to place bed head: " ++ e⟩],
          warnings := [],
          state := none }) := by
  refine ⟨?_, ?_⟩
  · rintro d hsize ⟨r, h1⟩ h2
    have hns : ¬ d.Size.ValueString = "single" := by rw [hsize]; decide
    simp only [chestCreate, if_neg hns, if_pos hsize, h1, h2, failWith]
  · rintro d hdir ⟨r, h1⟩ h2
    have hnf : ¬ (bedOffset d.Direction.ValueString).2.2 = false := by simp [hdir]
    simp only [bedCreate, if_neg hnf, h1, h2, failWith]

/-- Witness of C2: the double chest at (11, 64, 11) whose right half fails
yields one DeleteBlock at (11, 64, 11), also when that DeleteBlock fails too;
the bed facing north rolls back its foot at (5, 64, 5). -/
theorem composite_create_second_part_fails_witness :
    chestCreate (some onlySecondFails) [] doubleChestPlan =
      { cmds :=
          [.CreateBlock "minecraft:chest[type=left,waterlogged=true]" 11 64 11,
           .CreateBlock "minecraft:chest[type=right,waterlogged=true]" 12 64 11,
           .DeleteBlock 11 64 11],
        errors :=
          [⟨"Client Error", "Unable to place right half of double chest: connection lost"⟩],
        warnings := [],
        state := none } ∧
    (chestCreate (some secondFails) [] doubleChestPlan).cmds.drop 2 =
      [.DeleteBlock 11 64 11] ∧
    bedCreate secondFails [] northBedPlan =
      { cmds :=
          [.CreateBlock "minecraft:red_bed[facing=north,part=foot,occupied=false]" 5 64 5,
           .CreateBlock "minecraft:red_bed[facing=north,part=head,occupied=false]" 5 64 4,
           .DeleteBlock 5 64 5],
        errors := [⟨"Client Error", "Unable to place bed head: connection lost"⟩],
        warnings := [],
        state := none } :=
  ⟨(composite_create_second_part_fails onlySecondFails [] "connection lost").1
      doubleChestPlan (by decide) ⟨"", by decide⟩ (by decide),
   by
    rw [(composite_create_second_part_fails secondFails [] "connection lost").1
      doubleChestPlan (by decide) ⟨"", by decide⟩ (by decide)]
    decide,
   (composite_create_second_part_fails secondFails [] "connection lost").2
      northBedPlan (by decide) ⟨"", by decide⟩ (by decide)⟩

/-! ## Delete: how a failed command is reported -/

/-- C3, as stated, fails: deleting a block over a transport that is down
reports an error and no warning. -/
theorem delete_failure_is_error_for_block :
    anyFailed downTransport [] (blockDelete downTransport [] stoneBlock).cmds = true ∧
    (blockDelete downTransport [] stoneBlock).errors =
      [⟨"Client Error", "Unable to delete block, got error: connection lost"⟩] ∧
    (blockDelete downTransport [] stoneBlock).warnings = [] := by
  decide

/-- C3, amended: when a command issued by Delete fails, gamemode, gamerule and
daylock report one warning and no error; chest and bed report nothing at all,
whatever the replies; block, stairs, fill, entity, sheep, zombie, team,
team_member and op report one `Client Error` and no warning. -/
theorem delete_failure_reporting (g : GoText) (t : Transport) (h : List Cmd) :
    (∀ st, anyFailed t h (gamemodeDelete g (some t) h st).cmds = true →
      warnsOnly (gamemodeDelete g (some t) h st)) ∧
    (∀ st, anyFailed t h (gameruleDelete g (some t) h st).cmds = true →
      warnsOnly (gameruleDelete g (some t) h st)) ∧
    (anyFailed t h (daylockDelete (some t) h).cmds = true →
      warnsOnly (daylockDelete (some t) h)) ∧
    (∀ st, quiet (chestDelete (some t) st)) ∧
    (∀ st, quiet (bedDelete st)) ∧
    (∀ st, anyFailed t h (blockDelete t h st).cmds = true →
      errorsOnly (blockDelete t h st)) ∧
    (∀ st, anyFailed t h (stairsDelete (some t) h st).cmds = true →
      errorsOnly (stairsDelete (some t) h st)) ∧
    (∀ st, anyFailed t h (fillDelete (some t) h st).cmds = true →
      errorsOnly (fillDelete (some t) h st)) ∧
    (∀ st, anyFailed t h (entityDelete (some t) h st).cmds = true →
      errorsOnly (entityDelete (some t) h st)) ∧
    (∀ st, anyFailed t h (sheepDelete (some t) h st).cmds = true →
      errorsOnly (sheepDelete (some t) h st)) ∧
    (∀ st, anyFailed t h (zombieDelete (some t) h st).cmds = true →
      errorsOnly (zombieDelete (some t) h st)) ∧
    (∀ st, anyFailed t h (teamDelete (some t) h st).cmds = true →
      errorsOnly (teamDelete (some t) h st)) ∧
    (∀ st, anyFailed t h (teamMemberDelete g (some t) h st).cmds = true →
      errorsOnly (teamMemberDelete g (some t) h st)) ∧
    (∀ st, anyFailed t h (opDelete g (some t) h st).cmds = true →
      errorsOnly (opDelete g (some t) h st)) := by
  refine ⟨?_, ?_, ?_, ?_, ?_, ?_, ?_, ?_, ?_, ?_, ?_, ?_, ?_, ?_⟩
  · intro st
    simp only [gamemodeDelete]
    repeat' split
    all_goals simp_all [anyFailed, warnsOnly, warnWith, silent]
  · intro st
    simp only [gameruleDelete]
    repeat' split
    all_goals simp_all [anyFailed, warnsOnly, warnWith, silent]
  · simp only [daylockDelete]
    repeat' split
    all_goals simp_all [anyFailed, warnsOnly, warnWith, silent]
  · intro st
    simp only [chestDelete]
    split <;> simp [quiet, silent]
  · intro st
    simp only [bedDelete]
    split <;> simp [quiet, silent]
  · intro st
    simp only [blockDelete]
    repeat' split
    all_goals simp_all [anyFailed, errorsOnly, failWith, silent]
  · intro st
    simp only [stairsDelete]
    repeat' split
    all_goals simp_all [anyFailed, errorsOnly, failWith, silent]
  · intro st
    simp only [fillDelete]
    repeat' split
    all_goals simp_all [anyFailed, errorsOnly, failWith, silent]
  · intro st
    simp only [entityDelete]
    repeat' split
    all_goals simp_all [anyFailed, errorsOnly, failWith, silent]
  · intro st
    simp only [sheepDelete]
    repeat' split
    all_goals simp_all [anyFailed, errorsOnly, failWith, silent]
  · intro st
    simp only [zombieDelete]
    repeat' split
    all_goals simp_all [anyFailed, errorsOnly, failWith, silent]
  · intro st
    simp only [teamDelete]
    repeat' split
    all_goals simp_all [anyFailed, errorsOnly, failWith, silent]
  · intro st
    simp only [teamMemberDelete, teamMemberLeave]
    repeat' split
    all_goals simp_all [anyFailed, errorsOnly, failWith, silent]
  · intro st
    simp only [opDelete]
    repeat' split
    all_goals simp_all [anyFailed, errorsOnly, failWith, silent]

/-- Witness of C3: over a transport that is down, restoring the default
gamemode warns, and deleting a block reports a client error. -/
theorem delete_failure_reporting_witness :
    warnsOnly (gamemodeDelete asciiText (some downTransport) [] survivalSnapshot) ∧
    errorsOnly (blockDelete downTransport [] stoneBlock) :=
  ⟨(delete_failure_reporting asciiText downTransport []).1 survivalSnapshot (by decide),
   (delete_failure_reporting asciiText downTransport []).2.2.2.2.2.1 stoneBlock
      (by decide)⟩

/-! ## Read -/

/-- C4, as stated, fails: Read of a gamerule issues a GetGameRule command and
replaces the persisted value by the trimmed response. -/
theorem gameruleRead_queries_the_server :
    (gameruleRead asciiText (some saysFalse) [] keepInventory).cmds =
      [.GetGameRule "keepInventory"] ∧
    (gameruleRead asciiText (some saysFalse) [] keepInventory).state =
      some { keepInventory with Value := .value "false" } ∧
    (gameruleRead asciiText (some saysFalse) [] keepInventory).state ≠ some keepInventory := by
  decide

/-- C4, amended: with a configured client, Read of every kind but gamerule
issues no command on any state, and it reports nothing and writes the
persisted state unchanged whenever the state decodes into the model: always
for team, team_member, op, gamemode and daylock, and for block, stairs, chest,
bed, fill, entity, sheep and zombie when the position object (start and end of
a fill) is not null, as in every state that Create or Update wrote. Read of a
gamerule issues exactly one GetGameRule for the trimmed name, writes the state
with only `value` replaced by the trimmed response when the command succeeds,
and reports one error and writes nothing when it fails. -/
theorem read_is_local_except_gamerule (g : GoText) (t : Transport) (h : List Cmd)
    (detail : String) :
    (∀ st, (blockRead detail st).cmds = [] ∧
      (st.Position ≠ Position.null → blockRead detail st = succeed [] st)) ∧
    (∀ st, (stairsRead (some t) detail st).cmds = [] ∧
      (st.Position ≠ Position.null → stairsRead (some t) detail st = succeed [] st)) ∧
    (∀ st, (chestRead (some t) detail st).cmds = [] ∧
      (st.Position ≠ Position.null → chestRead (some t) detail st = succeed [] st)) ∧
    (∀ st, (bedRead detail st).cmds = [] ∧
      (st.Position ≠ Position.null → bedRead detail st = succeed [] st)) ∧
    (∀ st, (fillRead (some t) detail st).cmds = [] ∧
      (st.Start ≠ Position.null → st.End ≠ Position.null →
        fillRead (some t) detail st = succeed [] st)) ∧
    (∀ st, (entityRead (some t) detail st).cmds = [] ∧
      (st.Position ≠ Position.null → entityRead (some t) detail st = succeed [] st)) ∧
    (∀ st, (sheepRead (some t) detail st).cmds = [] ∧
      (st.Position ≠ Position.null → sheepRead (some t) detail st = succeed [] st)) ∧
    (∀ st, (zombieRead (some t) detail st).cmds = [] ∧
      (st.Position ≠ Position.null → zombieRead (some t) detail st = succeed [] st)) ∧
    (∀ st, teamRead (some t) st = succeed [] st) ∧
    (∀ st, teamMemberRead (some t) st = succeed [] st) ∧
    (∀ st, opRead (some t) st = succeed [] st) ∧
    (∀ st, gamemodeRead (some t) st = succeed [] st) ∧
    (∀ st, daylockRead (some t) st = succeed [] st) ∧
    (∀ st : gameruleResourceModel,
      (gameruleRead g (some t) h st).cmds = [.GetGameRule (trimSpace st.Name.ValueString)] ∧
      (∀ raw, t h (.GetGameRule (trimSpace st.Name.ValueString)) = .ok raw →
        gameruleRead g (some t) h st =
          succeed [.GetGameRule (trimSpace st.Name.ValueString)]
            { ID := st.ID, Name := st.Name, Value := .value (trimSpace raw) }) ∧
      (∀ err, t h (.GetGameRule (trimSpace st.Name.ValueString)) = .fail err →
        (gameruleRead g (some t) h st).state = none ∧
        (gameruleRead g (some t) h st).errors.length = 1)) := by
  refine ⟨fun st => ⟨?_, fun hp => ?_⟩, fun st => ⟨?_, fun hp => ?_⟩,
    fun st => ⟨?_, fun hp => ?_⟩, fun st => ⟨?_, fun hp => ?_⟩,
    fun st => ⟨?_, fun hs he => ?_⟩, fun st => ⟨?_, fun hp => ?_⟩,
    fun st => ⟨?_, fun hp => ?_⟩, fun st => ⟨?_, fun hp => ?_⟩,
    fun _ => rfl, fun _ => rfl, fun _ => rfl, fun _ => rfl, fun _ => rfl, ?_⟩
  · simp only [blockRead]; split <;> rfl
  · simp only [blockRead, if_neg hp]
  · simp only [stairsRead]; split <;> rfl
  · simp only [stairsRead, if_neg hp]
  · simp only [chestRead]; split <;> rfl
  · simp only [chestRead, if_neg hp]
  · simp only [bedRead]; split <;> rfl
  · simp only [bedRead, if_neg hp]
  · simp only [fillRead]; split <;> rfl
  · simp only [fillRead, if_neg (not_or.2 ⟨hs, he⟩)]
  · simp only [entityRead]; split <;> rfl
  · simp only [entityRead, if_neg hp]
  · simp only [sheepRead]; split <;> rfl
  · simp only [sheepRead, if_neg hp]
  · simp only [zombieRead]; split <;> rfl
  · simp only [zombieRead, if_neg hp]
  intro st
  refine ⟨?_, ?_, ?_⟩
  · simp only [gameruleRead]
    split <;> rfl
  · intro raw hr
    simp only [gameruleRead, hr]
  · intro err hr
    simp only [gameruleRead, hr, failWith, List.length_singleton, and_self]

/-- Witness of C4: Read returns the stone block, the oak stairs, the double
chest, the bed, the stone fill, the pig, the sheep and the zombie as Create
persisted them; on the state that an import of a block leaves it issues no
command either, and there it writes nothing; the read of keepInventory over a
transport that answers `false` writes the value `false`, and over a transport
that is down it writes nothing. -/
theorem read_is_local_except_gamerule_witness :
    blockRead "null object" stoneBlock = succeed [] stoneBlock ∧
    stairsRead (some okTransport) "null object" oakStairs = succeed [] oakStairs ∧
    chestRead (some okTransport) "null object" doubleChest = succeed [] doubleChest ∧
    bedRead "null object" northBed = succeed [] northBed ∧
    fillRead (some okTransport) "null object" stoneFill = succeed [] stoneFill ∧
    entityRead (some okTransport) "null object" pig = succeed [] pig ∧
    sheepRead (some okTransport) "null object" redSheep = succeed [] redSheep ∧
    zombieRead (some okTransport) "null object" babyZombie = succeed [] babyZombie ∧
    (blockRead "null object" importedBlock).cmds = [] ∧
    (blockRead "null object" importedBlock).state = none ∧
    gameruleRead asciiText (some saysFalse) [] keepInventory =
      succeed [.GetGameRule "keepInventory"]
        { ID := .value "keepInventory", Name := .value "keepInventory",
          Value := .value "false" } ∧
    (gameruleRead asciiText (some downTransport) [] keepInventory).state = none :=
  ⟨((read_is_local_except_gamerule asciiText okTransport [] "null object").1
      stoneBlock).2 (by decide),
   ((read_is_local_except_gamerule asciiText okTransport [] "null object").2.1
      oakStairs).2 (by decide),
   ((read_is_local_except_gamerule asciiText okTransport [] "null object").2.2.1
      doubleChest).2 (by decide),
   ((read_is_local_except_gamerule asciiText okTransport [] "null object").2.2.2.1
      northBed).2 (by decide),
   ((read_is_local_except_gamerule asciiText okTransport [] "null object").2.2.2.2.1
      stoneFill).2 (by decide) (by decide),
   ((read_is_local_except_gamerule asciiText okTransport [] "null object").2.2.2.2.2.1
      pig).2 (by decide),
   ((read_is_local_except_gamerule asciiText okTransport [] "null object").2.2.2.2.2.2.1
      redSheep).2 (by decide),
   ((read_is_local_except_gamerule asciiText okTransport [] "null object").2.2.2.2.2.2.2.1
      babyZombie).2 (by decide),
   ((read_is_local_except_gamerule asciiText okTransport [] "null object").1
      importedBlock).1,
   by decide,
   ((read_is_local_except_gamerule asciiText saysFalse [] "").2.2.2.2.2.2.2.2.2.2.2.2.2
      keepInventory).2.1 " false\n" (by decide),
   (((read_is_local_except_gamerule asciiText downTransport [] "").2.2.2.2.2.2.2.2.2.2.2.2.2
      keepInventory).2.2 "connection lost" (by decide)).1⟩

/-! ## Settings: removal -/

/-- C9: Delete of a gamemode state whose `previous_mode` is empty or blank
issues no command and reports neither an error nor a warning. -/
theorem gamemodeDelete_without_snapshot (g : GoText) (t : Transport) (h : List Cmd)
    (st : gamemodeResourceModel) (hprev : trimSpace st.PreviousMode.ValueString = "") :
    gamemodeDelete g (some t) h st =
      { cmds := [], errors := [], warnings := [], state := none } := by
  simp only [gamemodeDelete, hprev, if_true, silent]

/-- Witness of C9: a state whose snapshot is two spaces is removed without any command. -/
theorem gamemodeDelete_without_snapshot_witness :
    trimSpace blankSnapshot.PreviousMode.ValueString = "" ∧
    gamemodeDelete asciiText (some downTransport) [] blankSnapshot =
      { cmds := [], errors := [], warnings := [], state := none } :=
  ⟨by decide,
   gamemodeDelete_without_snapshot asciiText downTransport [] blankSnapshot (by decide)⟩

/-- C10, as stated, fails: with the daylock enabled before (p = true) and a
plan that disables it (v = false), Create and Delete both write
DisableDayLock; the write that would restore p, EnableDayLock, is never issued. -/
theorem daylockDelete_does_not_restore_enabled :
    (daylockCreate (some okTransport) [] (daylockPlan false)).cmds = [.DisableDayLock] ∧
    (daylockDelete (some okTransport)
      (daylockCreate (some okTransport) [] (daylockPlan false)).cmds).cmds.getLast? =
      some .DisableDayLock ∧
    Cmd.DisableDayLock ≠ daylockWrite true := by
  decide

/-- C10, amended: whatever the prior value and whatever Create set, Delete of
a gamerule issues exactly one ResetGameRuleToDefault for the trimmed name and
Delete of the daylock exactly one DisableDayLock, the write of `false`;
Create of a gamerule issues only gamerule writes (no read of a prior value)
and Create of the daylock issues exactly the write of the planned value. -/
theorem settings_delete_resets (g : GoText) (t : Transport) (h : List Cmd) :
    (∀ st, (gameruleDelete g (some t) h st).cmds =
      [.ResetGameRuleToDefault (trimSpace st.Name.ValueString)]) ∧
    (daylockDelete (some t) h).cmds = [daylockWrite false] ∧
    (∀ plan, ∀ c ∈ (gameruleCreate g (some t) h plan).cmds, isGameruleWrite c = true) ∧
    (∀ plan, (daylockCreate (some t) h plan).cmds = [daylockWrite plan.Enabled.ValueBool]) := by
  refine ⟨?_, ?_, ?_, ?_⟩
  · intro st
    simp only [gameruleDelete]
    split <;> rfl
  · simp only [daylockDelete, daylockWrite]
    split <;> rfl
  · intro plan c hc
    simp only [gameruleCreate, gameruleSet] at hc
    repeat' split at hc
    all_goals simp_all [failWith, succeed, isGameruleWrite]
  · intro plan
    simp only [daylockCreate, daylockWrite]
    repeat' split
    all_goals simp_all [failWith, succeed]

/-! ## Splitting at the separator -/

theorem takeWhile_ne_append (sep : Char) (a rest : List Char) (ha : sep ∉ a) :
    (a ++ sep :: rest).takeWhile (fun c => c != sep) = a := by
  induction a with
  | nil => simp
  | cons x xs ih =>
    have hx : x ≠ sep := fun e => ha (e ▸ List.mem_cons_self _ _)
    have hxs : sep ∉ xs := fun m => ha (List.mem_cons_of_mem _ m)
    simp [List.takeWhile_cons, hx, ih hxs]

theorem dropWhile_ne_append (sep : Char) (a rest : List Char) (ha : sep ∉ a) :
    (a ++ sep :: rest).dropWhile (fun c => c != sep) = sep :: rest := by
  induction a with
  | nil => simp
  | cons x xs ih =>
    have hx : x ≠ sep := fun e => ha (e ▸ List.mem_cons_self _ _)
    have hxs : sep ∉ xs := fun m => ha (List.mem_cons_of_mem _ m)
    simp [List.dropWhile_cons, hx, ih hxs]

theorem splitNChars_three (sep : Char) (a b c : List Char) (ha : sep ∉ a) (hb : sep ∉ b) :
    splitNChars sep 3 (a ++ sep :: (b ++ sep :: c)) = [a, b, c] := by
  have m1 : sep ∈ a ++ sep :: (b ++ sep :: c) := by simp
  have m2 : sep ∈ b ++ sep :: c := by simp
  simp only [splitNChars, if_pos m1, takeWhile_ne_append sep a _ ha,
    dropWhile_ne_append sep a _ ha, List.drop_succ_cons, List.drop_zero, if_pos m2,
    takeWhile_ne_append sep b _ hb, dropWhile_ne_append sep b _ hb]

/-- A list that contains the separator splits at its first occurrence. -/
theorem split_at_first (sep : Char) (cs : List Char) (hm : sep ∈ cs) :
    sep ∉ cs.takeWhile (fun c => c != sep) ∧
    cs = cs.takeWhile (fun c => c != sep) ++
      sep :: (cs.dropWhile (fun c => c != sep)).drop 1 := by
  induction cs with
  | nil => simp at hm
  | cons x xs ih =>
    by_cases hx : x = sep
    · subst hx; simp
    · have hm2 : sep ∈ xs := by
        rcases List.mem_cons.1 hm with e | m
        · exact absurd e.symm hx
        · exact m
      obtain ⟨h1, h2⟩ := ih hm2
      refine ⟨?_, ?_⟩
      · simp only [List.takeWhile_cons, bne_iff_ne, ne_eq, hx, not_false_eq_true, decide_True,
          if_true, List.mem_cons, not_or]
        exact ⟨fun e => hx e.symm, h1⟩
      · simp only [List.takeWhile_cons, List.dropWhile_cons, bne_iff_ne, ne_eq, hx,
          not_false_eq_true, decide_True, if_true, List.cons_append]
        exact congrArg _ h2

theorem splitNChars_few (sep : Char) (cs : List Char) (hc : cs.count sep < 2) :
    (splitNChars sep 3 cs).length < 3 := by
  by_cases hm : sep ∈ cs
  · obtain ⟨h1, h2⟩ := split_at_first sep cs hm
    have hcount : cs.count sep =
        1 + ((cs.dropWhile (fun c => c != sep)).drop 1).count sep := by
      conv_lhs => rw [h2]
      rw [List.count_append, List.count_cons_self, List.count_eq_zero_of_not_mem h1]
      omega
    have hr : sep ∉ (cs.dropWhile (fun c => c != sep)).drop 1 := by
      intro m
      have := List.count_pos_iff.2 m
      omega
    simp only [splitNChars, if_pos hm, if_neg hr]
    simp
  · simp only [splitNChars, if_neg hm]
    simp

theorem splitNChars_many (sep : Char) (cs : List Char) (hc : 2 ≤ cs.count sep) :
    ∃ a b c, sep ∉ a ∧ sep ∉ b ∧ cs = a ++ sep :: (b ++ sep :: c) := by
  have hm : sep ∈ cs := List.count_pos_iff.1 (by omega)
  obtain ⟨h1, h2⟩ := split_at_first sep cs hm
  have hcount : cs.count sep =
      1 + ((cs.dropWhile (fun c => c != sep)).drop 1).count sep := by
    conv_lhs => rw [h2]
    rw [List.count_append, List.count_cons_self, List.count_eq_zero_of_not_mem h1]
    omega
  have hm2 : sep ∈ (cs.dropWhile (fun c => c != sep)).drop 1 :=
    List.count_pos_iff.1 (by omega)
  obtain ⟨h3, h4⟩ := split_at_first sep _ hm2
  exact ⟨_, _, _, h1, h3, by rw [← h4]; exact h2⟩

/-- The runes of `team|kind|value`. -/
theorem composite_data (team kind value : String) :
    (team ++ "|" ++ kind ++ "|" ++ value).data =
      team.data ++ '|' :: (kind.data ++ '|' :: value.data) := by
  simp [String.data_append]

/-- An id `team|kind|value` whose team and kind hold no `|` splits into these three pieces. -/
theorem splitN_composite (team kind value : String) (ht : '|' ∉ team.data)
    (hk : '|' ∉ kind.data) :
    splitN (team ++ "|" ++ kind ++ "|" ++ value) 3 = [team, kind, value] := by
  simp only [splitN, composite_data, splitNChars_three '|' _ _ _ ht hk, List.map_cons,
    List.map_nil]

/-- No membership kind contains the separator. -/
theorem memberKinds_no_bar (kind : String) (hk : kind ∈ memberKinds) : '|' ∉ kind.data := by
  simp only [memberKinds, List.mem_cons, List.mem_singleton, List.not_mem_nil, or_false] at hk
  rcases hk with rfl | rfl | rfl <;> decide

/-- Import of `team|kind|value` for a team without `|` and one of the three kinds. -/
theorem teamMemberImportState_composite (team kind value : String) (ht : '|' ∉ team.data)
    (hk : kind ∈ memberKinds) :
    teamMemberImportState (team ++ "|" ++ kind ++ "|" ++ value) =
      succeed [] (importedMember (team ++ "|" ++ kind ++ "|" ++ value) team kind value) := by
  simp only [teamMemberImportState, splitN_composite team kind value ht (memberKinds_no_bar kind hk)]
  simp only [memberKinds, List.mem_cons, List.mem_singleton, List.not_mem_nil, or_false] at hk
  rcases hk with rfl | rfl | rfl <;> simp [importedMember]

/-! ## team_member: import -/

/-- C5, as stated, fails: Create accepts the team `a|b` and persists the id
`a|b|player|Steve`, which ImportState rejects (its second piece is `b`) and
which parseTeamMemberID reads as kind `b` and value `player|Steve`. -/
theorem teamMember_roundtrip_fails_on_bar :
    (teamMemberCreate asciiText (some okTransport) [] barTeamPlan).state =
      some { barTeamPlan with ID := .value "a|b|player|Steve" } ∧
    validateTeamMemberCreate barTeamPlan = .ok ("a|b", "player", "Steve") ∧
    (teamMemberImportState "a|b|player|Steve").state = none ∧
    (teamMemberImportState "a|b|player|Steve").errors =
      [⟨"Import Error", "kind must be one of `player`, `selector`, or `entity`."⟩] ∧
    parseTeamMemberID "a|b|player|Steve" = ("b", "player|Steve") :=
  ⟨by decide, by rfl, by decide, by decide, by decide⟩

/-- C5, amended: when Create succeeds on a plan validated as (team, kind,
value) and the trimmed team holds no `|`, the persisted id is
`team|kind|value`, ImportState of that id succeeds and reconstructs that team
and that value under the attribute of that kind, the other two targets null,
and parseTeamMemberID of that id returns (kind, value). -/
theorem teamMember_import_roundtrip (g : GoText) (t : Transport) (h : List Cmd)
    (d st : teamMemberResourceModel) (team kind value : String)
    (hv : validateTeamMemberCreate d = .ok (team, kind, value))
    (hc : (teamMemberCreate g (some t) h d).state = some st)
    (hbar : '|' ∉ team.data) :
    st.ID = .value (team ++ "|" ++ kind ++ "|" ++ value) ∧
    kind ∈ memberKinds ∧
    teamMemberImportState (team ++ "|" ++ kind ++ "|" ++ value) =
      succeed [] (importedMember (team ++ "|" ++ kind ++ "|" ++ value) team kind value) ∧
    parseTeamMemberID (team ++ "|" ++ kind ++ "|" ++ value) = (kind, value) := by
  have hteam : trimSpace d.Team.ValueString ≠ "" := by
    intro e
    simp [validateTeamMemberCreate, e] at hv
  have hk : kind ∈ memberKinds := by
    rw [validateTeamMemberCreate_eq d hteam] at hv
    match hs : setTargets d with
    | [] => rw [hs] at hv; simp at hv
    | [(k, v)] =>
      rw [hs] at hv
      simp only [Except.ok.injEq, Prod.mk.injEq] at hv
      have := setTargets_kind d k v (by rw [hs]; exact List.mem_singleton_self _)
      rw [← hv.2.1]; exact this
    | _ :: _ :: _ => rw [hs] at hv; simp at hv
  refine ⟨?_, hk, teamMemberImportState_composite team kind value hbar hk, ?_⟩
  · simp only [teamMemberCreate, hv, teamMemberJoin] at hc
    repeat' split at hc
    all_goals simp_all [failWith, succeed]
    all_goals rw [← hc]
  · simp only [parseTeamMemberID,
      splitN_composite team kind value hbar (memberKinds_no_bar kind hk)]


/-- Witness of C5: the id persisted for Steve in team blue imports back to
team blue and player Steve. -/
theorem teamMember_import_roundtrip_witness :
    teamMemberImportState "blue|player|Steve" =
      succeed []
        { ID := .value "blue|player|Steve", Team := .value "blue", Player := .value "Steve",
          Selector := .null, EntityID := .null } ∧
    parseTeamMemberID "blue|player|Steve" = ("player", "Steve") :=
  ⟨(teamMember_import_roundtrip asciiText okTransport [] stevePlan
      { stevePlan with ID := .value "blue|player|Steve" } "blue" "player" "Steve"
      (by rfl) (by decide) (by decide)).2.2.1,
   (teamMember_import_roundtrip asciiText okTransport [] stevePlan
      { stevePlan with ID := .value "blue|player|Steve" } "blue" "player" "Steve"
      (by rfl) (by decide) (by decide)).2.2.2⟩

/-- C7: for an id `team|kind|value` whose first two segments are `team` and
`kind` (neither holds a `|`): when the kind is player, selector or entity,
ImportState succeeds with the id unchanged, the team, the attribute of that
kind set to the value and the other two targets null; for any other kind it
reports an Import Error and writes no state. -/
theorem teamMemberImportState_by_kind (team kind value : String)
    (ht : '|' ∉ team.data) (hk : '|' ∉ kind.data) :
    (kind ∈ memberKinds →
      teamMemberImportState (team ++ "|" ++ kind ++ "|" ++ value) =
        succeed []
          (importedMember (team ++ "|" ++ kind ++ "|" ++ value) team kind value)) ∧
    (kind ∉ memberKinds →
      (teamMemberImportState (team ++ "|" ++ kind ++ "|" ++ value)).state = none ∧
      (teamMemberImportState (team ++ "|" ++ kind ++ "|" ++ value)).errors =
        [⟨"Import Error", "kind must be one of `player`, `selector`, or `entity`."⟩]) := by
  refine ⟨teamMemberImportState_composite team kind value ht, ?_⟩
  intro hn
  simp only [memberKinds, List.mem_cons, List.mem_singleton, List.not_mem_nil, or_false,
    not_or] at hn
  simp only [teamMemberImportState, splitN_composite team kind value ht hk, if_neg hn.1,
    if_neg hn.2.1, if_neg hn.2.2, failWith, and_self]

/-- Witness of C7: `blue|player|Steve` imports as team blue and player Steve;
`blue|bogus|Steve` is rejected. -/
theorem teamMemberImportState_by_kind_witness :
    teamMemberImportState "blue|player|Steve" =
      succeed []
        { ID := .value "blue|player|Steve", Team := .value "blue", Player := .value "Steve",
          Selector := .null, EntityID := .null } ∧
    (teamMemberImportState "blue|bogus|Steve").state = none ∧
    (teamMemberImportState "blue|bogus|Steve").errors =
      [⟨"Import Error", "kind must be one of `player`, `selector`, or `entity`."⟩] :=
  ⟨(teamMemberImportState_by_kind "blue" "player" "Steve" (by decide) (by decide)).1
      (by decide),
   (teamMemberImportState_by_kind "blue" "bogus" "Steve" (by decide) (by decide)).2
      (by decide)⟩

/-- C8, as stated, fails: an id of four segments is imported, everything after
the second `|` being the value. -/
theorem teamMemberImportState_accepts_four_segments :
    segments "blue|player|Steve|x" = 4 ∧
    teamMemberImportState "blue|player|Steve|x" =
      succeed []
        { ID := .value "blue|player|Steve|x", Team := .value "blue",
          Player := .value "Steve|x", Selector := .null, EntityID := .null } := by
  decide

/-- C8, amended: an id of fewer than three segments is rejected with an Import
Error and no state; an id of three or more segments is `team|kind|value` for
its first two segments and the remainder, it splits into exactly these
three pieces, and it is imported whenever that kind is one of the three. -/
theorem teamMemberImportState_segment_count (id : String) :
    (segments id < 3 →
      teamMemberImportState id =
        failWith [] "Import Error"
          "Expected ID in format `team|kind|value` (e.g., `blue|player|Steve`).") ∧
    (3 ≤ segments id →
      ∃ team kind value, '|' ∉ team.data ∧ '|' ∉ kind.data ∧
        id = team ++ "|" ++ kind ++ "|" ++ value ∧
        splitN id 3 = [team, kind, value] ∧
        (kind ∈ memberKinds → teamMemberImportState id =
          succeed [] (importedMember id team kind value))) := by
  refine ⟨?_, ?_⟩
  · intro hs
    have hlen := splitNChars_few '|' id.data (by unfold segments at hs; omega)
    have hl : (splitN id 3).length < 3 := by simpa [splitN] using hlen
    simp only [teamMemberImportState]
    split
    · rename_i heq
      rw [heq] at hl
      simp at hl
    · rfl
  · intro hs
    obtain ⟨a, b, c, ha, hb, habc⟩ :=
      splitNChars_many '|' id.data (by unfold segments at hs; omega)
    have hid : id = String.mk a ++ "|" ++ String.mk b ++ "|" ++ String.mk c := by
      apply String.ext
      rw [composite_data]
      exact habc
    refine ⟨String.mk a, String.mk b, String.mk c, ha, hb, hid, ?_, ?_⟩
    · rw [hid]; exact splitN_composite _ _ _ ha hb
    · intro hk
      rw [hid]
      exact teamMemberImportState_composite _ _ _ ha hk

/-- Witness of C8: the id `blue|player` of two segments is rejected. -/
theorem teamMemberImportState_segment_count_witness :
    segments "blue|player" < 3 ∧
    teamMemberImportState "blue|player" =
      failWith [] "Import Error"
        "Expected ID in format `team|kind|value` (e.g., `blue|player|Steve`)." :=
  ⟨by decide, (teamMemberImportState_segment_count "blue|player").1 (by decide)⟩

/-! ## Positional and region objects: import -/

/-- C6, as stated, fails: the import of the id of the stone block at (1, 2, 3)
yields a state whose position is null. -/
theorem blockImportState_loses_position :
    (blockCreate okTransport [] stoneBlockPlan).state = some stoneBlock ∧
    (blockImportState "block-1-2-3").state =
      some { ID := .value "block-1-2-3", Material := .null, Position := Position.null } ∧
    Position.null ≠ stoneBlock.Position := by
  decide

/-- C6, amended: for block, stairs, chest, bed and fill, the state Create
persists keeps the position (and direction; material, start and end) of the
plan and carries the id built from them, and ImportState of that id yields a
state with that same id and every other attribute null: the position is not
reconstructed from the id. -/
theorem positional_import_keeps_only_id (t : Transport) (h : List Cmd) :
    (∀ A st : blockResourceModel, (blockCreate t h A).state = some st →
      st.Position = A.Position ∧
      st.ID = .value ("block-" ++ fmtD A.Position.X.ValueInt32 ++ "-" ++
        fmtD A.Position.Y.ValueInt32 ++ "-" ++ fmtD A.Position.Z.ValueInt32) ∧
      blockImportState st.ID.ValueString =
        succeed [] { ID := st.ID, Material := .null, Position := Position.null }) ∧
    (∀ A st : stairsResourceModel, (stairsCreate (some t) h A).state = some st →
      st.Position = A.Position ∧
      st.ID = .value ("stairs-" ++ fmtD A.Position.X.ValueInt32 ++ "-" ++
        fmtD A.Position.Y.ValueInt32 ++ "-" ++ fmtD A.Position.Z.ValueInt32) ∧
      stairsImportState st.ID.ValueString =
        succeed []
          { ID := st.ID, Material := .null, Position := Position.null, Facing := .null,
            Half := .null, Shape := .null, Waterlogged := .null }) ∧
    (∀ A st : chestResourceModel, (chestCreate (some t) h A).state = some st →
      st.Position = A.Position ∧
      st.ID = .value ("chest-" ++ fmtD A.Position.X.ValueInt32 ++ "-" ++
        fmtD A.Position.Y.ValueInt32 ++ "-" ++ fmtD A.Position.Z.ValueInt32) ∧
      chestImportState st.ID.ValueString =
        succeed []
          { ID := st.ID, Size := .null, Trapped := .null, Waterlogged := .null,
            Position := Position.null }) ∧
    (∀ A st : bedResourceModel, (bedCreate t h A).state = some st →
      st.Position = A.Position ∧ st.Direction = A.Direction ∧
      st.ID = .value ("bed-" ++ fmtD A.Position.X.ValueInt32 ++ "-" ++
        fmtD A.Position.Y.ValueInt32 ++ "-" ++ fmtD A.Position.Z.ValueInt32 ++ "-" ++
        A.Direction.ValueString) ∧
      bedImportState st.ID.ValueString =
        succeed []
          { ID := st.ID, Material := .null, Position := Position.null, Direction := .null,
            Occupied := .null }) ∧
    (∀ A st : fillResourceModel, (fillCreate (some t) h A).state = some st →
      st.Material = A.Material ∧ st.Start = A.Start ∧ st.End = A.End ∧
      st.ID = .value (fillID A) ∧
      fillImportState st.ID.ValueString =
        succeed []
          { ID := st.ID, Material := .null, Start := Position.null,
            End := Position.null }) := by
  refine ⟨?_, ?_, ?_, ?_, ?_⟩
  · intro A st hc
    simp only [blockCreate] at hc
    split at hc
    · simp [failWith] at hc
    · simp only [succeed, Option.some.injEq] at hc
      subst hc
      exact ⟨rfl, rfl, rfl⟩
  · intro A st hc
    simp only [stairsCreate] at hc
    split at hc
    · simp [failWith] at hc
    · simp only [succeed, Option.some.injEq] at hc
      subst hc
      exact ⟨rfl, rfl, rfl⟩
  · intro A st hc
    simp only [chestCreate] at hc
    repeat' split at hc
    all_goals first
      | (simp [failWith] at hc)
      | (simp only [succeed, Option.some.injEq] at hc
         subst hc
         exact ⟨rfl, rfl, rfl⟩)
  · intro A st hc
    simp only [bedCreate] at hc
    repeat' split at hc
    all_goals first
      | (simp [failWith] at hc)
      | (simp only [succeed, Option.some.injEq] at hc
         subst hc
         exact ⟨rfl, rfl, rfl, rfl⟩)
  · intro A st hc
    simp only [fillCreate] at hc
    split at hc
    · simp [failWith] at hc
    · simp only [succeed, Option.some.injEq] at hc
      subst hc
      exact ⟨rfl, rfl, rfl, rfl, rfl⟩

/-- Witness of C6: the stone block at (1, 2, 3) gets the id `block-1-2-3`, and
the import of that id sets the id only. -/
theorem positional_import_keeps_only_id_witness :
    stoneBlock.Position = stoneBlockPlan.Position ∧
    stoneBlock.ID = .value "block-1-2-3" ∧
    blockImportState "block-1-2-3" =
      succeed [] { ID := .value "block-1-2-3", Material := .null, Position := Position.null } :=
  (positional_import_keeps_only_id okTransport []).1 stoneBlockPlan stoneBlock (by decide)

/-! ## gamemode: snapshot on Create and Update -/

/-- The modes that `validateGamemode` accepts are the four gamemodes. -/
theorem validateGamemode_none (g : GoText) (m : String) :
    validateGamemode g m = none ↔ m ∈ gamemodes := by
  unfold validateGamemode gamemodes
  split <;> simp_all

/-- Create of a gamemode with a valid mode, unfolded: the read, the write, and
the outcome as a function of the two replies. -/
theorem gamemodeCreate_eq (g : GoText) (t : Transport) (h : List Cmd)
    (data : gamemodeResourceModel) (hmode : planMode g data ∈ gamemodes) :
    gamemodeCreate g (some t) h data =
      match t (h ++ [modeReadCmd (modePlayer data)])
          (modeWriteCmd (planMode g data) (modePlayer data)) with
      | .fail err =>
        failWith [modeReadCmd (modePlayer data),
            modeWriteCmd (planMode g data) (modePlayer data)] "Client Error"
          (if modePlayer data = "" then
            "Unable to set default gamemode to " ++ g.quote (planMode g data) ++ ": " ++ err
           else
            "Unable to set " ++ g.quote (modePlayer data) ++ " gamemode to " ++
              g.quote (planMode g data) ++ ": " ++ err)
      | .ok _ =>
        succeed [modeReadCmd (modePlayer data),
            modeWriteCmd (planMode g data) (modePlayer data)]
          { data with
            ID := .value (modeID (modePlayer data)),
            PreviousMode := .value (snapshot "" (t h (modeReadCmd (modePlayer data)))) } := by
  have hv := (validateGamemode_none g (planMode g data)).2 hmode
  unfold planMode at hv
  simp only [gamemodeCreate, hv]
  by_cases hp : modePlayer data = ""
  · have hp2 := hp
    unfold modePlayer at hp2
    simp only [hp2, hp, modeReadCmd, modeWriteCmd, modeID, planMode, if_true]
  · have hp2 := hp
    unfold modePlayer at hp2
    simp only [hp2, hp, modeReadCmd, modeWriteCmd, modeID, planMode, if_false]
    rfl


/-- Update of a gamemode with a valid mode, unfolded. -/
theorem gamemodeUpdate_eq (g : GoText) (t : Transport) (h : List Cmd)
    (plan state : gamemodeResourceModel) (hmode : planMode g plan ∈ gamemodes) :
    gamemodeUpdate g (some t) h plan state =
      match t (h ++ [modeReadCmd (modePlayer plan)])
          (modeWriteCmd (planMode g plan) (modePlayer plan)) with
      | .fail err =>
        failWith [modeReadCmd (modePlayer plan),
            modeWriteCmd (planMode g plan) (modePlayer plan)] "Client Error"
          (if modePlayer plan = "" then
            "Unable to set default gamemode to " ++ g.quote (planMode g plan) ++ ": " ++ err
           else
            "Unable to set " ++ g.quote (modePlayer plan) ++ " gamemode to " ++
              g.quote (planMode g plan) ++ ": " ++ err)
      | .ok _ =>
        succeed [modeReadCmd (modePlayer plan),
            modeWriteCmd (planMode g plan) (modePlayer plan)]
          { plan with
            PreviousMode :=
              .value (snapshot state.PreviousMode.ValueString
                (t h (modeReadCmd (modePlayer plan)))) } := by
  have hv := (validateGamemode_none g (planMode g plan)).2 hmode
  unfold planMode at hv
  simp only [gamemodeUpdate, hv]
  by_cases hp : modePlayer plan = ""
  · have hp2 := hp
    unfold modePlayer at hp2
    simp only [hp2, hp, modeReadCmd, modeWriteCmd, planMode, if_true]
  · have hp2 := hp
    unfold modePlayer at hp2
    simp only [hp2, hp, modeReadCmd, modeWriteCmd, planMode, if_false]
    rfl

/-- C12: Create of a gamemode with a valid mode issues the read, then the write,
whatever the read returns; errors are reported exactly when the write fails,
never for the read; and when the write succeeds the persisted `previous_mode`
is empty if the read failed or returned the empty string, and is the text `r`
read if the read succeeded with a non-empty `r`. -/
theorem gamemodeCreate_snapshot_best_effort (g : GoText) (t : Transport) (h : List Cmd)
    (data : gamemodeResourceModel) (hmode : planMode g data ∈ gamemodes) :
    (gamemodeCreate g (some t) h data).cmds =
      [modeReadCmd (modePlayer data), modeWriteCmd (planMode g data) (modePlayer data)] ∧
    ((gamemodeCreate g (some t) h data).errors = [] ↔
      ∃ text, t (h ++ [modeReadCmd (modePlayer data)])
        (modeWriteCmd (planMode g data) (modePlayer data)) = .ok text) ∧
    (∀ text, t (h ++ [modeReadCmd (modePlayer data)])
        (modeWriteCmd (planMode g data) (modePlayer data)) = .ok text →
      ((∀ err, t h (modeReadCmd (modePlayer data)) = .fail err →
        (gamemodeCreate g (some t) h data).state =
          some { data with ID := .value (modeID (modePlayer data)),
                           PreviousMode := .value "" }) ∧
       (t h (modeReadCmd (modePlayer data)) = .ok "" →
        (gamemodeCreate g (some t) h data).state =
          some { data with ID := .value (modeID (modePlayer data)),
                           PreviousMode := .value "" }) ∧
       (∀ r, r ≠ "" → t h (modeReadCmd (modePlayer data)) = .ok r →
        (gamemodeCreate g (some t) h data).state =
          some { data with ID := .value (modeID (modePlayer data)),
                           PreviousMode := .value r }))) := by
  rw [gamemodeCreate_eq g t h data hmode]
  refine ⟨?_, ?_, ?_⟩
  · split <;> rfl
  · split <;> simp_all [failWith, succeed]
  · intro text hw
    simp only [hw, succeed]
    refine ⟨?_, ?_, ?_⟩
    · intro err hr
      simp only [hr, snapshot]
    · intro hr
      simp only [hr, snapshot, ne_eq, not_true_eq_false, if_false]
    · intro r hne hr
      simp only [hr, snapshot, ne_eq, hne, not_false_eq_true, if_true]

/-- C13: Update of a gamemode with a valid mode issues the read, then the write,
and every state it persists has as `previous_mode` the text `r` of that read
when the read succeeded with a non-empty `r`, and the value of the prior
state's `previous_mode` otherwise (the prior attribute itself whenever that
is a known string): the snapshot depends on this read and on the prior state
only, not on what Create captured. -/
theorem gamemodeUpdate_ratchet (g : GoText) (t : Transport) (h : List Cmd)
    (plan state : gamemodeResourceModel) (hmode : planMode g plan ∈ gamemodes) :
    (gamemodeUpdate g (some t) h plan state).cmds =
      [modeReadCmd (modePlayer plan), modeWriteCmd (planMode g plan) (modePlayer plan)] ∧
    (∀ st, (gamemodeUpdate g (some t) h plan state).state = some st →
      (∀ r, r ≠ "" → t h (modeReadCmd (modePlayer plan)) = .ok r →
        st.PreviousMode = .value r) ∧
      (t h (modeReadCmd (modePlayer plan)) = .ok "" →
        st.PreviousMode = .value state.PreviousMode.ValueString) ∧
      (∀ err, t h (modeReadCmd (modePlayer plan)) = .fail err →
        st.PreviousMode = .value state.PreviousMode.ValueString) ∧
      (∀ p, state.PreviousMode = .value p →
        st.PreviousMode = state.PreviousMode ∨
        ∃ r, r ≠ "" ∧ t h (modeReadCmd (modePlayer plan)) = .ok r ∧
          st.PreviousMode = .value r)) := by
  rw [gamemodeUpdate_eq g t h plan state hmode]
  refine ⟨?_, ?_⟩
  · split <;> rfl
  · intro st hst
    split at hst
    · simp [failWith] at hst
    · simp only [succeed, Option.some.injEq] at hst
      subst hst
      refine ⟨?_, ?_, ?_, ?_⟩
      · intro r hne hr
        simp only [hr, snapshot, ne_eq, hne, not_false_eq_true, if_true]
      · intro hr
        simp only [hr, snapshot, ne_eq, not_true_eq_false, if_false]
      · intro err hr
        simp only [hr, snapshot]
      · intro p hp
        cases hr : t h (modeReadCmd (modePlayer plan)) with
        | fail err => left; simp only [snapshot, hp, TF.ValueString]
        | ok r =>
          by_cases hne : r = ""
          · left; simp only [snapshot, hne, hp, TF.ValueString, ne_eq, not_true_eq_false,
              if_false]
          · right; exact ⟨r, hne, rfl, by simp only [snapshot, ne_eq, hne, not_false_eq_true,
              if_true]⟩

/-- Witness of C12: with every read failing the snapshot of the default gamemode
is empty and the write is issued all the same; on the faithful remote the
snapshot of Steve's gamemode is `survival`. -/
theorem gamemodeCreate_snapshot_best_effort_witness :
    (gamemodeCreate asciiText (some readsFail) [] (defaultModePlan "creative")).state =
      some { defaultModePlan "creative" with
        ID := .value "default", PreviousMode := .value "" } ∧
    (gamemodeCreate asciiText (some (faithful "survival")) [] (steveModePlan "creative")).state =
      some { steveModePlan "creative" with
        ID := .value "player:Steve", PreviousMode := .value "survival" } :=
  ⟨((gamemodeCreate_snapshot_best_effort asciiText readsFail []
      (defaultModePlan "creative") (by decide)).2.2 "" (by decide)).1 "connection lost"
      (by decide),
   ((gamemodeCreate_snapshot_best_effort asciiText (faithful "survival") []
      (steveModePlan "creative") (by decide)).2.2 "" (by decide)).2.2 "survival"
      (by decide) (by decide)⟩

/-- Witness of C13: after Create captured `survival`, an Update on the faithful
remote persists the snapshot `creative` that it read; with every read failing
it keeps the snapshot `survival` of the prior state. -/
theorem gamemodeUpdate_ratchet_witness :
    (gamemodeUpdate asciiText (some (faithful "survival"))
      [.GetDefaultGameMode, .SetDefaultGameMode "creative"]
      (defaultModeUpdate "adventure") (defaultModeState "creative" "survival")).state =
      some (defaultModeState "adventure" "creative") ∧
    (defaultModeState "adventure" "creative").PreviousMode = .value "creative" ∧
    (gamemodeUpdate asciiText (some readsFail)
      [.GetDefaultGameMode, .SetDefaultGameMode "creative"]
      (defaultModeUpdate "adventure") (defaultModeState "creative" "survival")).state =
      some (defaultModeState "adventure" "survival") ∧
    (defaultModeState "adventure" "survival").PreviousMode = .value "survival" :=
  ⟨by decide,
   ((gamemodeUpdate_ratchet asciiText (faithful "survival")
      [.GetDefaultGameMode, .SetDefaultGameMode "creative"]
      (defaultModeUpdate "adventure") (defaultModeState "creative" "survival")
      (by decide)).2 (defaultModeState "adventure" "creative") (by decide)).1 "creative"
      (by decide) (by decide),
   by decide,
   ((gamemodeUpdate_ratchet asciiText readsFail
      [.GetDefaultGameMode, .SetDefaultGameMode "creative"]
      (defaultModeUpdate "adventure") (defaultModeState "creative" "survival")
      (by decide)).2 (defaultModeState "adventure" "survival") (by decide)).2.2.1
      "connection lost" (by decide)⟩

/-! ## gamemode: the lifecycle on a faithful remote -/

/-- The four gamemodes are not blank and are left alone by trimming. -/
theorem gamemodes_trim (m : String) (hm : m ∈ gamemodes) : trimSpace m = m ∧ m ≠ "" := by
  simp only [gamemodes, List.mem_cons, List.mem_singleton, List.not_mem_nil, or_false] at hm
  rcases hm with rfl | rfl | rfl | rfl <;> decide

/-- The player of a model is its trimmed `player` attribute. -/
theorem modePlayer_eq (d : gamemodeResourceModel) :
    modePlayer d = trimSpace d.Player.ValueString := by
  unfold modePlayer
  cases hd : d.Player <;> simp [TF.IsNull, TF.ValueString]
  all_goals decide

/-- On the faithful remote a read returns the current mode. -/
theorem faithful_read (v0 player : String) (h : List Cmd) :
    faithful v0 h (modeReadCmd player) = .ok (remoteMode v0 player h) := by
  unfold modeReadCmd
  split
  · next hp => subst hp; rfl
  · rfl

/-- On the faithful remote a write succeeds. -/
theorem faithful_write (v0 mode player : String) (h : List Cmd) :
    faithful v0 h (modeWriteCmd mode player) = .ok "" := by
  unfold modeWriteCmd
  split <;> rfl

/-- The remote mode after one more write addressed to the player. -/
theorem remoteMode_write (v0 mode player : String) (h : List Cmd) :
    remoteMode v0 player (h ++ [modeWriteCmd mode player]) = mode := by
  unfold remoteMode modeWriteCmd
  rw [List.foldl_append]
  split <;> simp_all

/-- One Update on the faithful remote. -/
theorem gamemodeUpdate_faithful (g : GoText) (v0 : String) (h : List Cmd)
    (plan state : gamemodeResourceModel) (hmode : planMode g plan ∈ gamemodes) :
    gamemodeUpdate g (some (faithful v0)) h plan state =
      succeed [modeReadCmd (modePlayer plan), modeWriteCmd (planMode g plan) (modePlayer plan)]
        { plan with
          PreviousMode :=
            .value (snapshot state.PreviousMode.ValueString
              (.ok (remoteMode v0 (modePlayer plan) h))) } := by
  rw [gamemodeUpdate_eq g _ h plan state hmode, faithful_write, faithful_read]

/-- One Create on the faithful remote. -/
theorem gamemodeCreate_faithful (g : GoText) (v0 : String) (h : List Cmd)
    (plan : gamemodeResourceModel) (hmode : planMode g plan ∈ gamemodes) :
    gamemodeCreate g (some (faithful v0)) h plan =
      succeed [modeReadCmd (modePlayer plan), modeWriteCmd (planMode g plan) (modePlayer plan)]
        { plan with
          ID := .value (modeID (modePlayer plan)),
          PreviousMode := .value (snapshot "" (.ok (remoteMode v0 (modePlayer plan) h))) } := by
  rw [gamemodeCreate_eq g _ h plan hmode, faithful_write, faithful_read]

/-- A run of Updates on the faithful remote: the snapshot and the remote mode
afterwards are those of `ratchet`. -/
theorem gamemodeUpdates_faithful (g : GoText) (v0 player : String) :
    ∀ (ps : List gamemodeResourceModel) (h : List Cmd) (st : gamemodeResourceModel)
      (prev cur : String),
      (∀ p ∈ ps, planMode g p ∈ gamemodes ∧ modePlayer p = player) →
      st.PreviousMode = .value prev → remoteMode v0 player h = cur →
      prev ∈ gamemodes → cur ∈ gamemodes → modePlayer st = player →
      (gamemodeUpdates g (faithful v0) h st ps).2.PreviousMode =
          .value (ratchet g (prev, cur) ps).1 ∧
        remoteMode v0 player (gamemodeUpdates g (faithful v0) h st ps).1 =
          (ratchet g (prev, cur) ps).2 ∧
        modePlayer (gamemodeUpdates g (faithful v0) h st ps).2 = player ∧
        (ratchet g (prev, cur) ps).1 ∈ gamemodes
  | [], h, st, prev, cur, _, hprev, hcur, hprevm, _, hpl => by
    simp only [gamemodeUpdates, ratchet]
    exact ⟨hprev, hcur, hpl, hprevm⟩
  | p :: ps, h, st, prev, cur, hps, hprev, hcur, _, hcurm, hpl => by
    have hp := hps p (List.mem_cons_self _ _)
    have hmode : planMode g { p with ID := st.ID } ∈ gamemodes := hp.1
    have hplayer : modePlayer { p with ID := st.ID } = player := hp.2
    have hstep := gamemodeUpdate_faithful g v0 h { p with ID := st.ID } st hmode
    rw [hplayer] at hstep
    have hne := (gamemodes_trim cur hcurm).2
    simp only [gamemodeUpdates, ratchet, hstep, succeed]
    have hrec := gamemodeUpdates_faithful g v0 player ps
      (h ++ [modeReadCmd player, modeWriteCmd (planMode g { p with ID := st.ID }) player])
      { p with ID := st.ID, PreviousMode := .value (snapshot st.PreviousMode.ValueString
          (.ok (remoteMode v0 player h))) }
      cur (planMode g p)
      (fun q hq => hps q (List.mem_cons_of_mem _ hq))
      (by simp only [snapshot, hcur, ne_eq, hne, not_false_eq_true, if_true])
      (by
        have : h ++ [modeReadCmd player, modeWriteCmd (planMode g { p with ID := st.ID }) player]
            = (h ++ [modeReadCmd player]) ++
              [modeWriteCmd (planMode g { p with ID := st.ID }) player] := by simp
        rw [this, remoteMode_write]; rfl)
      hcurm hp.1 hp.2
    exact hrec


/-- Delete on the faithful remote with a snapshot that is a gamemode. -/
theorem gamemodeDelete_faithful (g : GoText) (v0 prev : String) (h : List Cmd)
    (st : gamemodeResourceModel) (hprev : st.PreviousMode = .value prev)
    (hm : prev ∈ gamemodes) :
    (gamemodeDelete g (some (faithful v0)) h st).cmds = [modeWriteCmd prev (modePlayer st)] := by
  have ht := gamemodes_trim prev hm
  have hp := modePlayer_eq st
  have hpv : st.PreviousMode.ValueString = prev := by rw [hprev]; rfl
  simp only [gamemodeDelete, hpv, ht.1, if_neg ht.2, ← hp]
  by_cases hpl : modePlayer st = ""
  · simp only [hpl, if_true, modeWriteCmd]
    split <;> rfl
  · simp only [hpl, if_false, modeWriteCmd]
    split <;> rfl

/-- After at least one Update the snapshot is the mode of the plan before the last one. -/
theorem ratchet_before_last (g : GoText) :
    ∀ (us : List gamemodeResourceModel) (c : gamemodeResourceModel) (a : String)
      (pre : List gamemodeResourceModel) (p q : gamemodeResourceModel),
      c :: us = pre ++ [p, q] → (ratchet g (a, planMode g c) us).1 = planMode g p
  | [], c, a, pre, p, q, he => by
    have := congrArg List.length he
    simp at this
  | u :: us, c, a, [], p, q, he => by
    simp only [List.nil_append, List.cons.injEq] at he
    obtain ⟨rfl, rfl, rfl⟩ := he
    rfl
  | u :: us, c, a, x :: pre, p, q, he => by
    simp only [List.cons_append, List.cons.injEq] at he
    simp only [ratchet]
    exact ratchet_before_last g us u (planMode g c) pre p q he.2

/-- C11, amended: on the faithful remote started at a gamemode `v0`, after
Create, any number of Updates and Delete of a gamemode resource (default or
per player, valid modes, one player throughout), the remote gamemode is the
snapshot of `ratchet`: it is `v0` when there was no Update, and otherwise the
mode planned by the step before the last Update, the value that held right
before the last write. -/
theorem gamemode_lifecycle_restores_ratchet (g : GoText) (v0 : String)
    (create : gamemodeResourceModel) (updates : List gamemodeResourceModel)
    (hv0 : v0 ∈ gamemodes) (hcreate : planMode g create ∈ gamemodes)
    (hupdates : ∀ p ∈ updates, planMode g p ∈ gamemodes ∧ modePlayer p = modePlayer create) :
    remoteMode v0 (modePlayer create) (gamemodeLifecycle g (faithful v0) create updates) =
        (ratchet g (v0, planMode g create) updates).1 ∧
      (updates = [] →
        remoteMode v0 (modePlayer create)
          (gamemodeLifecycle g (faithful v0) create updates) = v0) ∧
      (∀ pre p q, create :: updates = pre ++ [p, q] →
        remoteMode v0 (modePlayer create)
          (gamemodeLifecycle g (faithful v0) create updates) = planMode g p) := by
  have hmain : remoteMode v0 (modePlayer create)
      (gamemodeLifecycle g (faithful v0) create updates) =
        (ratchet g (v0, planMode g create) updates).1 := by
    have hne := (gamemodes_trim v0 hv0).2
    have hc := gamemodeCreate_faithful g v0 [] create hcreate
    have hsnap : snapshot "" (.ok (remoteMode v0 (modePlayer create) [])) = v0 := by
      simp only [remoteMode, List.foldl_nil, snapshot, ne_eq, hne, not_false_eq_true, if_true]
    rw [hsnap] at hc
    simp only [gamemodeLifecycle, hc, succeed]
    have hu := gamemodeUpdates_faithful g v0 (modePlayer create) updates
      [modeReadCmd (modePlayer create), modeWriteCmd (planMode g create) (modePlayer create)]
      { create with ID := .value (modeID (modePlayer create)), PreviousMode := .value v0 }
      v0 (planMode g create) hupdates rfl
      (remoteMode_write v0 (planMode g create) (modePlayer create)
        [modeReadCmd (modePlayer create)])
      hv0 hcreate rfl
    obtain ⟨h1, _, h3, h4⟩ := hu
    rw [gamemodeDelete_faithful g v0 _ _ _ h1 h4, h3, remoteMode_write]
  refine ⟨hmain, ?_, ?_⟩
  · intro he
    rw [hmain, he]
    rfl
  · intro pre p q he
    rw [hmain]
    exact ratchet_before_last g updates create v0 pre p q he

/-- C11, as stated, fails: on the faithful remote started at `survival`, the
lifecycle Create `creative`, Update `adventure`, Delete ends with the write of
`creative`, so the remote gamemode is `creative`, not `survival`. -/
theorem gamemode_lifecycle_does_not_restore_origin :
    gamemodeLifecycle asciiText (faithful "survival") (defaultModePlan "creative")
        [defaultModePlan "adventure"] =
      [.GetDefaultGameMode, .SetDefaultGameMode "creative", .GetDefaultGameMode,
        .SetDefaultGameMode "adventure", .SetDefaultGameMode "creative"] ∧
    remoteMode "survival" ""
        (gamemodeLifecycle asciiText (faithful "survival") (defaultModePlan "creative")
          [defaultModePlan "adventure"]) = "creative" ∧
    "creative" ≠ "survival" := by
  decide

/-- Witness of C11: for Steve, Create `creative`, Update `adventure`, Update
`spectator`, Delete leaves `adventure`; without any Update the default
gamemode is back at `survival`. -/
theorem gamemode_lifecycle_restores_ratchet_witness :
    remoteMode "survival" "Steve"
        (gamemodeLifecycle asciiText (faithful "survival") (steveModePlan "creative")
          [steveModePlan "adventure", steveModePlan "spectator"]) = "adventure" ∧
    remoteMode "survival" ""
        (gamemodeLifecycle asciiText (faithful "survival") (defaultModePlan "creative") []) =
      "survival" :=
  ⟨(gamemode_lifecycle_restores_ratchet asciiText "survival" (steveModePlan "creative")
      [steveModePlan "adventure", steveModePlan "spectator"] (by decide) (by decide)
      (by decide)).2.2 [steveModePlan "creative"] (steveModePlan "adventure")
      (steveModePlan "spectator") rfl,
   (gamemode_lifecycle_restores_ratchet asciiText "survival" (defaultModePlan "creative")
      [] (by decide) (by decide) (by decide)).2.1 rfl⟩

/-! ## Update: what a successful run issued and persisted -/

/-- A successful Update of a block persists the plan after one placement. -/
theorem blockUpdate_ok (t : Transport) (h : List Cmd) (plan s : blockResourceModel)
    (hs : (blockUpdate t h plan).state = some s) :
    s = plan ∧ (blockUpdate t h plan).cmds =
      [.CreateBlock plan.Material.ValueString plan.Position.X.ValueInt32
        plan.Position.Y.ValueInt32 plan.Position.Z.ValueInt32] := by
  simp only [blockUpdate] at hs ⊢
  split at hs
  · simp [failWith] at hs
  · rename_i heq
    simp only [succeed, Option.some.injEq] at hs
    simp only [heq, succeed, hs, and_self]

/-- A successful Update of stairs persists the plan after one placement. -/
theorem stairsUpdate_ok (t : Transport) (h : List Cmd) (plan s : stairsResourceModel)
    (hs : (stairsUpdate (some t) h plan).state = some s) :
    s = plan ∧ (stairsUpdate (some t) h plan).cmds =
      [.CreateStairs plan.Material.ValueString plan.Position.X.ValueInt32
        plan.Position.Y.ValueInt32 plan.Position.Z.ValueInt32 plan.Facing.ValueString
        plan.Half.ValueString plan.Shape.ValueString plan.Waterlogged.ValueBool] := by
  simp only [stairsUpdate] at hs ⊢
  split at hs
  · simp [failWith] at hs
  · rename_i heq
    simp only [succeed, Option.some.injEq] at hs
    simp only [heq, succeed, hs, and_self]

/-- A successful Update of a chest persists the plan after the placements of its size. -/
theorem chestUpdate_ok (t : Transport) (h : List Cmd) (plan s : chestResourceModel)
    (hs : (chestUpdate (some t) h plan).state = some s) :
    s = plan ∧ (chestUpdate (some t) h plan).cmds = chestPlacements plan ∧
      (plan.Size.ValueString = "single" ∨ plan.Size.ValueString = "double") := by
  simp only [chestUpdate, chestPlacements] at hs ⊢
  repeat' split at hs
  all_goals simp_all [failWith, succeed]

/-- A successful Create of a chest persists the plan with its id after the placements of its size. -/
theorem chestCreate_ok (t : Transport) (h : List Cmd) (plan s : chestResourceModel)
    (hs : (chestCreate (some t) h plan).state = some s) :
    s = { plan with ID := .value (positionalID "chest" plan.Position.X.ValueInt32
        plan.Position.Y.ValueInt32 plan.Position.Z.ValueInt32) } ∧
      (chestCreate (some t) h plan).cmds = chestPlacements plan ∧
      (plan.Size.ValueString = "single" ∨ plan.Size.ValueString = "double") := by
  simp only [chestCreate, chestPlacements, positionalID] at hs ⊢
  repeat' split at hs
  all_goals simp_all [failWith, succeed]

/-- A successful Update of a bed persists the plan after the foot and the head. -/
theorem bedUpdate_ok (t : Transport) (h : List Cmd) (plan s : bedResourceModel)
    (hs : (bedUpdate t h plan).state = some s) :
    s = plan ∧ (bedUpdate t h plan).cmds = bedPlacements plan ∧
      (bedOffset plan.Direction.ValueString).2.2 = true := by
  simp only [bedUpdate, bedPlacements] at hs ⊢
  repeat' split at hs
  all_goals simp_all [failWith, succeed]

/-- A successful Create of a bed persists the plan with its id after the foot and the head. -/
theorem bedCreate_ok (t : Transport) (h : List Cmd) (plan s : bedResourceModel)
    (hs : (bedCreate t h plan).state = some s) :
    s = { plan with ID := .value (bedID plan.Position.X.ValueInt32
        plan.Position.Y.ValueInt32 plan.Position.Z.ValueInt32 plan.Direction.ValueString) } ∧
      (bedCreate t h plan).cmds = bedPlacements plan ∧
      (bedOffset plan.Direction.ValueString).2.2 = true := by
  simp only [bedCreate, bedPlacements, bedID] at hs ⊢
  repeat' split at hs
  all_goals simp_all [failWith, succeed]

/-- A successful Update of a fill persists the plan with the id built from it. -/
theorem fillUpdate_ok (t : Transport) (h : List Cmd) (plan s : fillResourceModel)
    (hs : (fillUpdate (some t) h plan).state = some s) :
    s = { plan with ID := .value (fillID plan) } ∧
      (fillUpdate (some t) h plan).cmds = [fillCmd plan.Material.ValueString plan] := by
  simp only [fillUpdate] at hs ⊢
  split at hs
  · simp [failWith] at hs
  · rename_i heq
    simp only [succeed, Option.some.injEq] at hs
    simp only [heq, succeed, hs, and_self]

/-- A successful Update of a gamerule persists the plan after its one write. -/
theorem gameruleUpdate_ok (g : GoText) (t : Transport) (h : List Cmd)
    (plan s : gameruleResourceModel)
    (hs : (gameruleUpdate g (some t) h plan).state = some s) :
    s = plan ∧ (gameruleUpdate g (some t) h plan).cmds = (gameruleWrite g plan).toList := by
  simp only [gameruleUpdate, gameruleSet, gameruleWrite] at hs ⊢
  repeat' split at hs
  all_goals simp_all [failWith, succeed]

/-- A successful Update of the daylock persists the plan, its id set when missing. -/
theorem daylockUpdate_ok (t : Transport) (h : List Cmd) (plan s : daylockResourceModel)
    (hs : (daylockUpdate (some t) h plan).state = some s) :
    s = (if plan.ID.IsNull || plan.ID.IsUnknown then { plan with ID := .value "default" }
      else plan) ∧
    (daylockUpdate (some t) h plan).cmds = [daylockWrite plan.Enabled.ValueBool] := by
  simp only [daylockUpdate, daylockWrite] at hs ⊢
  repeat' split at hs
  all_goals simp_all [failWith, succeed]


/-- When no command of a run fails, all of them were issued. -/
theorem runInOrder_ok (t : Transport) :
    ∀ (l : List (Cmd × String)) (h : List Cmd), (runInOrder t h l).2 = none →
      (runInOrder t h l).1 = l.map Prod.fst
  | [], _, _ => rfl
  | (c, what) :: rest, h, hn => by
    simp only [runInOrder] at hn ⊢
    split at hn
    · simp at hn
    · rename_i heq
      simp only [heq, List.map_cons, List.cons.injEq, true_and]
      exact runInOrder_ok t rest (h ++ [c]) hn

/-- A successful tail of the team Update issued every option command. -/
theorem teamUpdateOptions_ok (g : GoText) (t : Transport) (h issued : List Cmd) (name : String)
    (plan s : teamResourceModel)
    (hs : (teamUpdateOptions g t h issued name plan).state = some s) :
    s = (if plan.ID.IsNull || plan.ID.IsUnknown then { plan with ID := .value name }
      else plan) ∧
    (teamUpdateOptions g t h issued name plan).cmds =
      issued ++ (teamOptions g name plan).map Prod.fst := by
  simp only [teamUpdateOptions, applyTeamOptions] at hs ⊢
  have hr := runInOrder_ok t (teamOptions g name plan) (h ++ issued)
  cases hres : runInOrder t (h ++ issued) (teamOptions g name plan) with
  | mk cs e =>
    rw [hres] at hs hr
    cases e with
    | some e => simp [failWith] at hs
    | none =>
      simp only [succeed, Option.some.injEq] at hs ⊢
      exact ⟨hs.symm, congrArg _ (hr rfl)⟩

/-- A successful Update of a team: the state, and the commands issued. -/
theorem teamUpdate_ok (g : GoText) (t : Transport) (h : List Cmd)
    (plan state s : teamResourceModel)
    (hs : (teamUpdate g (some t) h plan state).state = some s) :
    s = (if plan.ID.IsNull || plan.ID.IsUnknown then
        { plan with ID := .value (trimSpace plan.Name.ValueString) }
      else plan) ∧
    (teamUpdate g (some t) h plan state).cmds =
      (if stringValuesEqual plan.DisplayName state.DisplayName then []
        else [Cmd.SetTeamDisplayName (trimSpace plan.Name.ValueString)
          (teamDisplay (trimSpace plan.Name.ValueString) plan)]) ++
      (teamOptions g (trimSpace plan.Name.ValueString) plan).map Prod.fst := by
  simp only [teamUpdate] at hs ⊢
  split at hs
  · simp [failWith] at hs
  · rename_i hname
    simp only [if_neg hname]
    by_cases heq : stringValuesEqual plan.DisplayName state.DisplayName = true
    · simp only [heq, Bool.not_true, Bool.false_eq_true, if_false, if_true] at hs ⊢
      have := teamUpdateOptions_ok g t h [] _ plan s hs
      simpa using this
    · simp only [heq, Bool.not_eq_true] at hs ⊢
      simp only [Bool.not_eq_true] at heq
      simp only [heq, Bool.not_false, if_true, Bool.false_eq_true, if_false] at hs ⊢
      split at hs
      · simp [failWith] at hs
      · have := teamUpdateOptions_ok g t h _ _ plan s hs
        simpa using this


/-! ## Update: the same plan twice -/

/-- A string attribute that is not unknown equals itself for `stringValuesEqual`. -/
theorem stringValuesEqual_self (a : TF String) (ha : a.IsUnknown = false) :
    stringValuesEqual a a = true := by
  cases a <;> simp_all [stringValuesEqual, TF.IsNull, TF.IsUnknown]

/-- The team state persisted by a successful Update is a fixed point of the id fix. -/
theorem team_fix_id (name : String) (plan : teamResourceModel) :
    (if ({ plan with ID := (if plan.ID.IsNull || plan.ID.IsUnknown then
          ({ plan with ID := .value name } : teamResourceModel) else plan).ID } :
          teamResourceModel).ID.IsNull ||
        ({ plan with ID := (if plan.ID.IsNull || plan.ID.IsUnknown then
          ({ plan with ID := .value name } : teamResourceModel) else plan).ID } :
          teamResourceModel).ID.IsUnknown then
      ({ plan with ID := .value name } : teamResourceModel)
    else { plan with ID := (if plan.ID.IsNull || plan.ID.IsUnknown then
          ({ plan with ID := .value name } : teamResourceModel) else plan).ID }) =
    (if plan.ID.IsNull || plan.ID.IsUnknown then
      ({ plan with ID := .value name } : teamResourceModel) else plan) := by
  cases hid : plan.ID <;> simp [TF.IsNull, TF.IsUnknown, hid]
  cases plan; simp_all

/-- Two consecutive successful Updates of a team with the same plan. -/
theorem team_twice (g : GoText) (t : Transport) (h : List Cmd)
    (plan s0 s1 s2 : teamResourceModel) (hknown : plan.DisplayName.IsUnknown = false)
    (h1 : (teamUpdate g (some t) h plan s0).state = some s1)
    (h2 : (teamUpdate g (some t) (h ++ (teamUpdate g (some t) h plan s0).cmds)
        { plan with ID := s1.ID } s1).state = some s2) :
      s2 = s1 ∧
      (teamUpdate g (some t) (h ++ (teamUpdate g (some t) h plan s0).cmds)
          { plan with ID := s1.ID } s1).cmds =
        (teamOptions g (trimSpace plan.Name.ValueString) plan).map Prod.fst ∧
      (teamUpdate g (some t) h plan s0).cmds =
        (if stringValuesEqual plan.DisplayName s0.DisplayName then []
          else [Cmd.SetTeamDisplayName (trimSpace plan.Name.ValueString)
            (teamDisplay (trimSpace plan.Name.ValueString) plan)]) ++
        (teamOptions g (trimSpace plan.Name.ValueString) plan).map Prod.fst := by
  obtain ⟨e1, c1⟩ := teamUpdate_ok g t h plan s0 s1 h1
  obtain ⟨e2, c2⟩ := teamUpdate_ok g t _ _ s1 s2 h2
  have hd : s1.DisplayName = plan.DisplayName := by
    rw [e1]; split <;> rfl
  have hself : stringValuesEqual ({ plan with ID := s1.ID } : teamResourceModel).DisplayName
      s1.DisplayName = true := by
    rw [hd]; exact stringValuesEqual_self _ hknown
  rw [hself] at c2
  refine ⟨?_, ?_, c1⟩
  · rw [e2, e1]
    exact team_fix_id _ plan
  · rw [c2]
    rfl

/-- Two consecutive successful Updates of a gamemode with the same plan, on the faithful remote. -/
theorem gamemode_twice (g : GoText) (v0 : String) (h : List Cmd)
    (plan s0 s1 s2 : gamemodeResourceModel) (hmode : planMode g plan ∈ gamemodes)
    (h1 : (gamemodeUpdate g (some (faithful v0)) h plan s0).state = some s1)
    (h2 : (gamemodeUpdate g (some (faithful v0))
        (h ++ (gamemodeUpdate g (some (faithful v0)) h plan s0).cmds)
        { plan with ID := s1.ID } s1).state = some s2) :
      (gamemodeUpdate g (some (faithful v0))
          (h ++ (gamemodeUpdate g (some (faithful v0)) h plan s0).cmds)
          { plan with ID := s1.ID } s1).cmds =
        (gamemodeUpdate g (some (faithful v0)) h plan s0).cmds ∧
      s2 = { s1 with PreviousMode := .value (planMode g plan) } := by
  have hm2 : planMode g ({ plan with ID := s1.ID } : gamemodeResourceModel) ∈ gamemodes := hmode
  rw [gamemodeUpdate_faithful g v0 h plan s0 hmode] at h1 h2 ⊢
  rw [gamemodeUpdate_faithful g v0 _ _ s1 hm2] at h2 ⊢
  simp only [succeed, Option.some.injEq] at h1 h2 ⊢
  refine ⟨rfl, ?_⟩
  have hw : remoteMode v0 (modePlayer plan)
      (h ++ [modeReadCmd (modePlayer plan), modeWriteCmd (planMode g plan) (modePlayer plan)]) =
      planMode g plan := by
    have : h ++ [modeReadCmd (modePlayer plan),
        modeWriteCmd (planMode g plan) (modePlayer plan)] =
        (h ++ [modeReadCmd (modePlayer plan)]) ++
          [modeWriteCmd (planMode g plan) (modePlayer plan)] := by simp
    rw [this, remoteMode_write]
  have hne := (gamemodes_trim _ hmode).2
  rw [← h2, ← h1]
  have hpl : modePlayer ({ plan with ID := plan.ID } : gamemodeResourceModel) =
      modePlayer plan := rfl
  simp only [hpl, hw, snapshot, ne_eq, hne, not_false_eq_true, if_true]

/-- A model whose id is replaced by itself is unchanged, for the daylock fix of the id. -/
theorem daylock_fix_id (plan : daylockResourceModel) :
    (if ({ plan with ID := (if plan.ID.IsNull || plan.ID.IsUnknown then
          ({ plan with ID := .value "default" } : daylockResourceModel) else plan).ID } :
          daylockResourceModel).ID.IsNull ||
        ({ plan with ID := (if plan.ID.IsNull || plan.ID.IsUnknown then
          ({ plan with ID := .value "default" } : daylockResourceModel) else plan).ID } :
          daylockResourceModel).ID.IsUnknown then
      ({ plan with ID := .value "default" } : daylockResourceModel)
    else { plan with ID := (if plan.ID.IsNull || plan.ID.IsUnknown then
          ({ plan with ID := .value "default" } : daylockResourceModel) else plan).ID }) =
    (if plan.ID.IsNull || plan.ID.IsUnknown then
      ({ plan with ID := .value "default" } : daylockResourceModel) else plan) := by
  cases hid : plan.ID <;> simp [TF.IsNull, TF.IsUnknown, hid]
  cases plan; simp_all

/-- C14, amended: two consecutive successful Updates with the same plan, the
second carrying the id persisted by the first, issue the same commands and
persist the same state for block, stairs, chest, bed, fill, gamerule, daylock,
entity, sheep, zombie, team_member and op. For a team the state is the same,
but the second Update issues the option commands only: SetTeamDisplayName is
issued by the first one alone, when the planned display name differed from
the prior state. For a gamemode on the faithful remote the commands are the
same, but the second Update replaces `previous_mode` by the planned mode. -/
theorem update_twice_same (g : GoText) (t : Transport) (h : List Cmd) :
    (∀ plan, sameTwice (blockUpdate t) (fun p s => { p with ID := s.ID }) h plan) ∧
    (∀ plan, sameTwice (stairsUpdate (some t)) (fun p s => { p with ID := s.ID }) h plan) ∧
    (∀ plan, sameTwice (chestUpdate (some t)) (fun p s => { p with ID := s.ID }) h plan) ∧
    (∀ plan, sameTwice (bedUpdate t) (fun p s => { p with ID := s.ID }) h plan) ∧
    (∀ plan, sameTwice (fillUpdate (some t)) (fun p s => { p with ID := s.ID }) h plan) ∧
    (∀ plan, sameTwice (gameruleUpdate g (some t)) (fun p s => { p with ID := s.ID }) h plan) ∧
    (∀ plan, sameTwice (daylockUpdate (some t)) (fun p s => { p with ID := s.ID }) h plan) ∧
    (∀ plan, sameTwice (fun _ p => entityUpdate (some t) p)
      (fun p s => { p with ID := s.ID }) h plan) ∧
    (∀ plan, sameTwice (fun _ p => sheepUpdate (some t) p)
      (fun p s => { p with ID := s.ID }) h plan) ∧
    (∀ plan, sameTwice (fun _ p => zombieUpdate (some t) p)
      (fun p s => { p with ID := s.ID }) h plan) ∧
    (∀ plan, sameTwice (fun _ p => teamMemberUpdate (some t) p)
      (fun p s => { p with ID := s.ID }) h plan) ∧
    (∀ plan, sameTwice (fun _ p => opUpdate (some t) p)
      (fun p s => { p with ID := s.ID }) h plan) ∧
    (∀ plan s0 s1 s2, plan.DisplayName.IsUnknown = false →
      (teamUpdate g (some t) h plan s0).state = some s1 →
      (teamUpdate g (some t) (h ++ (teamUpdate g (some t) h plan s0).cmds)
        { plan with ID := s1.ID } s1).state = some s2 →
      s2 = s1 ∧
      (teamUpdate g (some t) (h ++ (teamUpdate g (some t) h plan s0).cmds)
          { plan with ID := s1.ID } s1).cmds =
        (teamOptions g (trimSpace plan.Name.ValueString) plan).map Prod.fst ∧
      (teamUpdate g (some t) h plan s0).cmds =
        (if stringValuesEqual plan.DisplayName s0.DisplayName then []
          else [Cmd.SetTeamDisplayName (trimSpace plan.Name.ValueString)
            (teamDisplay (trimSpace plan.Name.ValueString) plan)]) ++
        (teamOptions g (trimSpace plan.Name.ValueString) plan).map Prod.fst) ∧
    (∀ v0 plan s0 s1 s2, planMode g plan ∈ gamemodes →
      (gamemodeUpdate g (some (faithful v0)) h plan s0).state = some s1 →
      (gamemodeUpdate g (some (faithful v0))
        (h ++ (gamemodeUpdate g (some (faithful v0)) h plan s0).cmds)
        { plan with ID := s1.ID } s1).state = some s2 →
      (gamemodeUpdate g (some (faithful v0))
          (h ++ (gamemodeUpdate g (some (faithful v0)) h plan s0).cmds)
          { plan with ID := s1.ID } s1).cmds =
        (gamemodeUpdate g (some (faithful v0)) h plan s0).cmds ∧
      s2 = { s1 with PreviousMode := .value (planMode g plan) }) := by
  refine ⟨?_, ?_, ?_, ?_, ?_, ?_, ?_, ?_, ?_, ?_, ?_, ?_,
    fun plan s0 s1 s2 hk h1 h2 => team_twice g t h plan s0 s1 s2 hk h1 h2,
    fun v0 plan s0 s1 s2 hm h1 h2 => gamemode_twice g v0 h plan s0 s1 s2 hm h1 h2⟩
  · intro plan s1 s2 h1 h2
    obtain ⟨e1, c1⟩ := blockUpdate_ok t h plan s1 h1
    obtain ⟨e2, c2⟩ := blockUpdate_ok t _ _ s2 h2
    subst e1
    exact ⟨by rw [c2, c1], e2⟩
  · intro plan s1 s2 h1 h2
    obtain ⟨e1, c1⟩ := stairsUpdate_ok t h plan s1 h1
    obtain ⟨e2, c2⟩ := stairsUpdate_ok t _ _ s2 h2
    subst e1
    exact ⟨by rw [c2, c1], e2⟩
  · intro plan s1 s2 h1 h2
    obtain ⟨e1, c1, _⟩ := chestUpdate_ok t h plan s1 h1
    obtain ⟨e2, c2, _⟩ := chestUpdate_ok t _ _ s2 h2
    subst e1
    exact ⟨by rw [c2, c1], e2⟩
  · intro plan s1 s2 h1 h2
    obtain ⟨e1, c1, _⟩ := bedUpdate_ok t h plan s1 h1
    obtain ⟨e2, c2, _⟩ := bedUpdate_ok t _ _ s2 h2
    subst e1
    exact ⟨by rw [c2, c1], e2⟩
  · intro plan s1 s2 h1 h2
    obtain ⟨e1, c1⟩ := fillUpdate_ok t h plan s1 h1
    obtain ⟨e2, c2⟩ := fillUpdate_ok t _ _ s2 h2
    subst e1
    exact ⟨by rw [c2, c1]; rfl, e2⟩
  · intro plan s1 s2 h1 h2
    obtain ⟨e1, c1⟩ := gameruleUpdate_ok g t h plan s1 h1
    obtain ⟨e2, c2⟩ := gameruleUpdate_ok g t _ _ s2 h2
    subst e1
    exact ⟨by rw [c2, c1], e2⟩
  · intro plan s1 s2 h1 h2
    obtain ⟨e1, c1⟩ := daylockUpdate_ok t h plan s1 h1
    obtain ⟨e2, c2⟩ := daylockUpdate_ok t _ _ s2 h2
    subst e1
    refine ⟨by rw [c2, c1], ?_⟩
    rw [e2]
    exact daylock_fix_id plan
  · intro plan s1 s2 h1 h2
    simp only [entityUpdate, succeed, Option.some.injEq] at h1 h2 ⊢
    subst h1
    exact ⟨trivial, h2.symm⟩
  · intro plan s1 s2 h1 h2
    simp only [sheepUpdate, succeed, Option.some.injEq] at h1 h2 ⊢
    subst h1
    exact ⟨trivial, h2.symm⟩
  · intro plan s1 s2 h1 h2
    simp only [zombieUpdate, succeed, Option.some.injEq] at h1 h2 ⊢
    subst h1
    exact ⟨trivial, h2.symm⟩
  · intro plan s1 s2 h1 h2
    simp only [teamMemberUpdate, succeed, Option.some.injEq] at h1 h2 ⊢
    subst h1
    exact ⟨trivial, h2.symm⟩
  · intro plan s1 s2 h1 h2
    simp only [opUpdate, succeed, Option.some.injEq] at h1 h2 ⊢
    subst h1
    exact ⟨trivial, h2.symm⟩


/-- C14, as stated, fails: on the faithful remote, with the default gamemode
created as `creative` over `survival`, the first Update to `adventure`
persists the snapshot `creative` and the second, identical one persists the
snapshot `adventure`. -/
theorem gamemodeUpdate_twice_moves_snapshot :
    (gamemodeUpdate asciiText (some (faithful "survival"))
      [.GetDefaultGameMode, .SetDefaultGameMode "creative"]
      (defaultModeUpdate "adventure") (defaultModeState "creative" "survival")).state =
      some (defaultModeState "adventure" "creative") ∧
    (gamemodeUpdate asciiText (some (faithful "survival"))
      [.GetDefaultGameMode, .SetDefaultGameMode "creative", .GetDefaultGameMode,
        .SetDefaultGameMode "adventure"]
      (defaultModeUpdate "adventure") (defaultModeState "adventure" "creative")).state =
      some (defaultModeState "adventure" "adventure") ∧
    defaultModeState "adventure" "adventure" ≠ defaultModeState "adventure" "creative" := by
  decide

/-- Witness of C14: the two Updates of the default gamemode to `adventure` issue
the same two commands, and the second persists the snapshot `adventure`. -/
theorem update_twice_same_witness :
    (gamemodeUpdate asciiText (some (faithful "survival"))
        ([.GetDefaultGameMode, .SetDefaultGameMode "creative"] ++
          (gamemodeUpdate asciiText (some (faithful "survival"))
            [.GetDefaultGameMode, .SetDefaultGameMode "creative"]
            (defaultModeUpdate "adventure") (defaultModeState "creative" "survival")).cmds)
        { defaultModeUpdate "adventure" with
          ID := (defaultModeState "adventure" "creative").ID }
        (defaultModeState "adventure" "creative")).cmds =
      (gamemodeUpdate asciiText (some (faithful "survival"))
        [.GetDefaultGameMode, .SetDefaultGameMode "creative"]
        (defaultModeUpdate "adventure") (defaultModeState "creative" "survival")).cmds ∧
    defaultModeState "adventure" "adventure" =
      { defaultModeState "adventure" "creative" with
        PreviousMode := .value (planMode asciiText (defaultModeUpdate "adventure")) } :=
  (update_twice_same asciiText okTransport
      [.GetDefaultGameMode, .SetDefaultGameMode "creative"]).2.2.2.2.2.2.2.2.2.2.2.2.2
    "survival" (defaultModeUpdate "adventure") (defaultModeState "creative" "survival")
    (defaultModeState "adventure" "creative") (defaultModeState "adventure" "adventure")
    (by decide) (by decide) (by decide)

/-! ## Validation failures -/

/-- A client error is not a validation failure. -/
theorem abortsClean_failWith_client {σ : Type} (cmds : List Cmd) (detail : String) :
    abortsClean (failWith cmds "Client Error" detail : Resp σ) := by
  intro ⟨d, hd, hv⟩
  simp only [failWith, List.mem_singleton] at hd
  subst hd
  simp [isValidationFailure] at hv

/-- A handler that stopped before any command aborted cleanly. -/
theorem abortsClean_failWith_nil {σ : Type} (summary detail : String) :
    abortsClean (failWith [] summary detail : Resp σ) := by
  intro _
  exact ⟨rfl, rfl⟩

/-- A handler that succeeded reported no validation failure. -/
theorem abortsClean_succeed {σ : Type} (cmds : List Cmd) (st : σ) :
    abortsClean (succeed cmds st) := by
  intro ⟨d, hd, _⟩
  simp [succeed] at hd

/-- The nil-client guard is not a validation failure. -/
theorem abortsClean_unconfigured {σ : Type} : abortsClean (unconfigured : Resp σ) := by
  intro ⟨d, hd, hv⟩
  simp only [unconfigured, List.mem_singleton] at hd
  subst hd
  simp [isValidationFailure, notConfigured] at hv

/-- C15: for every resource kind, every plan, and a client configured or not,
a Create or an Update that reports a validation failure (a diagnostic
`Validation Error` or `Invalid Gamerule Value`) issued no command, reads
included, and wrote no state. -/
theorem validation_failure_aborts_clean (g : GoText) (toFloat32 : Nat → Nat)
    (client : Option Transport) (t : Transport) (h : List Cmd) (token : String) :
    ((∀ d, abortsClean (blockCreate t h d)) ∧ (∀ d, abortsClean (blockUpdate t h d)) ∧
     (∀ d, abortsClean (stairsCreate client h d)) ∧
     (∀ d, abortsClean (stairsUpdate client h d)) ∧
     (∀ d, abortsClean (chestCreate client h d)) ∧
     (∀ d, abortsClean (chestUpdate client h d)) ∧
     (∀ d, abortsClean (bedCreate t h d)) ∧ (∀ d, abortsClean (bedUpdate t h d)) ∧
     (∀ d, abortsClean (fillCreate client h d)) ∧
     (∀ d, abortsClean (fillUpdate client h d))) ∧
    ((∀ d, abortsClean (entityCreate client h token d)) ∧
     (∀ d, abortsClean (entityUpdate client d)) ∧
     (∀ d, abortsClean (sheepCreate g client h token d)) ∧
     (∀ d, abortsClean (sheepUpdate client d)) ∧
     (∀ d, abortsClean (zombieCreate toFloat32 client h token d)) ∧
     (∀ d, abortsClean (zombieUpdate client d))) ∧
    ((∀ d, abortsClean (teamCreate g client h d)) ∧
     (∀ d s, abortsClean (teamUpdate g client h d s)) ∧
     (∀ d, abortsClean (teamMemberCreate g client h d)) ∧
     (∀ d, abortsClean (teamMemberUpdate client d)) ∧
     (∀ d, abortsClean (opCreate g client h d)) ∧
     (∀ d, abortsClean (opUpdate client d))) ∧
    ((∀ d, abortsClean (gamemodeCreate g client h d)) ∧
     (∀ d s, abortsClean (gamemodeUpdate g client h d s)) ∧
     (∀ d, abortsClean (gameruleCreate g client h d)) ∧
     (∀ d, abortsClean (gameruleUpdate g client h d)) ∧
     (∀ d, abortsClean (daylockCreate client h d)) ∧
     (∀ d, abortsClean (daylockUpdate client h d))) := by
  refine ⟨⟨?_, ?_, ?_, ?_, ?_, ?_, ?_, ?_, ?_, ?_⟩, ⟨?_, ?_, ?_, ?_, ?_, ?_⟩,
    ⟨?_, ?_, ?_, ?_, ?_, ?_⟩, ⟨?_, ?_, ?_, ?_, ?_, ?_⟩⟩
  all_goals intros
  all_goals simp only [blockCreate, blockUpdate, stairsCreate, stairsUpdate, chestCreate,
    chestUpdate, bedCreate, bedUpdate, fillCreate, fillUpdate, entityCreate, entityUpdate,
    sheepCreate, sheepUpdate, zombieCreate, zombieUpdate, teamCreate, teamUpdate,
    teamUpdateOptions, applyTeamOptions, teamMemberCreate, teamMemberJoin, teamMemberUpdate,
    opCreate, opUpdate, gamemodeCreate, gamemodeUpdate, gameruleCreate, gameruleUpdate,
    gameruleSet, daylockCreate, daylockUpdate]
  all_goals repeat' split
  all_goals first
    | exact abortsClean_failWith_client _ _
    | exact abortsClean_failWith_nil _ _
    | exact abortsClean_succeed _ _

/-- Witness of C15: a bed plan facing `up` is rejected with a Validation Error,
so Create issued no command and wrote no state. -/
theorem validation_failure_aborts_clean_witness :
    (bedCreate downTransport [] upBedPlan).errors =
      [⟨"Validation Error", "direction must be one of north|south|east|west"⟩] ∧
    (bedCreate downTransport [] upBedPlan).cmds = [] ∧
    (bedCreate downTransport [] upBedPlan).state = none :=
  ⟨by decide,
   (validation_failure_aborts_clean asciiText id none downTransport [] "").1.2.2.2.2.2.2.1
      upBedPlan
      ⟨⟨"Validation Error", "direction must be one of north|south|east|west"⟩,
        by decide, by decide⟩⟩

/-! ## Update and the id -/

/-- The fill id is the material followed by the region. -/
theorem fillID_eq (d : fillResourceModel) :
    fillID d = d.Material.ValueString ++ fillRegion d.Start d.End := by
  simp only [fillID, fillRegion, String.append_assoc]

/-- Appending the same text on the right is injective. -/
theorem string_append_right_cancel (a b c : String) (h : a ++ c = b ++ c) : a = b := by
  apply String.ext
  have := congrArg String.data h
  simp only [String.data_append] at this
  exact List.append_cancel_right this

/-- Appending the same text on the left is injective. -/
theorem string_append_left_cancel (a b c : String) (h : c ++ a = c ++ b) : a = b := by
  apply String.ext
  have := congrArg String.data h
  simp only [String.data_append] at this
  exact List.append_cancel_left this

/-- C16, at the stone fill of (0,0,0)-(1,1,1) whose material changes to dirt:
the plan carries the prior id `minecraft:stone|0,0,0->1,1,1` and the same start
and end, and the successful Update persists the id
`minecraft:dirt|0,0,0->1,1,1`, which is not the prior id. -/
theorem fillUpdate_changes_id :
    dirtFillPlan.ID = stoneFill.ID ∧ dirtFillPlan.Start = stoneFill.Start ∧
    dirtFillPlan.End = stoneFill.End ∧
    (fillUpdate (some okTransport) [] dirtFillPlan).state =
      some { dirtFillPlan with ID := .value "minecraft:dirt|0,0,0->1,1,1" } ∧
    (TF.value "minecraft:dirt|0,0,0->1,1,1" : TF String) ≠ stoneFill.ID := by
  decide

/-! ## bed: the id and the direction -/

/-- C17, as stated, fails: the bed created facing north at (5, 64, 5) and then
updated to face south, the plan carrying the prior id, is persisted with the
id `bed-5-64-5-north` while its own attributes give `bed-5-64-5-south`. -/
theorem bedUpdate_keeps_stale_id :
    (bedCreate okTransport [] northBedPlan).state = some northBed ∧
    southBedPlan.ID = northBed.ID ∧
    (bedUpdate okTransport (bedCreate okTransport [] northBedPlan).cmds southBedPlan).state =
      some southBedPlan ∧
    southBedPlan.ID = .value "bed-5-64-5-north" ∧
    bedIDOf southBedPlan = "bed-5-64-5-south" := by
  decide

/-- C17, amended: the state persisted by a successful Create of a bed has the
id `bed-<x>-<y>-<z>-<direction>` of its own position and direction. A
successful Update persists the plan as it is, so with the plan carrying the
prior id and the prior position the id stays the prior one, and it is the id
of the state's own attributes exactly when the direction is unchanged. -/
theorem bed_id_recomputable (t : Transport) (h : List Cmd) :
    (∀ plan s, (bedCreate t h plan).state = some s → s.ID = .value (bedIDOf s)) ∧
    (∀ (plan prior s : bedResourceModel), prior.ID = .value (bedIDOf prior) →
      plan.ID = prior.ID → plan.Position = prior.Position →
      (bedUpdate t h plan).state = some s →
      s.ID = prior.ID ∧
      (s.ID = .value (bedIDOf s) ↔
        plan.Direction.ValueString = prior.Direction.ValueString)) := by
  refine ⟨?_, ?_⟩
  · intro plan s hs
    rw [(bedCreate_ok t h plan s hs).1]
    rfl
  · intro plan prior s hprior hid hpos hs
    have hsp := (bedUpdate_ok t h plan s hs).1
    subst hsp
    refine ⟨hid, ?_⟩
    rw [hid, hprior]
    simp only [bedIDOf, bedID, hpos]
    constructor
    · intro he
      exact (string_append_left_cancel _ _ _ (TF.value.inj he)).symm
    · intro he
      rw [he]

/-- Witness of C17: the bed facing north gets the id `bed-5-64-5-north`, which
is the id of its own attributes. -/
theorem bed_id_recomputable_witness :
    northBed.ID = .value (bedIDOf northBed) ∧ bedIDOf northBed = "bed-5-64-5-north" :=
  ⟨(bed_id_recomputable okTransport []).1 northBedPlan northBed (by decide), by decide⟩

/-! ## Composite objects: what Delete removes -/

/-- C18, as stated, fails: the double chest at (11, 64, 11) places its right
half at (12, 64, 11); after the Update to a single chest, Delete of the last
state issues one DeleteBlock, at (11, 64, 11), and none at (12, 64, 11). -/
theorem chest_shrink_leaves_right_half :
    (chestCreate (some okTransport) [] doubleChestPlan).state = some doubleChest ∧
    (11 + 1, 64, 11) ∈ placedAt (chestCreate (some okTransport) [] doubleChestPlan).cmds ∧
    (chestUpdate (some okTransport) (chestCreate (some okTransport) [] doubleChestPlan).cmds
      singleChestPlan).state = some singleChestPlan ∧
    (chestDelete (some okTransport) singleChestPlan).cmds = [.DeleteBlock 11 64 11] ∧
    (11 + 1, 64, 11) ∉ deletedAt (chestDelete (some okTransport) singleChestPlan).cmds := by
  decide

/-- C18, amended: for a chest and for a bed, Delete of the state persisted by a
successful Create or Update issues its DeleteBlock commands at exactly the
positions at which that Create or Update placed blocks; positions placed only
by an earlier step of the lifecycle are not among them. -/
theorem composite_delete_covers_last_placement (t : Transport) (h : List Cmd) :
    (∀ plan s, (chestCreate (some t) h plan).state = some s →
      deletedAt (chestDelete (some t) s).cmds =
        placedAt (chestCreate (some t) h plan).cmds) ∧
    (∀ plan s, (chestUpdate (some t) h plan).state = some s →
      deletedAt (chestDelete (some t) s).cmds =
        placedAt (chestUpdate (some t) h plan).cmds) ∧
    (∀ plan s, (bedCreate t h plan).state = some s →
      deletedAt (bedDelete s).cmds = placedAt (bedCreate t h plan).cmds) ∧
    (∀ plan s, (bedUpdate t h plan).state = some s →
      deletedAt (bedDelete s).cmds = placedAt (bedUpdate t h plan).cmds) := by
  refine ⟨?_, ?_, ?_, ?_⟩
  · intro plan s hs
    obtain ⟨e, c, hsz⟩ := chestCreate_ok t h plan s hs
    rw [c, e]
    simp only [chestDelete, chestPlacements]
    rcases hsz with hz | hz <;> simp [hz, silent, deletedAt, placedAt]
  · intro plan s hs
    obtain ⟨e, c, hsz⟩ := chestUpdate_ok t h plan s hs
    rw [c, e]
    simp only [chestDelete, chestPlacements]
    rcases hsz with hz | hz <;> simp [hz, silent, deletedAt, placedAt]
  · intro plan s hs
    obtain ⟨e, c, hd⟩ := bedCreate_ok t h plan s hs
    rw [c, e]
    simp only [bedDelete, bedPlacements, hd, if_true, silent, deletedAt, placedAt]
  · intro plan s hs
    obtain ⟨e, c, hd⟩ := bedUpdate_ok t h plan s hs
    rw [c, e]
    simp only [bedDelete, bedPlacements, hd, if_true, silent, deletedAt, placedAt]

/-- Witness of C18: Delete of the double chest created at (11, 64, 11) deletes
both halves that Create placed. -/
theorem composite_delete_covers_last_placement_witness :
    deletedAt (chestDelete (some okTransport) doubleChest).cmds =
        placedAt (chestCreate (some okTransport) [] doubleChestPlan).cmds ∧
    deletedAt (chestDelete (some okTransport) doubleChest).cmds =
      [(11, 64, 11), (12, 64, 11)] :=
  ⟨(composite_delete_covers_last_placement okTransport []).1 doubleChestPlan doubleChest
      (by decide),
   by decide⟩

/-! ## gamemode: identity and import -/

/-- A `dropWhile` that is not empty starts with an element that fails the test. -/
theorem dropWhile_head_not {α : Type} (p : α → Bool) :
    ∀ (xs : List α) (a : α) (as : List α), xs.dropWhile p = a :: as → p a = false
  | [], a, as, h => by simp at h
  | x :: xs, a, as, h => by
    rw [List.dropWhile_cons] at h
    split at h
    · exact dropWhile_head_not p xs a as h
    · rename_i hx
      simp only [List.cons.injEq] at h
      rw [← h.1]
      simpa using hx

/-- Trimming a text that is already trimmed and not empty, with a prefix that
starts with a non-space rune, changes nothing. -/
theorem trimSpaceChars_prefix (c : Char) (pre cs : List Char) (hc : isSpace c = false)
    (hne : trimSpaceChars cs ≠ []) :
    trimSpaceChars (c :: pre ++ trimSpaceChars cs) = c :: pre ++ trimSpaceChars cs := by
  have hm : ∃ a as, ((cs.dropWhile isSpace).reverse.dropWhile isSpace) = a :: as := by
    cases hd : ((cs.dropWhile isSpace).reverse.dropWhile isSpace) with
    | nil => simp [trimSpaceChars, hd] at hne
    | cons a as => exact ⟨a, as, rfl⟩
  obtain ⟨a, as, hd⟩ := hm
  have ha := dropWhile_head_not isSpace _ a as hd
  have ht : trimSpaceChars cs = (a :: as).reverse := by simp only [trimSpaceChars, hd]
  rw [ht]
  simp only [trimSpaceChars, List.cons_append, List.dropWhile_cons, hc, Bool.false_eq_true,
    if_false, List.reverse_cons, List.reverse_append, List.reverse_reverse, List.append_assoc,
    List.cons_append, List.nil_append, ha]
  simp [ha]

/-- The id of a player's gamemode survives the trimming of the import. -/
theorem trimSpace_playerID (q : String) (hq : trimSpace q ≠ "") :
    trimSpace ("player:" ++ trimSpace q) = "player:" ++ trimSpace q := by
  apply String.ext
  have hne : trimSpaceChars q.data ≠ [] := by
    intro he
    apply hq
    apply String.ext
    simpa [trimSpace] using he
  have := trimSpaceChars_prefix 'p' "layer:".data q.data (by decide) hne
  simpa [trimSpace, String.data_append] using this


/-- Stripping a prefix from a text that starts with it gives the rest. -/
theorem stripPrefixChars_append : ∀ (pre rest : List Char),
    stripPrefixChars pre (pre ++ rest) = some rest
  | [], rest => by cases rest <;> rfl
  | p :: ps, rest => by
    simp only [List.cons_append, stripPrefixChars, if_true]
    exact stripPrefixChars_append ps rest

/-- Import of the id of a player's gamemode. -/
theorem gamemodeImportState_player (q : String) (hq : trimSpace q ≠ "") :
    gamemodeImportState ("player:" ++ trimSpace q) =
      succeed []
        { ID := .value ("player:" ++ trimSpace q), Mode := .null,
          Player := .value (trimSpace q), PreviousMode := .null } := by
  have hne : "player:" ++ trimSpace q ≠ "" := by
    intro he
    have := congrArg String.data he
    simp [String.data_append] at this
  have hnd : "player:" ++ trimSpace q ≠ "default" := by
    intro he
    have := congrArg String.data he
    simp [String.data_append] at this
  have hs : stripPrefixChars "player:".data ("player:" ++ trimSpace q).data =
      some (trimSpace q).data := by
    rw [String.data_append]
    exact stripPrefixChars_append _ _
  simp only [gamemodeImportState, trimSpace_playerID q hq, if_neg hne, if_neg hnd, hs]

/-- C20: the id persisted by a successful Create of a gamemode is `default` when
the player is null or blank after trimming and `player:` followed by the
trimmed player otherwise; ImportState of that id succeeds, sets the id to the
same string, and sets no player in the default case and the trimmed player in
the per-player case. -/
theorem gamemode_id_roundtrip (g : GoText) (t : Transport) (h : List Cmd)
    (plan st : gamemodeResourceModel)
    (hc : (gamemodeCreate g (some t) h plan).state = some st) :
    st.ID = .value (if trimSpace plan.Player.ValueString = "" then "default"
      else "player:" ++ trimSpace plan.Player.ValueString) ∧
    (trimSpace plan.Player.ValueString = "" →
      gamemodeImportState st.ID.ValueString =
        succeed []
          { ID := .value "default", Mode := .null, Player := .null, PreviousMode := .null }) ∧
    (trimSpace plan.Player.ValueString ≠ "" →
      gamemodeImportState st.ID.ValueString =
        succeed []
          { ID := .value ("player:" ++ trimSpace plan.Player.ValueString), Mode := .null,
            Player := .value (trimSpace plan.Player.ValueString), PreviousMode := .null }) := by
  have hid : st.ID = .value (modeID (modePlayer plan)) := by
    simp only [gamemodeCreate] at hc
    repeat' split at hc
    all_goals simp_all [failWith, succeed, modeID, modePlayer]
    all_goals rw [← hc]
  rw [modePlayer_eq] at hid
  have hval : st.ID.ValueString = modeID (trimSpace plan.Player.ValueString) := by
    rw [hid]; rfl
  refine ⟨by rw [hid]; rfl, ?_, ?_⟩
  · intro hp
    rw [hval]
    simp only [modeID, hp, if_true]
    decide
  · intro hp
    rw [hval]
    simp only [modeID, hp, if_false]
    exact gamemodeImportState_player _ hp

/-- Witness of C20: the plan for the player ` Steve ` gets the id `player:Steve`,
which imports back as the player `Steve`. -/
theorem gamemode_id_roundtrip_witness :
    (gamemodeCreate asciiText (some okTransport) [] (steveModePlan "creative")).state =
      some { steveModePlan "creative" with
        ID := .value "player:Steve", PreviousMode := .value "" } ∧
    gamemodeImportState "player:Steve" =
      succeed []
        { ID := .value "player:Steve", Mode := .null, Player := .value "Steve",
          PreviousMode := .null } :=
  ⟨by decide,
   (gamemode_id_roundtrip asciiText okTransport [] (steveModePlan "creative")
      { steveModePlan "creative" with
        ID := .value "player:Steve", PreviousMode := .value "" } (by decide)).2.2
      (by decide)⟩

/-! ## Identities are collision-free -/

/-- The runes that `%d` prints are the numeral of the integer. -/
theorem fmtD_data (i : Int) : (fmtD i).data = numeral i := by
  cases i with
  | ofNat m => rfl
  | negSucc m => rfl

/-- The rune of a digit below ten is a digit and has the value of the digit. -/
theorem digitChar_lt_ten (k : Nat) (hk : k < 10) :
    (Nat.digitChar k).isDigit = true ∧ (Nat.digitChar k).toNat - 48 = k := by
  interval_cases k <;> decide

/-- With enough fuel the digit loop puts in front of its accumulator a run of
digits, not empty, whose value is the number. -/
theorem toDigitsCore_spec : ∀ (fuel n : Nat) (ds : List Char), n < fuel →
    ∃ l, Nat.toDigitsCore 10 fuel n ds = l ++ ds ∧ l ≠ [] ∧
      (∀ c ∈ l, c.isDigit = true) ∧ digitsValue l = n
  | 0, n, ds, h => by omega
  | fuel + 1, n, ds, h => by
    have hd := digitChar_lt_ten (n % 10) (Nat.mod_lt _ (by decide))
    simp only [Nat.toDigitsCore]
    split
    · rename_i hz
      refine ⟨[Nat.digitChar (n % 10)], rfl, by simp, ?_, ?_⟩
      · intro c hc
        simp only [List.mem_singleton] at hc
        rw [hc]; exact hd.1
      · simp only [digitsValue, List.foldl_cons, List.foldl_nil, Nat.mul_zero, Nat.zero_add,
          hd.2]
        omega
    · rename_i hz
      obtain ⟨l, hl, _, hdig, hval⟩ :=
        toDigitsCore_spec fuel (n / 10) (Nat.digitChar (n % 10) :: ds) (by omega)
      refine ⟨l ++ [Nat.digitChar (n % 10)], by rw [hl]; simp, by simp, ?_, ?_⟩
      · intro c hc
        simp only [List.mem_append, List.mem_singleton] at hc
        rcases hc with hc | hc
        · exact hdig c hc
        · rw [hc]; exact hd.1
      · unfold digitsValue at hval ⊢
        rw [List.foldl_append, hval]
        simp only [List.foldl_cons, List.foldl_nil, hd.2]
        omega


/-- The decimal digits of a number: not empty, all digits, and of that value. -/
theorem toDigits_spec (n : Nat) :
    Nat.toDigits 10 n ≠ [] ∧ (∀ c ∈ Nat.toDigits 10 n, c.isDigit = true) ∧
      digitsValue (Nat.toDigits 10 n) = n := by
  obtain ⟨l, hl, hne, hdig, hval⟩ := toDigitsCore_spec (n + 1) n [] (by omega)
  have : Nat.toDigits 10 n = l := by simpa [Nat.toDigits] using hl
  rw [this]
  exact ⟨hne, hdig, hval⟩

/-- The numeral of an integer is a numeral. -/
theorem numeral_isNumeral (i : Int) : IsNumeral (numeral i) := by
  cases i with
  | ofNat m =>
    exact ⟨_, (toDigits_spec m).1, (toDigits_spec m).2.1, Or.inl rfl⟩
  | negSucc m =>
    exact ⟨_, (toDigits_spec (m + 1)).1, (toDigits_spec (m + 1)).2.1, Or.inr rfl⟩

/-- Two integers with the same numeral are equal. -/
theorem numeral_injective (i j : Int) (h : numeral i = numeral j) : i = j := by
  have hdig : ∀ n, ∃ c cs, Nat.toDigits 10 n = c :: cs ∧ c.isDigit = true := by
    intro n
    obtain ⟨hne, hd, _⟩ := toDigits_spec n
    cases hl : Nat.toDigits 10 n with
    | nil => exact absurd hl hne
    | cons c cs => exact ⟨c, cs, rfl, hd c (by rw [hl]; exact List.mem_cons_self _ _)⟩
  cases i with
  | ofNat a =>
    cases j with
    | ofNat b =>
      simp only [numeral] at h
      have := congrArg digitsValue h
      rw [(toDigits_spec a).2.2, (toDigits_spec b).2.2] at this
      rw [this]
    | negSucc b =>
      simp only [numeral] at h
      obtain ⟨c, cs, hc, hd⟩ := hdig a
      rw [hc] at h
      simp only [List.cons.injEq] at h
      rw [h.1] at hd
      exact absurd hd (by decide)
  | negSucc a =>
    cases j with
    | ofNat b =>
      simp only [numeral] at h
      obtain ⟨c, cs, hc, hd⟩ := hdig b
      rw [hc] at h
      simp only [List.cons.injEq] at h
      rw [← h.1] at hd
      exact absurd hd (by decide)
    | negSucc b =>
      simp only [numeral, List.cons.injEq, true_and] at h
      have := congrArg digitsValue h
      rw [(toDigits_spec (a + 1)).2.2, (toDigits_spec (b + 1)).2.2] at this
      have hab : a = b := by omega
      rw [hab]

/-- Two runs of digits, each followed by a rune that is not a digit, are equal
when the whole texts are. -/
theorem digits_span : ∀ (d d' : List Char) (s s' : Char) (r r' : List Char),
    (∀ c ∈ d, c.isDigit = true) → (∀ c ∈ d', c.isDigit = true) →
    s.isDigit = false → s'.isDigit = false →
    d ++ s :: r = d' ++ s' :: r' → d = d' ∧ s :: r = s' :: r'
  | [], [], s, s', r, r', _, _, _, _, h => ⟨rfl, h⟩
  | [], c' :: d', s, s', r, r', _, hd', hs, _, h => by
    simp only [List.nil_append, List.cons_append, List.cons.injEq] at h
    have := hd' c' (List.mem_cons_self _ _)
    rw [← h.1, hs] at this
    exact absurd this (by decide)
  | c :: d, [], s, s', r, r', hd, _, _, hs', h => by
    simp only [List.nil_append, List.cons_append, List.cons.injEq] at h
    have := hd c (List.mem_cons_self _ _)
    rw [h.1, hs'] at this
    exact absurd this (by decide)
  | c :: d, c' :: d', s, s', r, r', hd, hd', hs, hs', h => by
    simp only [List.cons_append, List.cons.injEq] at h
    obtain ⟨e1, e2⟩ := digits_span d d' s s' r r'
      (fun x hx => hd x (List.mem_cons_of_mem _ hx))
      (fun x hx => hd' x (List.mem_cons_of_mem _ hx)) hs hs' h.2
    exact ⟨by rw [h.1, e1], e2⟩

/-- Two numerals, each followed by a rune that is not a digit, are equal when
the whole texts are. -/
theorem numeral_span (u u' : List Char) (s s' : Char) (r r' : List Char)
    (hu : IsNumeral u) (hu' : IsNumeral u') (hs : s.isDigit = false)
    (hs' : s'.isDigit = false) (h : u ++ s :: r = u' ++ s' :: r') :
    u = u' ∧ s :: r = s' :: r' := by
  obtain ⟨d, hne, hd, hu⟩ := hu
  obtain ⟨d', hne', hd', hu'⟩ := hu'
  have hfirst : ∀ (e : List Char), e ≠ [] → (∀ c ∈ e, c.isDigit = true) →
      ∃ c cs, e = c :: cs ∧ c.isDigit = true := by
    intro e he hde
    cases e with
    | nil => exact absurd rfl he
    | cons c cs => exact ⟨c, cs, rfl, hde c (List.mem_cons_self _ _)⟩
  rcases hu with rfl | rfl <;> rcases hu' with rfl | rfl
  · exact digits_span _ _ s s' r r' hd hd' hs hs' h
  · obtain ⟨c, cs, hc, hcd⟩ := hfirst _ hne hd
    rw [hc] at h
    simp only [List.cons_append, List.cons.injEq] at h
    rw [h.1] at hcd
    exact absurd hcd (by decide)
  · obtain ⟨c, cs, hc, hcd⟩ := hfirst _ hne' hd'
    rw [hc] at h
    simp only [List.cons_append, List.cons.injEq] at h
    rw [← h.1] at hcd
    exact absurd hcd (by decide)
  · simp only [List.cons_append, List.cons.injEq, true_and] at h
    obtain ⟨e1, e2⟩ := digits_span _ _ s s' r r' hd hd' hs hs' h
    exact ⟨by rw [e1], e2⟩

/-- One step of reading an id: two numerals followed by the same separator. -/
theorem numeral_step (i j : Int) (s : Char) (r r' : List Char) (hs : s.isDigit = false)
    (h : numeral i ++ s :: r = numeral j ++ s :: r') : i = j ∧ r = r' := by
  obtain ⟨e1, e2⟩ := numeral_span _ _ s s r r' (numeral_isNumeral i) (numeral_isNumeral j)
    hs hs h
  exact ⟨numeral_injective i j e1, (List.cons.inj e2).2⟩


/-- The runes of a positional id. -/
theorem positionalID_data (kind : String) (x y z : Int) :
    (positionalID kind x y z).data =
      kind.data ++ '-' :: (numeral x ++ '-' :: (numeral y ++ '-' :: numeral z)) := by
  simp [positionalID, String.data_append, fmtD_data]

/-- The runes of a bed id. -/
theorem bedID_data (x y z : Int) (dir : String) :
    (bedID x y z dir).data =
      "bed".data ++ '-' :: (numeral x ++ '-' :: (numeral y ++ '-' ::
        (numeral z ++ '-' :: dir.data))) := by
  simp [bedID, String.data_append, fmtD_data]

/-- The runes of the region part of a fill id. -/
theorem fillRegion_data (s e : Position) :
    (fillRegion s e).data =
      '|' :: (numeral s.X.ValueInt32 ++ ',' :: (numeral s.Y.ValueInt32 ++ ',' ::
        (numeral s.Z.ValueInt32 ++ '-' :: '>' :: (numeral e.X.ValueInt32 ++ ',' ::
          (numeral e.Y.ValueInt32 ++ ',' :: numeral e.Z.ValueInt32))))) := by
  simp [fillRegion, String.data_append, fmtD_data]

/-- Positional ids of one kind are equal only for equal positions. -/
theorem positionalID_injective (kind : String) (x y z x' y' z' : Int)
    (h : positionalID kind x y z = positionalID kind x' y' z') :
    x = x' ∧ y = y' ∧ z = z' := by
  have hd := congrArg String.data h
  rw [positionalID_data, positionalID_data] at hd
  have h1 := List.cons.inj (List.append_cancel_left hd)
  obtain ⟨ex, r1⟩ := numeral_step x x' '-' _ _ (by decide) h1.2
  obtain ⟨ey, r2⟩ := numeral_step y y' '-' _ _ (by decide) r1
  exact ⟨ex, ey, numeral_injective z z' r2⟩

/-- Bed ids are equal only for equal positions and directions. -/
theorem bedID_injective (x y z x' y' z' : Int) (dir dir' : String)
    (h : bedID x y z dir = bedID x' y' z' dir') :
    x = x' ∧ y = y' ∧ z = z' ∧ dir = dir' := by
  have hd := congrArg String.data h
  rw [bedID_data, bedID_data] at hd
  have h1 := List.cons.inj (List.append_cancel_left hd)
  obtain ⟨ex, r1⟩ := numeral_step x x' '-' _ _ (by decide) h1.2
  obtain ⟨ey, r2⟩ := numeral_step y y' '-' _ _ (by decide) r1
  obtain ⟨ez, r3⟩ := numeral_step z z' '-' _ _ (by decide) r2
  exact ⟨ex, ey, ez, String.ext r3⟩

/-- A numeral holds no `|`. -/
theorem numeral_no_bar (i : Int) : '|' ∉ numeral i := by
  obtain ⟨d, _, hd, hu⟩ := numeral_isNumeral i
  intro hm
  rcases hu with e | e
  · rw [e] at hm
    exact absurd (hd _ hm) (by decide)
  · rw [e] at hm
    rcases List.mem_cons.1 hm with e2 | m
    · exact absurd e2 (by decide)
    · exact absurd (hd _ m) (by decide)

/-- The region part of a fill id holds no `|` after its first rune. -/
theorem fillRegion_tail_no_bar (s e : Position) : '|' ∉ (fillRegion s e).data.tail := by
  rw [fillRegion_data]
  simp only [List.tail_cons, List.mem_append, List.mem_cons, not_or]
  refine ⟨numeral_no_bar _, by decide, numeral_no_bar _, by decide, numeral_no_bar _,
    by decide, by decide, numeral_no_bar _, by decide, numeral_no_bar _, by decide,
    numeral_no_bar _⟩

/-- A text is split in one way only at a `|` that is followed by no other `|`. -/
theorem split_at_last_bar (m m' S S' : List Char) (hS : '|' ∉ S) (hS' : '|' ∉ S')
    (h : m ++ '|' :: S = m' ++ '|' :: S') : m = m' ∧ S = S' := by
  have hr := congrArg List.reverse h
  simp only [List.reverse_append, List.reverse_cons, List.append_assoc, List.singleton_append]
    at hr
  have h1 := takeWhile_ne_append '|' S.reverse m.reverse (by simpa using hS)
  have h2 := takeWhile_ne_append '|' S'.reverse m'.reverse (by simpa using hS')
  rw [hr, h2] at h1
  have hSS : S = S' := by
    have := congrArg List.reverse h1
    simpa using this.symm
  subst hSS
  exact ⟨List.append_cancel_right h, rfl⟩

/-- Fill ids are equal only for equal materials, starts and ends. -/
theorem fillID_injective (d d' : fillResourceModel) (h : fillID d = fillID d') :
    d.Material.ValueString = d'.Material.ValueString ∧
    (d.Start.X.ValueInt32 = d'.Start.X.ValueInt32 ∧
      d.Start.Y.ValueInt32 = d'.Start.Y.ValueInt32 ∧
      d.Start.Z.ValueInt32 = d'.Start.Z.ValueInt32) ∧
    (d.End.X.ValueInt32 = d'.End.X.ValueInt32 ∧ d.End.Y.ValueInt32 = d'.End.Y.ValueInt32 ∧
      d.End.Z.ValueInt32 = d'.End.Z.ValueInt32) := by
  have hd := congrArg String.data h
  rw [fillID_eq, fillID_eq, String.data_append, String.data_append] at hd
  have t1 := fillRegion_tail_no_bar d.Start d.End
  have t2 := fillRegion_tail_no_bar d'.Start d'.End
  simp only [fillRegion_data, List.tail_cons] at hd t1 t2
  obtain ⟨em, es⟩ := split_at_last_bar _ _ _ _ t1 t2 hd
  obtain ⟨e1, r1⟩ := numeral_step _ _ ',' _ _ (by decide) es
  obtain ⟨e2, r2⟩ := numeral_step _ _ ',' _ _ (by decide) r1
  obtain ⟨e3, r3⟩ := numeral_step _ _ '-' _ _ (by decide) r2
  obtain ⟨e4, r4⟩ := numeral_step _ _ ',' _ _ (by decide) (List.cons.inj r3).2
  obtain ⟨e5, r5⟩ := numeral_step _ _ ',' _ _ (by decide) r4
  exact ⟨String.ext em, ⟨e1, e2, e3⟩, ⟨e4, e5, numeral_injective _ _ r5⟩⟩


/-- A successful Create of a block persists the plan with its id after one placement. -/
theorem blockCreate_ok (t : Transport) (h : List Cmd) (plan s : blockResourceModel)
    (hs : (blockCreate t h plan).state = some s) :
    s = { plan with ID := .value (positionalID "block" plan.Position.X.ValueInt32
        plan.Position.Y.ValueInt32 plan.Position.Z.ValueInt32) } ∧
      (blockCreate t h plan).cmds =
        [.CreateBlock plan.Material.ValueString plan.Position.X.ValueInt32
          plan.Position.Y.ValueInt32 plan.Position.Z.ValueInt32] := by
  simp only [blockCreate, positionalID] at hs ⊢
  repeat' split at hs
  all_goals simp_all [failWith, succeed]

/-- A successful Create of a fill persists the plan with its id after one fill command. -/
theorem fillCreate_ok (t : Transport) (h : List Cmd) (plan s : fillResourceModel)
    (hs : (fillCreate (some t) h plan).state = some s) :
    s = { plan with ID := .value (fillID plan) } ∧
      (fillCreate (some t) h plan).cmds = [fillCmd plan.Material.ValueString plan] := by
  simp only [fillCreate] at hs ⊢
  repeat' split at hs
  all_goals simp_all [failWith, succeed]

/-- C19: the id that a successful Create persists is `positionalID "block"` of
the position for a block, `bedID` of the position and the direction for a
bed, and `fillID` of the plan for a fill, computed from these arguments alone
(the commands issued are the placements only); and each of these maps is
injective, over all integers, negative ones included, over every direction
and over every material. -/
theorem ids_collision_free (t : Transport) (h : List Cmd) :
    ((∀ plan s, (blockCreate t h plan).state = some s →
        s.ID = .value (positionalID "block" plan.Position.X.ValueInt32
          plan.Position.Y.ValueInt32 plan.Position.Z.ValueInt32) ∧
        (blockCreate t h plan).cmds =
          [.CreateBlock plan.Material.ValueString plan.Position.X.ValueInt32
            plan.Position.Y.ValueInt32 plan.Position.Z.ValueInt32]) ∧
      (∀ x y z x' y' z' : Int,
        positionalID "block" x y z = positionalID "block" x' y' z' →
        x = x' ∧ y = y' ∧ z = z')) ∧
    ((∀ plan s, (bedCreate t h plan).state = some s →
        s.ID = .value (bedID plan.Position.X.ValueInt32 plan.Position.Y.ValueInt32
          plan.Position.Z.ValueInt32 plan.Direction.ValueString) ∧
        (bedCreate t h plan).cmds = bedPlacements plan) ∧
      (∀ (x y z x' y' z' : Int) (dir dir' : String),
        bedID x y z dir = bedID x' y' z' dir' → x = x' ∧ y = y' ∧ z = z' ∧ dir = dir')) ∧
    ((∀ plan s, (fillCreate (some t) h plan).state = some s →
        s.ID = .value (fillID plan) ∧
        (fillCreate (some t) h plan).cmds = [fillCmd plan.Material.ValueString plan]) ∧
      (∀ d d' : fillResourceModel, fillID d = fillID d' →
        d.Material.ValueString = d'.Material.ValueString ∧
        (d.Start.X.ValueInt32 = d'.Start.X.ValueInt32 ∧
          d.Start.Y.ValueInt32 = d'.Start.Y.ValueInt32 ∧
          d.Start.Z.ValueInt32 = d'.Start.Z.ValueInt32) ∧
        (d.End.X.ValueInt32 = d'.End.X.ValueInt32 ∧
          d.End.Y.ValueInt32 = d'.End.Y.ValueInt32 ∧
          d.End.Z.ValueInt32 = d'.End.Z.ValueInt32))) := by
  refine ⟨⟨?_, fun x y z x' y' z' => positionalID_injective "block" x y z x' y' z'⟩,
    ⟨?_, fun x y z x' y' z' dir dir' => bedID_injective x y z x' y' z' dir dir'⟩,
    ⟨?_, fillID_injective⟩⟩
  · intro plan s hs
    obtain ⟨e, c⟩ := blockCreate_ok t h plan s hs
    exact ⟨by rw [e], c⟩
  · intro plan s hs
    obtain ⟨e, c, _⟩ := bedCreate_ok t h plan s hs
    exact ⟨by rw [e], c⟩
  · intro plan s hs
    obtain ⟨e, c⟩ := fillCreate_ok t h plan s hs
    exact ⟨by rw [e], c⟩

/-- Witness of C19: the blocks at (1, -2, 3) and (1, 2, -3) get the ids
`block-1--2-3` and `block-1-2--3`, which differ. -/
theorem ids_collision_free_witness :
    positionalID "block" 1 (-2) 3 = "block-1--2-3" ∧
    positionalID "block" 1 2 (-3) = "block-1-2--3" ∧
    positionalID "block" 1 (-2) 3 ≠ positionalID "block" 1 2 (-3) :=
  ⟨by decide, by decide,
   fun he => absurd ((ids_collision_free okTransport []).1.2 1 (-2) 3 1 2 (-3) he).2.1
     (by decide)⟩

/-! ## team, gamerule, op: the id and the name -/

/-- C21, at names with a leading and a trailing space: the successful Create of
the team ` red ` persists the id `red` next to the name ` red `, the one of the
gamerule ` keepInventory ` the id `keepInventory` next to the name
` keepInventory `, and the one of the op ` Steve ` the id `Steve` next to the
player ` Steve `; in each state the id differs from the attribute that the
schema says it is the same as. -/
theorem create_id_is_trimmed_name :
    (teamCreate asciiText (some okTransport) [] paddedTeamPlan).state =
      some { paddedTeamPlan with ID := .value "red" } ∧
    paddedTeamPlan.Name = .value " red " ∧
    (gameruleCreate asciiText (some okTransport) [] paddedRulePlan).state =
      some { paddedRulePlan with ID := .value "keepInventory" } ∧
    paddedRulePlan.Name = .value " keepInventory " ∧
    (opCreate asciiText (some okTransport) [] paddedOpPlan).state =
      some { paddedOpPlan with ID := .value "Steve" } ∧
    paddedOpPlan.Player = .value " Steve " := by
  decide

/-! ## Composite objects: failure of the first part -/

/-- C22: when the first placement of a double chest (the left half) or of a bed
(the foot) fails with the error text `e`, Create has issued that one placement
and nothing else (no second placement, no DeleteBlock), writes no state, and
reports exactly one error, the one of the first part ending in `e`. -/
theorem composite_create_first_part_fails (t : Transport) (h : List Cmd) (e : String) :
    (∀ d : chestResourceModel,
      d.Size.ValueString = "double" →
      t h (.CreateBlock (chestBlock d "left") d.Position.X.ValueInt32
        d.Position.Y.ValueInt32 d.Position.Z.ValueInt32) = .fail e →
      chestCreate (some t) h d =
        { cmds :=
            [.CreateBlock (chestBlock d "left") d.Position.X.ValueInt32
               d.Position.Y.ValueInt32 d.Position.Z.ValueInt32],
          errors := [⟨"Client Error", "Unable to place left half of double chest: " ++ e⟩],
          warnings := [],
          state := none }) ∧
    (∀ d : bedResourceModel,
      (bedOffset d.Direction.ValueString).2.2 = true →
      t h (.CreateBlock (bedBlock d "foot") d.Position.X.ValueInt32
        d.Position.Y.ValueInt32 d.Position.Z.ValueInt32) = .fail e →
      bedCreate t h d =
        { cmds :=
            [.CreateBlock (bedBlock d "foot") d.Position.X.ValueInt32
               d.Position.Y.ValueInt32 d.Position.Z.ValueInt32],
          errors := [⟨"Client Error", "Unable to place bed foot: " ++ e⟩],
          warnings := [],
          state := none }) := by
  refine ⟨?_, ?_⟩
  · intro d hsize h1
    have hns : ¬ d.Size.ValueString = "single" := by rw [hsize]; decide
    simp only [chestCreate, if_neg hns, if_pos hsize, h1, failWith]
  · intro d hdir h1
    have hnf : ¬ (bedOffset d.Direction.ValueString).2.2 = false := by simp [hdir]
    simp only [bedCreate, if_neg hnf, h1, failWith]

/-- Witness of C22: on a transport that is down, the double chest at
(11, 64, 11) issues its left half only and the bed facing north its foot only. -/
theorem composite_create_first_part_fails_witness :
    chestCreate (some downTransport) [] doubleChestPlan =
      { cmds := [.CreateBlock "minecraft:chest[type=left,waterlogged=true]" 11 64 11],
        errors :=
          [⟨"Client Error", "Unable to place left half of double chest: connection lost"⟩],
        warnings := [],
        state := none } ∧
    bedCreate downTransport [] northBedPlan =
      { cmds := [.CreateBlock "minecraft:red_bed[facing=north,part=foot,occupied=false]" 5 64 5],
        errors := [⟨"Client Error", "Unable to place bed foot: connection lost"⟩],
        warnings := [],
        state := none } :=
  ⟨(composite_create_first_part_fails downTransport [] "connection lost").1
      doubleChestPlan (by decide) (by decide),
   (composite_create_first_part_fails downTransport [] "connection lost").2
      northBedPlan (by decide) (by decide)⟩

/-! ## Composite objects: Delete issues every part -/

/-- C23: for the state `s` persisted by a successful Create of a chest or of a
bed, Delete on any transport issues one DeleteBlock per part whatever the
replies are (a double chest: at (x, y, z) and at (x+1, y, z); a single chest: at
(x, y, z); a bed: at the foot and at the foot plus `bedOffset` of the
direction), reports neither an error nor a warning, and the positions it
deletes are exactly the positions at which Create placed blocks. -/
theorem composite_delete_every_part (t t' : Transport) (h : List Cmd) :
    (∀ plan s, (chestCreate (some t) h plan).state = some s →
      (chestDelete (some t') s).cmds =
        (if plan.Size.ValueString = "double" then
          [.DeleteBlock plan.Position.X.ValueInt32 plan.Position.Y.ValueInt32
             plan.Position.Z.ValueInt32,
           .DeleteBlock (plan.Position.X.ValueInt32 + 1) plan.Position.Y.ValueInt32
             plan.Position.Z.ValueInt32]
         else
          [.DeleteBlock plan.Position.X.ValueInt32 plan.Position.Y.ValueInt32
             plan.Position.Z.ValueInt32]) ∧
      (chestDelete (some t') s).errors = [] ∧ (chestDelete (some t') s).warnings = [] ∧
      deletedAt (chestDelete (some t') s).cmds =
        placedAt (chestCreate (some t) h plan).cmds) ∧
    (∀ plan s, (bedCreate t h plan).state = some s →
      (bedDelete s).cmds =
        [.DeleteBlock plan.Position.X.ValueInt32 plan.Position.Y.ValueInt32
           plan.Position.Z.ValueInt32,
         .DeleteBlock (plan.Position.X.ValueInt32 + (bedOffset plan.Direction.ValueString).1)
           plan.Position.Y.ValueInt32
           (plan.Position.Z.ValueInt32 + (bedOffset plan.Direction.ValueString).2.1)] ∧
      (bedDelete s).errors = [] ∧ (bedDelete s).warnings = [] ∧
      deletedAt (bedDelete s).cmds = placedAt (bedCreate t h plan).cmds) := by
  refine ⟨?_, ?_⟩
  · intro plan s hs
    obtain ⟨e, c, hsz⟩ := chestCreate_ok t h plan s hs
    rw [c, e]
    simp only [chestDelete, chestPlacements]
    rcases hsz with hz | hz <;> simp [hz, silent, deletedAt, placedAt]
  · intro plan s hs
    obtain ⟨e, c, hd⟩ := bedCreate_ok t h plan s hs
    rw [c, e]
    simp [bedDelete, bedPlacements, hd, silent, deletedAt, placedAt]

/-- Witness of C23: Delete of the double chest created at (11, 64, 11) issues
both DeleteBlock commands on a transport on which every command fails, and
Delete of the bed created facing north deletes the foot and the head. -/
theorem composite_delete_every_part_witness :
    (chestDelete (some downTransport) doubleChest).cmds =
      [.DeleteBlock 11 64 11, .DeleteBlock 12 64 11] ∧
    (chestDelete (some downTransport) doubleChest).errors = [] ∧
    (bedDelete northBed).cmds = [.DeleteBlock 5 64 5, .DeleteBlock 5 64 4] :=
  ⟨((composite_delete_every_part okTransport downTransport []).1 doubleChestPlan doubleChest
      (by decide)).1,
   ((composite_delete_every_part okTransport downTransport []).1 doubleChestPlan doubleChest
      (by decide)).2.1,
   ((composite_delete_every_part okTransport downTransport []).2 northBedPlan northBed
      (by decide)).1⟩

/-! ## Update issues the commands of Create -/

/-- A successful Create of stairs persists the plan with its id after one placement. -/
theorem stairsCreate_ok (t : Transport) (h : List Cmd) (plan s : stairsResourceModel)
    (hs : (stairsCreate (some t) h plan).state = some s) :
    s = { plan with ID := .value (positionalID "stairs" plan.Position.X.ValueInt32
        plan.Position.Y.ValueInt32 plan.Position.Z.ValueInt32) } ∧
      (stairsCreate (some t) h plan).cmds =
        [.CreateStairs plan.Material.ValueString plan.Position.X.ValueInt32
          plan.Position.Y.ValueInt32 plan.Position.Z.ValueInt32 plan.Facing.ValueString
          plan.Half.ValueString plan.Shape.ValueString plan.Waterlogged.ValueBool] := by
  simp only [stairsCreate, positionalID] at hs ⊢
  repeat' split at hs
  all_goals simp_all [failWith, succeed]

/-- C24: for a block, stairs, a chest, a bed and a fill and every plan: when
the transport answers each command of the plan without an error, Create
succeeds after issuing exactly these commands, and so does Update, for the same
attribute values, on any other transport and history that answers them without
an error and whatever id the plan of the Update carries over from the prior
state: one placement for a block and for stairs, the placements of the size for
a chest, the foot and then the head for a bed, one fill command for a fill; and
whenever both succeed, the commands of Update are those of Create. -/
theorem update_reissues_create (t t' : Transport) (h h' : List Cmd) (i : TF String) :
    (∀ plan : blockResourceModel,
      (anyFailed t h [.CreateBlock plan.Material.ValueString plan.Position.X.ValueInt32
          plan.Position.Y.ValueInt32 plan.Position.Z.ValueInt32] = false →
        anyFailed t' h' [.CreateBlock plan.Material.ValueString plan.Position.X.ValueInt32
          plan.Position.Y.ValueInt32 plan.Position.Z.ValueInt32] = false →
        blockCreate t h plan =
          succeed [.CreateBlock plan.Material.ValueString plan.Position.X.ValueInt32
              plan.Position.Y.ValueInt32 plan.Position.Z.ValueInt32]
            { plan with ID := .value (positionalID "block" plan.Position.X.ValueInt32
                plan.Position.Y.ValueInt32 plan.Position.Z.ValueInt32) } ∧
        blockUpdate t' h' { plan with ID := i } =
          succeed [.CreateBlock plan.Material.ValueString plan.Position.X.ValueInt32
              plan.Position.Y.ValueInt32 plan.Position.Z.ValueInt32]
            { plan with ID := i }) ∧
      (∀ s s', (blockCreate t h plan).state = some s →
        (blockUpdate t' h' { plan with ID := i }).state = some s' →
        (blockUpdate t' h' { plan with ID := i }).cmds = (blockCreate t h plan).cmds)) ∧
    (∀ plan : stairsResourceModel,
      (anyFailed t h [.CreateStairs plan.Material.ValueString plan.Position.X.ValueInt32
          plan.Position.Y.ValueInt32 plan.Position.Z.ValueInt32 plan.Facing.ValueString
          plan.Half.ValueString plan.Shape.ValueString plan.Waterlogged.ValueBool] = false →
        anyFailed t' h' [.CreateStairs plan.Material.ValueString plan.Position.X.ValueInt32
          plan.Position.Y.ValueInt32 plan.Position.Z.ValueInt32 plan.Facing.ValueString
          plan.Half.ValueString plan.Shape.ValueString plan.Waterlogged.ValueBool] = false →
        stairsCreate (some t) h plan =
          succeed [.CreateStairs plan.Material.ValueString plan.Position.X.ValueInt32
              plan.Position.Y.ValueInt32 plan.Position.Z.ValueInt32 plan.Facing.ValueString
              plan.Half.ValueString plan.Shape.ValueString plan.Waterlogged.ValueBool]
            { plan with ID := .value (positionalID "stairs" plan.Position.X.ValueInt32
                plan.Position.Y.ValueInt32 plan.Position.Z.ValueInt32) } ∧
        stairsUpdate (some t') h' { plan with ID := i } =
          succeed [.CreateStairs plan.Material.ValueString plan.Position.X.ValueInt32
              plan.Position.Y.ValueInt32 plan.Position.Z.ValueInt32 plan.Facing.ValueString
              plan.Half.ValueString plan.Shape.ValueString plan.Waterlogged.ValueBool]
            { plan with ID := i }) ∧
      (∀ s s', (stairsCreate (some t) h plan).state = some s →
        (stairsUpdate (some t') h' { plan with ID := i }).state = some s' →
        (stairsUpdate (some t') h' { plan with ID := i }).cmds =
          (stairsCreate (some t) h plan).cmds)) ∧
    (∀ plan : chestResourceModel,
      (plan.Size.ValueString = "single" ∨ plan.Size.ValueString = "double" →
        anyFailed t h (chestPlacements plan) = false →
        anyFailed t' h' (chestPlacements plan) = false →
        chestCreate (some t) h plan =
          succeed (chestPlacements plan)
            { plan with ID := .value (positionalID "chest" plan.Position.X.ValueInt32
                plan.Position.Y.ValueInt32 plan.Position.Z.ValueInt32) } ∧
        chestUpdate (some t') h' { plan with ID := i } =
          succeed (chestPlacements plan) { plan with ID := i }) ∧
      (∀ s s', (chestCreate (some t) h plan).state = some s →
        (chestUpdate (some t') h' { plan with ID := i }).state = some s' →
        (chestUpdate (some t') h' { plan with ID := i }).cmds =
          (chestCreate (some t) h plan).cmds)) ∧
    (∀ plan : bedResourceModel,
      ((bedOffset plan.Direction.ValueString).2.2 = true →
        anyFailed t h (bedPlacements plan) = false →
        anyFailed t' h' (bedPlacements plan) = false →
        bedCreate t h plan =
          succeed (bedPlacements plan)
            { plan with ID := .value (bedID plan.Position.X.ValueInt32
                plan.Position.Y.ValueInt32 plan.Position.Z.ValueInt32
                plan.Direction.ValueString) } ∧
        bedUpdate t' h' { plan with ID := i } =
          succeed (bedPlacements plan) { plan with ID := i }) ∧
      (∀ s s', (bedCreate t h plan).state = some s →
        (bedUpdate t' h' { plan with ID := i }).state = some s' →
        (bedUpdate t' h' { plan with ID := i }).cmds = (bedCreate t h plan).cmds)) ∧
    (∀ plan : fillResourceModel,
      (anyFailed t h [fillCmd plan.Material.ValueString plan] = false →
        anyFailed t' h' [fillCmd plan.Material.ValueString plan] = false →
        fillCreate (some t) h plan =
          succeed [fillCmd plan.Material.ValueString plan]
            { plan with ID := .value (fillID plan) } ∧
        fillUpdate (some t') h' { plan with ID := i } =
          succeed [fillCmd plan.Material.ValueString plan]
            { plan with ID := .value (fillID plan) }) ∧
      (∀ s s', (fillCreate (some t) h plan).state = some s →
        (fillUpdate (some t') h' { plan with ID := i }).state = some s' →
        (fillUpdate (some t') h' { plan with ID := i }).cmds =
          (fillCreate (some t) h plan).cmds)) := by
  refine ⟨fun plan => ⟨?_, ?_⟩, fun plan => ⟨?_, ?_⟩, fun plan => ⟨?_, ?_⟩,
    fun plan => ⟨?_, ?_⟩, fun plan => ⟨?_, ?_⟩⟩
  · intro h1 h2
    simp only [anyFailed, Bool.or_false] at h1 h2
    simp only [blockCreate, blockUpdate, positionalID]
    repeat' split
    all_goals simp_all [failWith, succeed]
  · intro s s' hc hu
    rw [(blockCreate_ok t h plan s hc).2, (blockUpdate_ok t' h' _ s' hu).2]
  · intro h1 h2
    simp only [anyFailed, Bool.or_false] at h1 h2
    simp only [stairsCreate, stairsUpdate, positionalID]
    repeat' split
    all_goals simp_all [failWith, succeed]
  · intro s s' hc hu
    rw [(stairsCreate_ok t h plan s hc).2, (stairsUpdate_ok t' h' _ s' hu).2]
  · intro hsz h1 h2
    have hb : ∀ part, chestBlock { plan with ID := i } part = chestBlock plan part :=
      fun _ => rfl
    simp only [chestPlacements] at h1 h2 ⊢
    simp only [chestCreate, chestUpdate, positionalID, hb]
    rcases hsz with hz | hz
    · simp only [hz, if_true, anyFailed, Bool.or_false] at h1 h2 ⊢
      repeat' split
      all_goals simp_all [failWith, succeed]
    · have hns : ¬ plan.Size.ValueString = "single" := by rw [hz]; decide
      simp only [if_neg hns, hz, if_true, anyFailed, Bool.or_false] at h1 h2 ⊢
      repeat' split
      all_goals simp_all [failWith, succeed]
  · intro s s' hc hu
    rw [(chestCreate_ok t h plan s hc).2.1, (chestUpdate_ok t' h' _ s' hu).2.1]
    rfl
  · intro hd h1 h2
    have hb : ∀ part, bedBlock { plan with ID := i } part = bedBlock plan part :=
      fun _ => rfl
    simp only [bedPlacements, anyFailed, Bool.or_false] at h1 h2 ⊢
    simp only [bedCreate, bedUpdate, bedID, hd, hb]
    repeat' split
    all_goals simp_all [failWith, succeed]
  · intro s s' hc hu
    rw [(bedCreate_ok t h plan s hc).2.1, (bedUpdate_ok t' h' _ s' hu).2.1]
    rfl
  · intro h1 h2
    simp only [anyFailed, Bool.or_false] at h1 h2
    have hf : fillCmd plan.Material.ValueString { plan with ID := i } =
        fillCmd plan.Material.ValueString plan := rfl
    have hid : fillID { plan with ID := i } = fillID plan := rfl
    simp only [fillCreate, fillUpdate, hf, hid]
    repeat' split
    all_goals simp_all [failWith, succeed]
  · intro s s' hc hu
    rw [(fillCreate_ok t h plan s hc).2, (fillUpdate_ok t' h' _ s' hu).2]
    rfl

/-- Witness of C24: on a transport that answers every command, Create and
Update (the plan carrying the id that Create persisted, after another history)
issue the same commands for the stone block at (1, 2, 3), the oak stairs at
(2, 64, 2), the double chest at (11, 64, 11), the bed facing north at
(5, 64, 5) and the stone fill of (0,0,0)-(1,1,1). -/
theorem update_reissues_create_witness :
    (blockCreate okTransport [] stoneBlockPlan =
        succeed [.CreateBlock "minecraft:stone" 1 2 3] stoneBlock ∧
      blockUpdate okTransport [.GetDefaultGameMode] stoneBlock =
        succeed [.CreateBlock "minecraft:stone" 1 2 3] stoneBlock) ∧
    (stairsCreate (some okTransport) [] oakStairsPlan =
        succeed [.CreateStairs "minecraft:oak_stairs" 2 64 2 "north" "bottom" "straight" false]
          oakStairs ∧
      stairsUpdate (some okTransport) [.GetDefaultGameMode] oakStairs =
        succeed [.CreateStairs "minecraft:oak_stairs" 2 64 2 "north" "bottom" "straight" false]
          oakStairs) ∧
    (chestCreate (some okTransport) [] doubleChestPlan =
        succeed
          [.CreateBlock "minecraft:chest[type=left,waterlogged=true]" 11 64 11,
           .CreateBlock "minecraft:chest[type=right,waterlogged=true]" 12 64 11]
          doubleChest ∧
      chestUpdate (some okTransport) [.GetDefaultGameMode] doubleChest =
        succeed
          [.CreateBlock "minecraft:chest[type=left,waterlogged=true]" 11 64 11,
           .CreateBlock "minecraft:chest[type=right,waterlogged=true]" 12 64 11]
          doubleChest) ∧
    (bedCreate okTransport [] northBedPlan =
        succeed
          [.CreateBlock "minecraft:red_bed[facing=north,part=foot,occupied=false]" 5 64 5,
           .CreateBlock "minecraft:red_bed[facing=north,part=head,occupied=false]" 5 64 4]
          northBed ∧
      bedUpdate okTransport [.GetDefaultGameMode] northBed =
        succeed
          [.CreateBlock "minecraft:red_bed[facing=north,part=foot,occupied=false]" 5 64 5,
           .CreateBlock "minecraft:red_bed[facing=north,part=head,occupied=false]" 5 64 4]
          northBed) ∧
    (fillCreate (some okTransport) [] stoneFillPlan =
        succeed [.FillBlock "minecraft:stone" 0 0 0 1 1 1] stoneFill ∧
      fillUpdate (some okTransport) [.GetDefaultGameMode] stoneFill =
        succeed [.FillBlock "minecraft:stone" 0 0 0 1 1 1] stoneFill) :=
  ⟨((update_reissues_create okTransport okTransport [] [.GetDefaultGameMode]
      (.value "block-1-2-3")).1 stoneBlockPlan).1 (by decide) (by decide),
   ((update_reissues_create okTransport okTransport [] [.GetDefaultGameMode]
      (.value "stairs-2-64-2")).2.1 oakStairsPlan).1 (by decide) (by decide),
   ((update_reissues_create okTransport okTransport [] [.GetDefaultGameMode]
      (.value "chest-11-64-11")).2.2.1 doubleChestPlan).1 (by decide) (by decide) (by decide),
   ((update_reissues_create okTransport okTransport [] [.GetDefaultGameMode]
      (.value "bed-5-64-5-north")).2.2.2.1 northBedPlan).1 (by decide) (by decide) (by decide),
   ((update_reissues_create okTransport okTransport [] [.GetDefaultGameMode]
      (.value "minecraft:stone|0,0,0->1,1,1")).2.2.2.2 stoneFillPlan).1 (by decide)
      (by decide)⟩

/-! ## entity, sheep, zombie: the token -/

/-- C25: for an entity, a sheep and a zombie and every token `id` generated in
Create: Create issues exactly the summon command carrying `id` and the position
string `<x> <y> <z>`; when the summon succeeds the state persisted is the plan
with id `id`, and Delete of a state persisted by Create issues exactly the
delete command with the same `id`, the same position string and the entity type
(the persisted one for an entity, `minecraft:sheep` and `minecraft:zombie`
otherwise); when the summon fails nothing is persisted. -/
theorem entity_token_threads (g : GoText) (toFloat32 : Nat → Nat) (t t' : Transport)
    (h h' : List Cmd) (id : String) :
    (∀ plan : entityResourceModel,
      (entityCreate (some t) h id plan).cmds =
        [.CreateEntity plan.EntityType.ValueString
          (entityPos plan.Position.X.ValueInt32 plan.Position.Y.ValueInt32
            plan.Position.Z.ValueInt32) id] ∧
      ((∃ r, t h (.CreateEntity plan.EntityType.ValueString
          (entityPos plan.Position.X.ValueInt32 plan.Position.Y.ValueInt32
            plan.Position.Z.ValueInt32) id) = .ok r) →
        (entityCreate (some t) h id plan).state = some { plan with ID := .value id }) ∧
      (∀ s, (entityCreate (some t) h id plan).state = some s →
        s.ID = .value id ∧
        (entityDelete (some t') h' s).cmds =
          [.DeleteEntity plan.EntityType.ValueString
            (entityPos plan.Position.X.ValueInt32 plan.Position.Y.ValueInt32
              plan.Position.Z.ValueInt32) id]) ∧
      ((∃ e, t h (.CreateEntity plan.EntityType.ValueString
          (entityPos plan.Position.X.ValueInt32 plan.Position.Y.ValueInt32
            plan.Position.Z.ValueInt32) id) = .fail e) →
        (entityCreate (some t) h id plan).state = none)) ∧
    (∀ plan : sheepResourceModel,
      (sheepCreate g (some t) h id plan).cmds =
        [.CreateSheep
          (entityPos plan.Position.X.ValueInt32 plan.Position.Y.ValueInt32
            plan.Position.Z.ValueInt32) id (g.toLower plan.Color.ValueString)
          plan.Sheared.ValueBool] ∧
      ((∃ r, t h (.CreateSheep
          (entityPos plan.Position.X.ValueInt32 plan.Position.Y.ValueInt32
            plan.Position.Z.ValueInt32) id (g.toLower plan.Color.ValueString)
          plan.Sheared.ValueBool) = .ok r) →
        (sheepCreate g (some t) h id plan).state = some { plan with ID := .value id }) ∧
      (∀ s, (sheepCreate g (some t) h id plan).state = some s →
        s.ID = .value id ∧
        (sheepDelete (some t') h' s).cmds =
          [.DeleteEntity "minecraft:sheep"
            (entityPos plan.Position.X.ValueInt32 plan.Position.Y.ValueInt32
              plan.Position.Z.ValueInt32) id]) ∧
      ((∃ e, t h (.CreateSheep
          (entityPos plan.Position.X.ValueInt32 plan.Position.Y.ValueInt32
            plan.Position.Z.ValueInt32) id (g.toLower plan.Color.ValueString)
          plan.Sheared.ValueBool) = .fail e) →
        (sheepCreate g (some t) h id plan).state = none)) ∧
    (∀ plan : zombieResourceModel,
      (zombieCreate toFloat32 (some t) h id plan).cmds =
        [.CreateZombie
          (entityPos plan.Position.X.ValueInt64 plan.Position.Y.ValueInt64
            plan.Position.Z.ValueInt64) id plan.IsBaby.ValueBool plan.CanBreakDoors.ValueBool
          plan.CanPickUpLoot.ValueBool plan.PersistenceRequired.ValueBool
          (toFloat32 plan.Health.ValueFloat64)] ∧
      ((∃ r, t h (.CreateZombie
          (entityPos plan.Position.X.ValueInt64 plan.Position.Y.ValueInt64
            plan.Position.Z.ValueInt64) id plan.IsBaby.ValueBool plan.CanBreakDoors.ValueBool
          plan.CanPickUpLoot.ValueBool plan.PersistenceRequired.ValueBool
          (toFloat32 plan.Health.ValueFloat64)) = .ok r) →
        (zombieCreate toFloat32 (some t) h id plan).state =
          some { plan with ID := .value id }) ∧
      (∀ s, (zombieCreate toFloat32 (some t) h id plan).state = some s →
        s.ID = .value id ∧
        (zombieDelete (some t') h' s).cmds =
          [.DeleteEntity "minecraft:zombie"
            (entityPos plan.Position.X.ValueInt64 plan.Position.Y.ValueInt64
              plan.Position.Z.ValueInt64) id]) ∧
      ((∃ e, t h (.CreateZombie
          (entityPos plan.Position.X.ValueInt64 plan.Position.Y.ValueInt64
            plan.Position.Z.ValueInt64) id plan.IsBaby.ValueBool plan.CanBreakDoors.ValueBool
          plan.CanPickUpLoot.ValueBool plan.PersistenceRequired.ValueBool
          (toFloat32 plan.Health.ValueFloat64)) = .fail e) →
        (zombieCreate toFloat32 (some t) h id plan).state = none)) := by
  refine ⟨fun plan => ⟨?_, ?_, ?_, ?_⟩, fun plan => ⟨?_, ?_, ?_, ?_⟩,
    fun plan => ⟨?_, ?_, ?_, ?_⟩⟩
  · simp only [entityCreate]; split <;> rfl
  · rintro ⟨r, hr⟩; simp only [entityCreate, hr, succeed]
  · intro s hs
    simp only [entityCreate] at hs
    split at hs
    · simp [failWith] at hs
    · simp only [succeed, Option.some.injEq] at hs
      subst hs
      refine ⟨rfl, ?_⟩
      simp only [entityDelete, TF.ValueString]
      split <;> rfl
  · rintro ⟨e, he⟩; simp only [entityCreate, he, failWith]
  · simp only [sheepCreate]; split <;> rfl
  · rintro ⟨r, hr⟩; simp only [sheepCreate, hr, succeed]
  · intro s hs
    simp only [sheepCreate] at hs
    split at hs
    · simp [failWith] at hs
    · simp only [succeed, Option.some.injEq] at hs
      subst hs
      refine ⟨rfl, ?_⟩
      simp only [sheepDelete, TF.ValueString]
      split <;> rfl
  · rintro ⟨e, he⟩; simp only [sheepCreate, he, failWith]
  · simp only [zombieCreate]; split <;> rfl
  · rintro ⟨r, hr⟩; simp only [zombieCreate, hr, succeed]
  · intro s hs
    simp only [zombieCreate] at hs
    split at hs
    · simp [failWith] at hs
    · simp only [succeed, Option.some.injEq] at hs
      subst hs
      refine ⟨rfl, ?_⟩
      simp only [zombieDelete, TF.ValueString]
      split <;> rfl
  · rintro ⟨e, he⟩; simp only [zombieCreate, he, failWith]

/-- Witness of C25: the pig summoned with the token `tok-1` at (1, 64, -3) is
deleted with the same token and the position string `1 64 -3`; a summon on a
transport that is down persists nothing. -/
theorem entity_token_threads_witness :
    (entityCreate (some okTransport) [] "tok-1" pigPlan).state =
      some { pigPlan with ID := .value "tok-1" } ∧
    (entityDelete (some downTransport) [] { pigPlan with ID := .value "tok-1" }).cmds =
      [.DeleteEntity "minecraft:pig" "1 64 -3" "tok-1"] ∧
    (sheepCreate asciiText (some okTransport) [] "tok-2" redSheepPlan).cmds =
      [.CreateSheep "1 64 -3" "tok-2" "red" false] ∧
    (zombieCreate id (some downTransport) [] "tok-3" babyZombiePlan).state = none :=
  ⟨((entity_token_threads asciiText id okTransport downTransport [] [] "tok-1").1
      pigPlan).2.1 ⟨"", by decide⟩,
   (((entity_token_threads asciiText id okTransport downTransport [] [] "tok-1").1
      pigPlan).2.2.1 { pigPlan with ID := .value "tok-1" } (by decide)).2,
   ((entity_token_threads asciiText id okTransport downTransport [] [] "tok-2").2.1
      redSheepPlan).1,
   ((entity_token_threads asciiText id downTransport downTransport [] [] "tok-3").2.2
      babyZombiePlan).2.2.2 ⟨"connection lost", by decide⟩⟩

/-! ## Composite objects: failure of the second part of an Update -/

/-- C26: when the first placement of an Update of a double chest or of a bed
succeeds and the second one fails with the error text `e`, Update has issued
the two placements and no DeleteBlock, writes no state, and reports exactly one
error, the one of the second part ending in `e`; Create on the same replies
issues the same two placements followed by the DeleteBlock of the first part. -/
theorem composite_update_second_part_fails (t : Transport) (h : List Cmd) (e : String) :
    (∀ d : chestResourceModel,
      d.Size.ValueString = "double" →
      (∃ r, t h (.CreateBlock (chestBlock d "left") d.Position.X.ValueInt32
        d.Position.Y.ValueInt32 d.Position.Z.ValueInt32) = .ok r) →
      t (h ++ [.CreateBlock (chestBlock d "left") d.Position.X.ValueInt32
          d.Position.Y.ValueInt32 d.Position.Z.ValueInt32])
        (.CreateBlock (chestBlock d "right") (d.Position.X.ValueInt32 + 1)
          d.Position.Y.ValueInt32 d.Position.Z.ValueInt32) = .fail e →
      chestUpdate (some t) h d =
        { cmds :=
            [.CreateBlock (chestBlock d "left") d.Position.X.ValueInt32
               d.Position.Y.ValueInt32 d.Position.Z.ValueInt32,
             .CreateBlock (chestBlock d "right") (d.Position.X.ValueInt32 + 1)
               d.Position.Y.ValueInt32 d.Position.Z.ValueInt32],
          errors := [⟨"Client Error", "Unable to update right half of double chest: " ++ e⟩],
          warnings := [],
          state := none } ∧
      (chestCreate (some t) h d).cmds =
        (chestUpdate (some t) h d).cmds ++
          [.DeleteBlock d.Position.X.ValueInt32 d.Position.Y.ValueInt32
            d.Position.Z.ValueInt32]) ∧
    (∀ d : bedResourceModel,
      (bedOffset d.Direction.ValueString).2.2 = true →
      (∃ r, t h (.CreateBlock (bedBlock d "foot") d.Position.X.ValueInt32
        d.Position.Y.ValueInt32 d.Position.Z.ValueInt32) = .ok r) →
      t (h ++ [.CreateBlock (bedBlock d "foot") d.Position.X.ValueInt32
          d.Position.Y.ValueInt32 d.Position.Z.ValueInt32])
        (.CreateBlock (bedBlock d "head")
          (d.Position.X.ValueInt32 + (bedOffset d.Direction.ValueString).1)
          d.Position.Y.ValueInt32
          (d.Position.Z.ValueInt32 + (bedOffset d.Direction.ValueString).2.1)) = .fail e →
      bedUpdate t h d =
        { cmds :=
            [.CreateBlock (bedBlock d "foot") d.Position.X.ValueInt32
               d.Position.Y.ValueInt32 d.Position.Z.ValueInt32,
             .CreateBlock (bedBlock d "head")
               (d.Position.X.ValueInt32 + (bedOffset d.Direction.ValueString).1)
               d.Position.Y.ValueInt32
               (d.Position.Z.ValueInt32 + (bedOffset d.Direction.ValueString).2.1)],
          errors := [⟨"Client Error", "Unable to update bed head: " ++ e⟩],
          warnings := [],
          state := none } ∧
      (bedCreate t h d).cmds =
        (bedUpdate t h d).cmds ++
          [.DeleteBlock d.Position.X.ValueInt32 d.Position.Y.ValueInt32
            d.Position.Z.ValueInt32]) := by
  refine ⟨?_, ?_⟩
  · rintro d hsize ⟨r, h1⟩ h2
    have hns : ¬ d.Size.ValueString = "single" := by rw [hsize]; decide
    simp [chestUpdate, chestCreate, if_neg hns, if_pos hsize, h1, h2, failWith]
  · rintro d hdir ⟨r, h1⟩ h2
    simp [bedUpdate, bedCreate, hdir, h1, h2, failWith]

/-- Witness of C26: the Update of the double chest at (11, 64, 11) whose right
half fails leaves the left half placed, and so does the Update of the bed
facing north with its foot. -/
theorem composite_update_second_part_fails_witness :
    chestUpdate (some onlySecondFails) [] doubleChest =
      { cmds :=
          [.CreateBlock "minecraft:chest[type=left,waterlogged=true]" 11 64 11,
           .CreateBlock "minecraft:chest[type=right,waterlogged=true]" 12 64 11],
        errors :=
          [⟨"Client Error", "Unable to update right half of double chest: connection lost"⟩],
        warnings := [],
        state := none } ∧
    bedUpdate secondFails [] northBed =
      { cmds :=
          [.CreateBlock "minecraft:red_bed[facing=north,part=foot,occupied=false]" 5 64 5,
           .CreateBlock "minecraft:red_bed[facing=north,part=head,occupied=false]" 5 64 4],
        errors := [⟨"Client Error", "Unable to update bed head: connection lost"⟩],
        warnings := [],
        state := none } :=
  ⟨((composite_update_second_part_fails onlySecondFails [] "connection lost").1
      doubleChest (by decide) ⟨"", by decide⟩ (by decide)).1,
   ((composite_update_second_part_fails secondFails [] "connection lost").2
      northBed (by decide) ⟨"", by decide⟩ (by decide)).1⟩

/-! ## team: an option that fails on Create -/

/-- C27, at the team red with the color blue on a transport that rejects the
color: Create issues CreateTeam and SetTeamColor and nothing after them,
reports the error of the color and writes no state; no DeleteTeam is among its
commands, whereas Create of the double chest at (11, 64, 11) ends with the
DeleteBlock of its first part when the second part fails. -/
theorem teamCreate_leaves_team_behind :
    teamCreate asciiText (some colorFails) [] blueTeamPlan =
      { cmds := [.CreateTeam "red" "red", .SetTeamColor "red" "blue"],
        errors := [⟨"Client Error", "unable to set color: unknown color"⟩],
        warnings := [],
        state := none } ∧
    Cmd.DeleteTeam "red" ∉ (teamCreate asciiText (some colorFails) [] blueTeamPlan).cmds ∧
    (chestCreate (some onlySecondFails) [] doubleChestPlan).cmds.getLast? =
      some (.DeleteBlock 11 64 11) := by
  decide

/-! ## team_member: Delete mirrors Create -/

/-- The target picked by `pickTeamMemberTarget` is the first target that is set. -/
theorem pickTeamMemberTarget_eq (d : teamMemberResourceModel) :
    pickTeamMemberTarget d = (setTargets d).headD ("", "") := by
  have e1 : (!d.Player.IsNull && !d.Player.IsUnknown &&
      decide (trimSpace d.Player.ValueString ≠ "")) = isSet d.Player := rfl
  have e2 : (!d.Selector.IsNull && !d.Selector.IsUnknown &&
      decide (trimSpace d.Selector.ValueString ≠ "")) = isSet d.Selector := rfl
  have e3 : (!d.EntityID.IsNull && !d.EntityID.IsUnknown &&
      decide (trimSpace d.EntityID.ValueString ≠ "")) = isSet d.EntityID := rfl
  simp only [pickTeamMemberTarget, setTargets, e1, e2, e3]
  cases isSet d.Player <;> cases isSet d.Selector <;> cases isSet d.EntityID <;> simp

/-- The value of every target listed by `setTargets` is not empty. -/
theorem setTargets_value (d : teamMemberResourceModel) (kind value : String)
    (hmem : (kind, value) ∈ setTargets d) : value ≠ "" := by
  unfold setTargets at hmem
  simp only [List.mem_append] at hmem
  rcases hmem with (hm | hm) | hm <;> split at hm <;> simp at hm <;>
    rename_i hset <;> simp [isSet] at hset <;> rw [hm.2] <;> exact hset.2

/-- The join call issues its one command whatever the reply is. -/
theorem teamMemberJoin_cmds (g : GoText) (t : Transport) (h : List Cmd)
    (data : teamMemberResourceModel) (c : Cmd) (what team kind value : String) :
    (teamMemberJoin g t h data c what team kind value).cmds = [c] := by
  simp only [teamMemberJoin]; split <;> rfl

/-- The leave call issues its one command whatever the reply is. -/
theorem teamMemberLeave_cmds (g : GoText) (t : Transport) (h : List Cmd) (c : Cmd)
    (what value : String) : (teamMemberLeave g t h c what value).cmds = [c] := by
  simp only [teamMemberLeave]; split <;> rfl

/-- C28: for a team-member plan that `validateTeamMemberCreate` accepts with
(team, kind, value) and whose Create succeeds with the state `st`:
`pickTeamMemberTarget` of `st` is exactly (kind, value), Create issued exactly
the join command of that kind with the team and the value, and Delete of `st`
issues, on any transport and whatever the reply is, exactly one command, the
leave command of the same kind with the same trimmed value. -/
theorem teamMember_delete_mirrors_create (g : GoText) (t t' : Transport) (h h' : List Cmd)
    (d st : teamMemberResourceModel) (team kind value : String)
    (hv : validateTeamMemberCreate d = .ok (team, kind, value))
    (hs : (teamMemberCreate g (some t) h d).state = some st) :
    pickTeamMemberTarget st = (kind, value) ∧
    (teamMemberCreate g (some t) h d).cmds = [joinCmd kind team value] ∧
    (teamMemberDelete g (some t') h' st).cmds = [leaveCmd kind value] := by
  have hteam : trimSpace d.Team.ValueString ≠ "" := by
    intro he
    simp [validateTeamMemberCreate, he] at hv
  have hset : setTargets d = [(kind, value)] := by
    rw [validateTeamMemberCreate_eq d hteam] at hv
    match hst : setTargets d with
    | [] => rw [hst] at hv; simp at hv
    | [(k, v)] =>
      rw [hst] at hv
      simp only [Except.ok.injEq, Prod.mk.injEq] at hv
      rw [hv.2.1, hv.2.2]
    | _ :: _ :: _ => rw [hst] at hv; simp at hv
  have hk : kind ∈ memberKinds :=
    setTargets_kind d kind value (by rw [hset]; exact List.mem_singleton_self _)
  have hval : value ≠ "" :=
    setTargets_value d kind value (by rw [hset]; exact List.mem_singleton_self _)
  have hpd : pickTeamMemberTarget d = (kind, value) := by
    rw [pickTeamMemberTarget_eq, hset]; rfl
  simp only [memberKinds, List.mem_cons, List.mem_singleton, List.not_mem_nil,
    or_false] at hk
  have hst : st = { d with ID := .value (team ++ "|" ++ kind ++ "|" ++ value) } := by
    simp only [teamMemberCreate, hv] at hs
    rcases hk with rfl | rfl | rfl <;> simp [teamMemberJoin] at hs <;>
      split at hs <;> simp_all [failWith, succeed]
  have hps : pickTeamMemberTarget st = (kind, value) := by
    rw [hst]; exact hpd
  refine ⟨hps, ?_, ?_⟩
  · simp only [teamMemberCreate, hv]
    rcases hk with rfl | rfl | rfl <;> simp [teamMemberJoin_cmds, joinCmd]
  · simp only [teamMemberDelete, hps]
    rcases hk with rfl | rfl | rfl <;> simp [hval, teamMemberLeave_cmds, leaveCmd]

/-- Witness of C28: Steve, planned as `Steve ` for the team ` blue `, joins with
`JoinTeamPlayers blue Steve` and leaves with `LeaveTeamPlayers Steve`, also on
a transport that is down. -/
theorem teamMember_delete_mirrors_create_witness :
    pickTeamMemberTarget { stevePlan with ID := .value "blue|player|Steve" } =
      ("player", "Steve") ∧
    (teamMemberCreate asciiText (some okTransport) [] stevePlan).cmds =
      [.JoinTeamPlayers "blue" "Steve"] ∧
    (teamMemberDelete asciiText (some downTransport) []
      { stevePlan with ID := .value "blue|player|Steve" }).cmds =
      [.LeaveTeamPlayers "Steve"] :=
  teamMember_delete_mirrors_create asciiText okTransport downTransport [] [] stevePlan
    { stevePlan with ID := .value "blue|player|Steve" } "blue" "player" "Steve"
    (by rfl) (by decide)

/-! ## gamerule: the classes of a value -/

/-- The write of a gamerule issues its one command whatever the reply is. -/
theorem gameruleSet_cmds (g : GoText) (t : Transport) (h : List Cmd) (c : Cmd) (name : String)
    (st : gameruleResourceModel) : (gameruleSet g t h c name st).cmds = [c] := by
  simp only [gameruleSet]; split <;> rfl

/-- The commands of a gamerule Create are the write its plan asks for. -/
theorem gameruleCreate_cmds (g : GoText) (t : Transport) (h : List Cmd)
    (d : gameruleResourceModel) :
    (gameruleCreate g (some t) h d).cmds = (gameruleWrite g d).toList := by
  simp only [gameruleCreate, gameruleWrite]
  split
  · simp [gameruleSet_cmds]
  · split <;> simp [gameruleSet_cmds, failWith]

/-- The commands of a gamerule Update are the write its plan asks for. -/
theorem gameruleUpdate_cmds (g : GoText) (t : Transport) (h : List Cmd)
    (d : gameruleResourceModel) :
    (gameruleUpdate g (some t) h d).cmds = (gameruleWrite g d).toList := by
  simp only [gameruleUpdate, gameruleWrite]
  split
  · simp [gameruleSet_cmds]
  · split <;> simp [gameruleSet_cmds, failWith]

/-- C29: with `n` the trimmed name and `v` the trimmed value of a gamerule plan,
Update issues the same commands as Create, and Create issues exactly
`SetGameRuleInt n i` if and only if `v` parses as the integer `i`; exactly
`SetGameRuleBool n b` if and only if `v` is no integer, the lowercase of `v` is
`true` or `false`, and `b` tells whether it is `true`; and no command if and
only if `v` is neither, in which case Create and Update report the one error
`Invalid Gamerule Value` and write no state. -/
theorem gamerule_value_classes (g : GoText) (t : Transport) (h : List Cmd)
    (d : gameruleResourceModel) :
    (gameruleUpdate g (some t) h d).cmds = (gameruleCreate g (some t) h d).cmds ∧
    (∀ i, (gameruleCreate g (some t) h d).cmds =
        [.SetGameRuleInt (trimSpace d.Name.ValueString) i] ↔
      atoi (trimSpace d.Value.ValueString) = some i) ∧
    (∀ b, (gameruleCreate g (some t) h d).cmds =
        [.SetGameRuleBool (trimSpace d.Name.ValueString) b] ↔
      atoi (trimSpace d.Value.ValueString) = none ∧
        (g.toLower (trimSpace d.Value.ValueString) = "true" ∨
          g.toLower (trimSpace d.Value.ValueString) = "false") ∧
        b = (g.toLower (trimSpace d.Value.ValueString) == "true")) ∧
    ((atoi (trimSpace d.Value.ValueString) = none ∧
        g.toLower (trimSpace d.Value.ValueString) ≠ "true" ∧
        g.toLower (trimSpace d.Value.ValueString) ≠ "false") →
      gameruleCreate g (some t) h d =
        failWith [] "Invalid Gamerule Value"
          ("Value " ++ g.quote (trimSpace d.Value.ValueString) ++
            " is neither an integer nor true/false.") ∧
      gameruleUpdate g (some t) h d =
        failWith [] "Invalid Gamerule Value"
          ("Value " ++ g.quote (trimSpace d.Value.ValueString) ++
            " is neither an integer nor true/false.")) ∧
    ((gameruleCreate g (some t) h d).cmds = [] →
      atoi (trimSpace d.Value.ValueString) = none ∧
        g.toLower (trimSpace d.Value.ValueString) ≠ "true" ∧
        g.toLower (trimSpace d.Value.ValueString) ≠ "false") := by
  refine ⟨by rw [gameruleUpdate_cmds, gameruleCreate_cmds], ?_, ?_, ?_, ?_⟩
  · intro i
    rw [gameruleCreate_cmds]
    simp only [gameruleWrite]
    cases ha : atoi (trimSpace d.Value.ValueString) with
    | some j => simp
    | none => simp only []; split <;> simp
  · intro b
    rw [gameruleCreate_cmds]
    simp only [gameruleWrite]
    cases ha : atoi (trimSpace d.Value.ValueString) with
    | some j => simp
    | none =>
      simp only []
      split
      · rename_i hb
        constructor
        · intro hc
          simp only [Option.toList_some, List.cons.injEq, Cmd.SetGameRuleBool.injEq, true_and,
            and_true] at hc
          exact ⟨trivial, hb, hc.symm⟩
        · rintro ⟨_, _, rfl⟩; rfl
      · rename_i hb; simp [hb]
  · rintro ⟨ha, h1, h2⟩
    have hn : ¬ (g.toLower (trimSpace d.Value.ValueString) = "true" ∨
        g.toLower (trimSpace d.Value.ValueString) = "false") := by
      rintro (hx | hx)
      · exact h1 hx
      · exact h2 hx
    simp only [gameruleCreate, gameruleUpdate, ha, if_neg hn, and_self]
  · rw [gameruleCreate_cmds]
    simp only [gameruleWrite]
    cases ha : atoi (trimSpace d.Value.ValueString) with
    | some j => simp
    | none =>
      simp only []
      split
      · simp
      · rename_i hb; intro _; exact ⟨trivial, fun hx => hb (Or.inl hx), fun hx => hb (Or.inr hx)⟩

/-- Witness of C29: the values `true`, ` False` and `3` give a boolean write of
true, a boolean write of false and an integer write of 3, on Create as on
Update; the value `fast` is rejected. -/
theorem gamerule_value_classes_witness :
    (gameruleCreate asciiText (some okTransport) [] (rulePlan "keepInventory" "true")).cmds =
      [.SetGameRuleBool "keepInventory" true] ∧
    (gameruleCreate asciiText (some okTransport) [] (rulePlan "doDaylightCycle" " False")).cmds =
      [.SetGameRuleBool "doDaylightCycle" false] ∧
    (gameruleCreate asciiText (some okTransport) [] (rulePlan "randomTickSpeed" "3")).cmds =
      [.SetGameRuleInt "randomTickSpeed" 3] ∧
    (gameruleUpdate asciiText (some okTransport) [] (rulePlan "randomTickSpeed" "3")).cmds =
      [.SetGameRuleInt "randomTickSpeed" 3] ∧
    gameruleCreate asciiText (some okTransport) [] (rulePlan "randomTickSpeed" "fast") =
      failWith [] "Invalid Gamerule Value"
        "Value \"fast\" is neither an integer nor true/false." :=
  ⟨((gamerule_value_classes asciiText okTransport []
      (rulePlan "keepInventory" "true")).2.2.1 true).2 (by decide),
   ((gamerule_value_classes asciiText okTransport []
      (rulePlan "doDaylightCycle" " False")).2.2.1 false).2 (by decide),
   ((gamerule_value_classes asciiText okTransport []
      (rulePlan "randomTickSpeed" "3")).2.1 3).2 (by decide),
   by
    rw [(gamerule_value_classes asciiText okTransport []
      (rulePlan "randomTickSpeed" "3")).1]
    decide,
   ((gamerule_value_classes asciiText okTransport []
      (rulePlan "randomTickSpeed" "fast")).2.2.2.1 (by decide)).1⟩

/-! ## bed: the offset of the head -/

/-- C30: `bedOffset` is (0, -1) for north, (0, 1) for south, (1, 0) for east and
(-1, 0) for west, each valid, and (0, 0) and invalid for every other string;
it is valid exactly on the four directions, a valid offset is one step along
one axis, and opposite directions have negated offsets; a Create that succeeds
has a valid direction and placed the foot at (x, y, z) and the head at
(x + dx, y, z + dz); Create and Update reject every other direction with one
Validation Error, no command and no state. -/
theorem bedOffset_unit_step :
    bedOffset "north" = (0, -1, true) ∧ bedOffset "south" = (0, 1, true) ∧
    bedOffset "east" = (1, 0, true) ∧ bedOffset "west" = (-1, 0, true) ∧
    (∀ f, f ∉ directions → bedOffset f = (0, 0, false)) ∧
    (∀ f, (bedOffset f).2.2 = true ↔ f ∈ directions) ∧
    (∀ f, f ∈ directions → (bedOffset f).1.natAbs + (bedOffset f).2.1.natAbs = 1) ∧
    ((bedOffset "south").1 = -(bedOffset "north").1 ∧
      (bedOffset "south").2.1 = -(bedOffset "north").2.1 ∧
      (bedOffset "west").1 = -(bedOffset "east").1 ∧
      (bedOffset "west").2.1 = -(bedOffset "east").2.1) ∧
    (∀ (t : Transport) (h : List Cmd) (d s : bedResourceModel),
      (bedCreate t h d).state = some s →
      d.Direction.ValueString ∈ directions ∧
      (bedCreate t h d).cmds =
        [.CreateBlock (bedBlock d "foot") d.Position.X.ValueInt32 d.Position.Y.ValueInt32
           d.Position.Z.ValueInt32,
         .CreateBlock (bedBlock d "head")
           (d.Position.X.ValueInt32 + (bedOffset d.Direction.ValueString).1)
           d.Position.Y.ValueInt32
           (d.Position.Z.ValueInt32 + (bedOffset d.Direction.ValueString).2.1)]) ∧
    (∀ (t : Transport) (h : List Cmd) (d : bedResourceModel),
      d.Direction.ValueString ∉ directions →
      bedCreate t h d =
        failWith [] "Validation Error" "direction must be one of north|south|east|west" ∧
      bedUpdate t h d =
        failWith [] "Validation Error" "direction must be one of north|south|east|west") := by
  have hv : ∀ f, (bedOffset f).2.2 = true ↔ f ∈ directions := by
    intro f
    simp only [bedOffset, directions, List.mem_cons, List.mem_singleton, List.not_mem_nil,
      or_false]
    by_cases h1 : f = "north"
    · simp [h1]
    · by_cases h2 : f = "south"
      · simp [h2]
      · by_cases h3 : f = "east"
        · simp [h3]
        · by_cases h4 : f = "west"
          · simp [h4]
          · simp [h1, h2, h3, h4]
  refine ⟨by decide, by decide, by decide, by decide, ?_, hv, ?_, by decide, ?_, ?_⟩
  · intro f hf
    simp only [directions, List.mem_cons, List.mem_singleton, List.not_mem_nil, or_false,
      not_or] at hf
    simp [bedOffset, hf.1, hf.2.1, hf.2.2.1, hf.2.2.2]
  · intro f hf
    simp only [directions, List.mem_cons, List.mem_singleton, List.not_mem_nil,
      or_false] at hf
    rcases hf with rfl | rfl | rfl | rfl <;> decide
  · intro t h d s hs
    obtain ⟨_, c, hd⟩ := bedCreate_ok t h d s hs
    exact ⟨(hv _).1 hd, by rw [c]; rfl⟩
  · intro t h d hd
    have hf : (bedOffset d.Direction.ValueString).2.2 = false := by
      cases hb : (bedOffset d.Direction.ValueString).2.2 with
      | false => rfl
      | true => exact absurd ((hv _).1 hb) hd
    simp only [bedCreate, bedUpdate, hf, if_true, and_self]

/-- Witness of C30: the bed facing north with its foot at (5, 64, 5) gets its
head at (5, 64, 4); the direction `up` is rejected, and `North` is not a
direction. -/
theorem bedOffset_unit_step_witness :
    (bedCreate okTransport [] northBedPlan).cmds =
      [.CreateBlock "minecraft:red_bed[facing=north,part=foot,occupied=false]" 5 64 5,
       .CreateBlock "minecraft:red_bed[facing=north,part=head,occupied=false]" 5 64 4] ∧
    bedCreate okTransport [] upBedPlan =
      failWith [] "Validation Error" "direction must be one of north|south|east|west" ∧
    bedOffset "North" = (0, 0, false) :=
  ⟨(bedOffset_unit_step.2.2.2.2.2.2.2.2.1 okTransport [] northBedPlan northBed
      (by decide)).2,
   (bedOffset_unit_step.2.2.2.2.2.2.2.2.2 okTransport [] upBedPlan (by decide)).1,
   bedOffset_unit_step.2.2.2.2.1 "North" (by decide)⟩

end Minecraft
